import Mathlib

/-! Detection pipeline of the antivirus backend.

A shallow embedding of the heuristic scorer (`ml/MLEngine.cpp`), the bounded
event buffer (`utils/CircularBuffer.hpp`), the detection engine
(`core/DetectionEngine.cpp`) and the status and control API
(`api/APIServer.cpp`), followed by the properties proved about them.

Conventions of the embedding:
* C++ `float` and `double` values are finite rationals (`FloatVal`). The
  scorer is written once over a rounding function (`predictWith`,
  `totalScoreWith`, ...): with `round32`, the rounding of IEEE 754 binary32,
  it is the arithmetic of the compiled code, in which `0.9f` is the binary32
  value nearest to `9/10` and every product and sum is rounded; with the
  identity (`predict`, `totalScore`, ...) it is exact arithmetic, used where
  a property does not turn on rounding.
* `size_t` and `uint64_t` arithmetic wraps modulo `2^64` (`SIZE_MOD`).
* An operation whose C++ behaviour is undefined (an out-of-range vector
  access, a remainder by zero) or that ends the process (`std::terminate`)
  yields `none`; every other result is `some`.
* What the code reads from its environment (clocks, the process table) is
  an explicit argument, and so is what the environment can refuse: the
  creation of the monitoring thread (`startWith`) and the memory for a
  string or a registry entry (`ScanEnv.lookup_alloc`, `scanProcessWith`).
  `start` and `scanProcess` are the runs in which nothing is refused.
-/

namespace AntivirusCore

/-! ## Types.hpp -/

/-- C++ floating-point values: the finite ones, as rationals. -/
abbrev FloatVal := ℚ

/-- The modulus of `size_t` and `uint64_t` arithmetic. -/
def SIZE_MOD : Nat := 18446744073709551616

/-- Addition on `size_t`. -/
def sizeAdd (a b : Nat) : Nat := (a + b) % SIZE_MOD

/-- The integer nearest to a rational, a tie going to the even one. -/
def roundEven (y : ℚ) : ℤ :=
  if y - ⌊y⌋ < 1 / 2 then ⌊y⌋
  else if y - ⌊y⌋ > 1 / 2 then ⌊y⌋ + 1
  else if ⌊y⌋ % 2 = 0 then ⌊y⌋ else ⌊y⌋ + 1

/-- The rounding of IEEE 754 binary32 (`float`) arithmetic, to nearest with ties
to even: the value is kept to 24 significant bits, and to the spacing `2^-149`
below `2^-126`. Only finite values are represented: a magnitude beyond the
binary32 range is rounded in the same way instead of becoming an infinity. -/
def round32 (x : ℚ) : ℚ :=
  (roundEven (x / 2 ^ (max (Int.log 2 |x|) (-126) - 23)) : ℚ)
    * 2 ^ (max (Int.log 2 |x|) (-126) - 23)

inductive ThreatLevel where
  | LOW
  | MEDIUM
  | HIGH
  | CRITICAL
deriving DecidableEq, Repr

inductive ThreatType where
  | KEYLOGGER
  | SPYWARE
  | ROOTKIT
  | TROJAN
  | VIRUS
  | WORM
  | ADWARE
  | POTENTIALLY_UNWANTED_PROGRAM
  | SUSPICIOUS_BEHAVIOR
  | UNKNOWN
deriving DecidableEq, Repr

/-! ## ml/MLEngine.hpp -/

abbrev FeatureVector := List FloatVal

/-- Checked element read `v[i]` of a `std::vector`. -/
def vecRead {α : Type} (v : List α) (i : Nat) : Option α := v[i]?

/-- Checked element write `v[i] = x` of a `std::vector`. -/
def vecWrite {α : Type} (v : List α) (i : Nat) (x : α) : Option (List α) :=
  if i < v.length then some (v.set i x) else none

structure ModelMetadata where
  model_path : String
  model_version : String
  input_names : List String
  output_names : List String
  input_shape : List Int
  class_labels : List String
  /-- Value `none` stands for the member before its first assignment. -/
  confidence_threshold : Option FloatVal
  load_time : Nat
deriving DecidableEq, Repr

structure PredictionResult where
  predicted_class : ThreatType
  confidence : FloatVal
  class_probabilities : List FloatVal
  features_used : FeatureVector
  /-- Value `none` stands for the member left unassigned by `predict`. -/
  inference_time_ms : Option FloatVal
  is_valid : Bool
deriving DecidableEq, Repr

structure HeuristicRule where
  name : String
  weight : FloatVal
  keywords : List String
deriving DecidableEq, Repr

structure MLEngine where
  metadata_ : ModelMetadata
  initialized_ : Bool
  model_loaded_ : Bool
  /-- Whether `thread_pool_` holds a pool. -/
  thread_pool_ : Bool
  inference_count_ : Nat
  heuristic_rules_ : List HeuristicRule
deriving DecidableEq, Repr

/-! ## ml/MLEngine.cpp -/

/-- The constructor `MLEngine::MLEngine()`. -/
def MLEngine.new : MLEngine :=
  { metadata_ :=
      { model_path := "", model_version := "", input_names := [], output_names := [],
        input_shape := [], class_labels := [], confidence_threshold := none, load_time := 0 }
    initialized_ := false
    model_loaded_ := false
    thread_pool_ := true
    inference_count_ := 0
    heuristic_rules_ := [] }

def initializeHeuristicRules (m : MLEngine) : MLEngine :=
  let suspicious_names : HeuristicRule :=
    { name := "suspicious_process_names", weight := 0.8,
      keywords := ["keylog", "keycatch", "keystroke", "keyspy", "logger",
                   "winlog", "hook", "capture", "record", "monitor"] }
  let hook_behavior : HeuristicRule :=
    { name := "keyboard_hook_behavior", weight := 0.9, keywords := [] }
  let hidden_process : HeuristicRule :=
    { name := "hidden_process_behavior", weight := 0.7, keywords := [] }
  { m with heuristic_rules_ := [suspicious_names, hook_behavior, hidden_process] }

/-- The method `MLEngine::initialize()`; `now` is the system clock reading. -/
def MLEngine.initialize (m : MLEngine) (now : Nat) : Bool × MLEngine :=
  if m.initialized_ then (true, m)
  else
    let m1 := initializeHeuristicRules m
    let md := { m1.metadata_ with
                  model_version := "Heuristic_v1.0"
                  confidence_threshold := some 0.75
                  class_labels := ["SAFE", "KEYLOGGER", "SPYWARE", "SUSPICIOUS", "MALWARE"]
                  load_time := now }
    (true, { m1 with metadata_ := md, model_loaded_ := true, initialized_ := true })

def MLEngine.loadModel (m : MLEngine) (model_path : String) : Bool × MLEngine :=
  if !m.initialized_ then (false, m)
  else (true, { m with metadata_ := { m.metadata_ with model_path := model_path },
                       model_loaded_ := true })

def MLEngine.shutdown (m : MLEngine) : MLEngine :=
  { m with thread_pool_ := false, model_loaded_ := false, initialized_ := false,
           heuristic_rules_ := [] }

/-- The function `analyzeProcessFeatures`. The argument `fl` is the rounding of
the `float` arithmetic: it is applied to every decimal literal that binary32
does not hold exactly and to the result of every addition, subtraction and
multiplication. With `round32` the function computes as the code does; with `id`
it computes in exact arithmetic. -/
def analyzeProcessFeaturesWith (fl : FloatVal → FloatVal) (features : FeatureVector)
    (offset : Nat) : Option FloatVal :=
  if sizeAdd offset 2 ≥ features.length then some 0
  else do
    let score : FloatVal := 0
    let name_suspicion ← vecRead features offset
    let cpu_usage ← vecRead features (sizeAdd offset 1)
    let memory_usage ← vecRead features (sizeAdd offset 2)
    let score := if cpu_usage > 10 ∨ memory_usage > 50 then fl (score + fl 0.3) else score
    let score := fl (score + fl (name_suspicion * fl 0.7))
    pure (min 1 score)

/-- The function `analyzeHookFeatures`, with the rounding `fl` of its
arithmetic. -/
def analyzeHookFeaturesWith (fl : FloatVal → FloatVal) (features : FeatureVector)
    (offset : Nat) : Option FloatVal :=
  if sizeAdd offset 2 ≥ features.length then some 0
  else do
    let hook_count ← vecRead features offset
    let keyboard_hooks ← vecRead features (sizeAdd offset 1)
    let hidden_windows ← vecRead features (sizeAdd offset 2)
    let score : FloatVal := 0
    let score := if keyboard_hooks > 0 then fl (score + fl 0.8) else score
    let score := if hook_count > 3 then fl (score + fl 0.4) else score
    let score := if hidden_windows > 0 then fl (score + fl 0.6) else score
    pure (min 1 score)

/-- The function `analyzeActivityFeatures`, with the rounding `fl` of its
arithmetic. -/
def analyzeActivityFeaturesWith (fl : FloatVal → FloatVal) (features : FeatureVector)
    (offset : Nat) : Option FloatVal :=
  if sizeAdd offset 3 ≥ features.length then some 0
  else do
    let file_operations ← vecRead features offset
    let network_activity ← vecRead features (sizeAdd offset 1)
    let registry_access ← vecRead features (sizeAdd offset 2)
    let encryption_apis ← vecRead features (sizeAdd offset 3)
    let score : FloatVal := 0
    let score := if file_operations > 100 then fl (score + fl 0.2) else score
    let score := if network_activity > 10 then fl (score + fl 0.3) else score
    let score := if registry_access > 50 then fl (score + fl 0.2) else score
    let score := if encryption_apis > 0 then fl (score + fl 0.5) else score
    pure (min 1 score)

/-- The weighted sum computed at the top of `analyzeWithHeuristics`, with the
rounding `fl` of its arithmetic: three products, then two additions from the
left, each operation rounded on its own (`float` evaluation without fused
multiply-add). -/
def totalScoreWith (fl : FloatVal → FloatVal) (features : FeatureVector) : Option FloatVal :=
  if features.length ≥ 10 then do
    let process_score ← analyzeProcessFeaturesWith fl features 0
    let hook_score ← analyzeHookFeaturesWith fl features 3
    let activity_score ← analyzeActivityFeaturesWith fl features 6
    pure (fl (fl (fl (process_score * fl 0.4) + fl (hook_score * fl 0.5))
            + fl (activity_score * fl 0.1)))
  else some 0

/-- The function `analyzeWithHeuristics`, with the rounding `fl` of its
arithmetic: the thresholds are the literals `0.9f`, `0.7f` and `0.5f`. -/
def analyzeWithHeuristicsWith (fl : FloatVal → FloatVal) (features : FeatureVector) :
    Option PredictionResult := do
  let class_probabilities : List FloatVal := List.replicate 5 0
  let total_score ← totalScoreWith fl features
  if total_score ≥ fl 0.9 then
    let probs ← vecWrite class_probabilities 1 total_score
    pure { predicted_class := ThreatType.KEYLOGGER, confidence := total_score,
           class_probabilities := probs, features_used := [],
           inference_time_ms := none, is_valid := false }
  else if total_score ≥ fl 0.7 then
    let probs ← vecWrite class_probabilities 2 total_score
    pure { predicted_class := ThreatType.SPYWARE, confidence := total_score,
           class_probabilities := probs, features_used := [],
           inference_time_ms := none, is_valid := false }
  else if total_score ≥ fl 0.5 then
    let probs ← vecWrite class_probabilities 3 total_score
    pure { predicted_class := ThreatType.SUSPICIOUS_BEHAVIOR, confidence := total_score,
           class_probabilities := probs, features_used := [],
           inference_time_ms := none, is_valid := false }
  else
    let probs ← vecWrite class_probabilities 0 (fl (1 - total_score))
    pure { predicted_class := ThreatType.UNKNOWN, confidence := fl (1 - total_score),
           class_probabilities := probs, features_used := [],
           inference_time_ms := none, is_valid := false }

/-- The method `MLEngine::predict`, with the rounding `fl` of the arithmetic of
the scorer; `elapsed_ms` is the duration the two clock readings of the call
measure. -/
def MLEngine.predictWith (fl : FloatVal → FloatVal) (m : MLEngine) (features : FeatureVector)
    (elapsed_ms : FloatVal) : Option (PredictionResult × MLEngine) :=
  if !m.model_loaded_ then
    some ({ predicted_class := ThreatType.UNKNOWN, confidence := 0,
            class_probabilities := [], features_used := [],
            inference_time_ms := none, is_valid := false }, m)
  else do
    let result ← analyzeWithHeuristicsWith fl features
    let result := { result with inference_time_ms := some elapsed_ms,
                                features_used := features, is_valid := true }
    pure (result, { m with inference_count_ := (m.inference_count_ + 1) % SIZE_MOD })

/-- The function `analyzeProcessFeatures` in exact arithmetic. -/
def analyzeProcessFeatures (features : FeatureVector) (offset : Nat) : Option FloatVal :=
  analyzeProcessFeaturesWith id features offset

/-- The function `analyzeHookFeatures` in exact arithmetic. -/
def analyzeHookFeatures (features : FeatureVector) (offset : Nat) : Option FloatVal :=
  analyzeHookFeaturesWith id features offset

/-- The function `analyzeActivityFeatures` in exact arithmetic. -/
def analyzeActivityFeatures (features : FeatureVector) (offset : Nat) : Option FloatVal :=
  analyzeActivityFeaturesWith id features offset

/-- The weighted sum computed at the top of `analyzeWithHeuristics`, in exact
arithmetic. -/
def totalScore (features : FeatureVector) : Option FloatVal :=
  totalScoreWith id features

/-- The function `analyzeWithHeuristics` in exact arithmetic. -/
def analyzeWithHeuristics (features : FeatureVector) : Option PredictionResult :=
  analyzeWithHeuristicsWith id features

/-- The method `MLEngine::predict` in exact arithmetic; `elapsed_ms` is the
duration the two clock readings of the call measure. -/
def MLEngine.predict (m : MLEngine) (features : FeatureVector) (elapsed_ms : FloatVal) :
    Option (PredictionResult × MLEngine) :=
  MLEngine.predictWith id m features elapsed_ms

def MLEngine.reloadModel (m : MLEngine) : Bool × MLEngine :=
  if !m.initialized_ || m.metadata_.model_path.isEmpty then (false, m)
  else m.loadModel m.metadata_.model_path

/-- The engine states that the public operations produce from a constructed
engine. -/
inductive MLEngine.Reachable : MLEngine → Prop where
  | created : MLEngine.Reachable MLEngine.new
  | initialized (m : MLEngine) (now : Nat) :
      MLEngine.Reachable m → MLEngine.Reachable ( MLEngine.initialize m now).2
  | loaded (m : MLEngine) (model_path : String) :
      MLEngine.Reachable m → MLEngine.Reachable (m.loadModel model_path).2
  | reloaded (m : MLEngine) : MLEngine.Reachable m → MLEngine.Reachable m.reloadModel.2
  | stopped (m : MLEngine) : MLEngine.Reachable m → MLEngine.Reachable m.shutdown
  | predicted (m m' : MLEngine) (features : FeatureVector) (elapsed_ms : FloatVal)
      (result : PredictionResult) :
      MLEngine.Reachable m → m.predict features elapsed_ms = some (result, m') →
      MLEngine.Reachable m'

/-! ## utils/CircularBuffer.hpp -/

/-- The remainder `a % c` on `size_t`; a zero divisor is undefined behaviour. -/
def sizeRem (a c : Nat) : Option Nat := if c = 0 then none else some (a % c)

structure CircularBuffer (T : Type) where
  buffer_ : List T
  capacity_ : Nat
  head_ : Nat
  tail_ : Nat
  size_ : Nat
deriving DecidableEq, Repr

namespace CircularBuffer

variable {T : Type}

/-- The constructor `CircularBuffer(size_t capacity)`: `capacity` value-initialised
slots. -/
def new [Inhabited T] (capacity : Nat) : CircularBuffer T :=
  { buffer_ := List.replicate capacity default, capacity_ := capacity,
    head_ := 0, tail_ := 0, size_ := 0 }

def push (b : CircularBuffer T) (item : T) : Option (Bool × CircularBuffer T) := do
  let b1 ←
    if b.size_ ≥ b.capacity_ then do
      let t ← sizeRem (sizeAdd b.tail_ 1) b.capacity_
      pure { b with tail_ := t }
    else
      pure { b with size_ := sizeAdd b.size_ 1 }
  let buf ← vecWrite b1.buffer_ b1.head_ item
  let h ← sizeRem (sizeAdd b1.head_ 1) b1.capacity_
  pure (true, { b1 with buffer_ := buf, head_ := h })

/-- The method `pop(T& item)`: the second component is the value of the
out-parameter `item` after the call. -/
def pop (b : CircularBuffer T) (item : T) : Option (Bool × T × CircularBuffer T) :=
  if b.size_ = 0 then some (false, item, b)
  else do
    let x ← vecRead b.buffer_ b.tail_
    let t ← sizeRem (sizeAdd b.tail_ 1) b.capacity_
    pure (true, x, { b with tail_ := t, size_ := b.size_ - 1 })

def size (b : CircularBuffer T) : Nat := b.size_

def empty (b : CircularBuffer T) : Bool := b.size_ == 0

def full (b : CircularBuffer T) : Bool := decide (b.size_ ≥ b.capacity_)

/-- A sequence of `push` calls, in list order. -/
def pushAll (b : CircularBuffer T) : List T → Option (CircularBuffer T)
  | [] => some b
  | x :: xs => do
    let r ← b.push x
    pushAll r.2 xs

/-- The number `n` of successive `pop` calls; the items of the calls that
returned `true` are collected in call order. -/
def popN (b : CircularBuffer T) (item : T) : Nat → Option (List T × CircularBuffer T)
  | 0 => some ([], b)
  | n + 1 => do
    let r ← b.pop item
    let rest ← popN r.2.2 r.2.1 n
    pure (if r.1 then r.2.1 :: rest.1 else rest.1, rest.2)

/-- The representation invariant of a buffer of non-zero capacity. -/
def WF (b : CircularBuffer T) : Prop :=
  b.buffer_.length = b.capacity_ ∧ 0 < b.capacity_ ∧ b.capacity_ < SIZE_MOD ∧
  b.head_ < b.capacity_ ∧ b.tail_ < b.capacity_ ∧ b.size_ ≤ b.capacity_ ∧
  b.head_ = (b.tail_ + b.size_) % b.capacity_

/-- The items a buffer retains, oldest first: the `size_` slots from `tail_` on,
wrapping at `capacity_`. -/
def contents [Inhabited T] (b : CircularBuffer T) : List T :=
  (List.range b.size_).map (fun i => b.buffer_.getD ((b.tail_ + i) % b.capacity_) default)

/-- The buffer states that `push` and `pop` calls produce from a newly
constructed buffer of the given capacity. -/
inductive Reachable [Inhabited T] (capacity : Nat) : CircularBuffer T → Prop where
  | created : Reachable capacity (new capacity)
  | pushed (b b' : CircularBuffer T) (item : T) (r : Bool) :
      Reachable capacity b → b.push item = some (r, b') → Reachable capacity b'
  | popped (b b' : CircularBuffer T) (item out : T) (r : Bool) :
      Reachable capacity b → b.pop item = some (r, out, b') → Reachable capacity b'

end CircularBuffer

/-! ## core/ThreatProcessor.hpp, core/DetectionEngine.hpp -/

structure ProcessInfo where
  processId : Nat
  name : String
  path : String
  parentId : Nat
deriving DecidableEq, Repr

structure ThreatScanResult where
  processId : Nat
  isThreat : Bool
  threatType : ThreatType
  confidence : FloatVal
  description : String
  errorMessage : String
deriving DecidableEq, Repr

/-- The default constructor `ThreatScanResult()`; its `ThreatType::Unknown` is the
enumerator `UNKNOWN`. -/
def ThreatScanResult.new : ThreatScanResult :=
  { processId := 0, isThreat := false, threatType := ThreatType.UNKNOWN, confidence := 0,
    description := "", errorMessage := "" }

/-- Modelled from the spec: the declaration of `ThreatInfo` is not among the
sources. The fields are those of the spec's ThreatRecord; `scanProcess` assigns
all of them except `id`. -/
structure ThreatInfo where
  id : String
  processName : String
  processId : Nat
  type : ThreatType
  level : ThreatLevel
  confidence : FloatVal
  description : String
  filePath : String
  detectedAt : Nat
deriving DecidableEq, Repr

inductive State where
  | STOPPED
  | STARTING
  | RUNNING
  | SCANNING
  | UPDATING
  | ERROR
deriving DecidableEq, Repr

structure Config where
  max_threads : Nat
  buffer_size : Nat
  scan_interval : Nat
  enable_realtime_protection : Bool
  enable_heuristic_analysis : Bool
  threat_threshold : FloatVal
deriving DecidableEq, Repr

/-- The member initialisers of `Config`. -/
def Config.default : Config :=
  { max_threads := 8, buffer_size := 10000, scan_interval := 1000,
    enable_realtime_protection := true, enable_heuristic_analysis := true,
    threat_threshold := 0.8 }

structure Statistics where
  events_processed : Nat
  threats_detected : Nat
  false_positives : Nat
  avg_processing_time : FloatVal
  start_time : Nat
deriving DecidableEq, Repr

/-- The engine as `DetectionEngine.cpp` uses it (members `config_`, `state_`,
`stop_flag_`, `monitoring_thread_`, `detected_threats_`, `statistics_`). -/
structure DetectionEngine where
  config_ : Config
  state_ : State
  stop_flag_ : Bool
  /-- Whether `monitoring_thread_` owns a thread (`joinable()`). -/
  monitoring_thread_ : Bool
  /-- The threads executing `monitoringLoop` that were created and not yet joined. -/
  live_loops_ : Nat
  detected_threats_ : List ThreatInfo
  statistics_ : Statistics
deriving DecidableEq, Repr

/-- What the operating system reports for an opened process. -/
structure OSProcess where
  baseName : Option String
  fileName : Option String

/-- The environment of a scan. `OpenProcess pid` is `none` when the call returns
the NULL handle. `lookup_alloc` is `some what` when the allocation for a copy of
the name or of the path of the process into the record throws a `std::exception`
(a `std::bad_alloc`) with message `what`, and `none` when these copies succeed. -/
structure ScanEnv where
  OpenProcess : Nat → Option OSProcess
  snapshot : Option (List Nat)
  now : Nat
  to_string : FloatVal → String
  lookup_alloc : Option String := none

/-- The statements of the `try` block of `scanProcess` after the lookup in which
an allocation can throw: the name test and the location test, which build their
static keyword lists on first use and make a lower-cased copy of their argument
(`scoring`), the text of `result.description` (`describing`), and the copies
into the threat record and into the registry (`registering`). -/
inductive ScanStage where
  | scoring
  | describing
  | registering
deriving DecidableEq, Repr

/-! ## core/DetectionEngine.cpp -/

namespace DetectionEngine

/-- The constructor; `now` is the steady clock reading. The flag and the
counters start as their member initialisers give them (`false`, `0`). -/
def new (config : Config) (now : Nat) : DetectionEngine :=
  { config_ := config, state_ := State.STOPPED, stop_flag_ := false,
    monitoring_thread_ := false, live_loops_ := 0, detected_threats_ := [],
    statistics_ := { events_processed := 0, threats_detected := 0, false_positives := 0,
                     avg_processing_time := 0, start_time := now } }

def initializeComponents : Bool := true

/-- The method `start()`. The argument `thread` is the outcome of constructing
the `std::thread` that runs `monitoringLoop`: `Except.error what` when the
constructor throws a `std::exception` (a `std::system_error`) with message
`what`, which the `catch` block of `start()` handles. Assigning to a
`std::thread` that is still joinable ends the process (`none`). -/
def startWith (e : DetectionEngine) (thread : Except String Unit) :
    Option (Bool × DetectionEngine) :=
  if e.state_ = State.RUNNING then some (true, e)
  else
    let e1 := { e with state_ := State.STARTING }
    if !initializeComponents then some (false, { e1 with state_ := State.ERROR })
    else
      match thread with
      | Except.error _ => some (false, { e1 with state_ := State.ERROR })
      | Except.ok _ =>
        if e1.monitoring_thread_ then none
        else
          let e2 := { e1 with monitoring_thread_ := true, live_loops_ := e1.live_loops_ + 1 }
          some (true, { e2 with state_ := State.RUNNING })

/-- The method `start()` when the monitoring thread is created: `startWith` on a
thread construction that succeeds. -/
def start (e : DetectionEngine) : Option (Bool × DetectionEngine) :=
  startWith e (Except.ok ())

/-- The method `stop()`; `join` returns once the loop has left, which removes
the thread from the live ones. -/
def stop (e : DetectionEngine) : Bool × DetectionEngine :=
  if e.state_ = State.STOPPED then (true, e)
  else
    let e1 := { e with state_ := State.STOPPED }
    let e2 := { e1 with stop_flag_ := true }
    let e3 := if e2.monitoring_thread_ then
                { e2 with monitoring_thread_ := false, live_loops_ := e2.live_loops_ - 1 }
              else e2
    (true, e3)

def registerThreat (e : DetectionEngine) (threat : ThreatInfo) : DetectionEngine :=
  let threats := e.detected_threats_ ++ [threat]
  let threats := if threats.length > 1000 then threats.tail else threats
  { e with detected_threats_ := threats }

def getDetectedThreats (e : DetectionEngine) : List ThreatInfo := e.detected_threats_

def getStatistics (e : DetectionEngine) : Statistics := e.statistics_

def getState (e : DetectionEngine) : State := e.state_

/-- The transformation `std::transform(..., ::tolower)` of a string. -/
def toLower (s : String) : List Char := s.toList.map Char.toLower

/-- The test `haystack.find(needle) != std::string::npos`. -/
def contains (haystack : List Char) (needle : String) : Bool :=
  decide (needle.toList <:+: haystack)

def suspicious_names : List String :=
  ["keylogger", "keygrab", "keyspy", "spyware",
   "logger", "capture", "hook", "stealer",
   "keystr", "klog", "winlog", "svchost32"]

def isProcessNameSuspicious (name : String) : Bool :=
  let lower_name := toLower name
  suspicious_names.any (fun suspicious => contains lower_name suspicious)

def suspicious_paths : List String :=
  ["\\temp\\", "\\tmp\\", "\\appdata\\local\\temp\\",
   "\\users\\public\\", "\\programdata\\", "\\windows\\temp\\"]

def isLocationSuspicious (path : String) : Bool :=
  let lower_path := toLower path
  suspicious_paths.any (fun suspicious => contains lower_path suspicious)

def hasKeyboardHooks (_processId : Nat) : Bool := false

def hasSuspiciousNetworkActivity (_processId : Nat) : Bool := false

/-- The assignment of a character array to a `std::string` member of the
record: the copy, or the exception of its allocation. -/
def assignString (env : ScanEnv) (text : String) : Except String String :=
  match env.lookup_alloc with
  | some what => Except.error what
  | none => Except.ok text

def getProcessInfo (env : ScanEnv) (processId : Nat) : Except String ProcessInfo := do
  let info : ProcessInfo := { processId := processId, name := "", path := "", parentId := 0 }
  let hProcess := env.OpenProcess processId
  match hProcess with
  | none => pure info
  | some p =>
    let info ← match p.baseName with
      | some processName => do
        let name ← assignString env processName
        pure { info with name := name }
      | none => pure info
    let info ← match p.fileName with
      | some processPath => do
        let path ← assignString env processPath
        pure { info with path := path }
      | none => pure info
    pure info

/-- The sum `suspicion_score` that `scanProcess` builds from the four checks. -/
def suspicionScore (info : ProcessInfo) (processId : Nat) : FloatVal :=
  let suspicion_score : FloatVal := 0
  let suspicion_score :=
    if isProcessNameSuspicious info.name then suspicion_score + 0.3 else suspicion_score
  let suspicion_score :=
    if isLocationSuspicious info.path then suspicion_score + 0.2 else suspicion_score
  let suspicion_score :=
    if hasKeyboardHooks processId then suspicion_score + 0.4 else suspicion_score
  let suspicion_score :=
    if hasSuspiciousNetworkActivity processId then suspicion_score + 0.3 else suspicion_score
  suspicion_score

/-- The method `scanProcess`. The argument `fault` is `some (stage, what)` when
an allocation of that stage throws a `std::exception` (a `std::bad_alloc`) with
message `what`, which the `catch` block handles, and `none` when every
allocation after the lookup succeeds. The stages `describing` and `registering`
are reached only when the score reaches the threshold. -/
def scanProcessWith (e : DetectionEngine) (env : ScanEnv) (processId : Nat)
    (fault : Option (ScanStage × String)) : ThreatScanResult × DetectionEngine :=
  let result := { ThreatScanResult.new with processId := processId }
  match getProcessInfo env processId with
  | Except.error what =>
    ({ result with errorMessage := "Error scanning process: " ++ what }, e)
  | Except.ok info =>
    match fault with
    | some (ScanStage.scoring, what) =>
      ({ result with errorMessage := "Error scanning process: " ++ what }, e)
    | _ =>
      let suspicion_score := suspicionScore info processId
      let result := { result with confidence := suspicion_score }
      if suspicion_score ≥ e.config_.threat_threshold then
        let result := { result with isThreat := true, threatType := ThreatType.KEYLOGGER }
        match fault with
        | some (ScanStage.describing, what) =>
          ({ result with errorMessage := "Error scanning process: " ++ what }, e)
        | _ =>
          let result := { result with
            description :=
              "Potencial keylogger detectado - Score: " ++ env.to_string suspicion_score }
          match fault with
          | some (ScanStage.registering, what) =>
            ({ result with errorMessage := "Error scanning process: " ++ what }, e)
          | _ =>
            let threat : ThreatInfo :=
              { id := ""
                processName := info.name
                processId := processId
                type := ThreatType.KEYLOGGER
                level :=
                  if suspicion_score > 0.9 then ThreatLevel.CRITICAL else ThreatLevel.HIGH
                description := result.description
                detectedAt := env.now
                filePath := info.path
                confidence := suspicion_score }
            let e := registerThreat e threat
            let e := { e with statistics_ := { e.statistics_ with
                        threats_detected := (e.statistics_.threats_detected + 1) % SIZE_MOD } }
            (result, { e with statistics_ := { e.statistics_ with
                        events_processed := (e.statistics_.events_processed + 1) % SIZE_MOD } })
      else
        (result, { e with statistics_ := { e.statistics_ with
                    events_processed := (e.statistics_.events_processed + 1) % SIZE_MOD } })

/-- The method `scanProcess` when every allocation after the lookup succeeds. -/
def scanProcess (e : DetectionEngine) (env : ScanEnv) (processId : Nat) :
    ThreatScanResult × DetectionEngine :=
  scanProcessWith e env processId none

/-- The method `scanActiveProcesses`: one scan task per process of the snapshot,
the tasks run here one after the other in submission order. -/
def scanActiveProcesses (e : DetectionEngine) (env : ScanEnv) : DetectionEngine :=
  match env.snapshot with
  | none => e
  | some pids => pids.foldl (fun acc processId => (scanProcess acc env processId).2) e

/-- The method `monitoringLoop`, run for at most `fuel` tests of its condition:
the number of scan cycles performed and the engine they leave. -/
def monitoringLoop (e : DetectionEngine) (env : ScanEnv) : Nat → Nat × DetectionEngine
  | 0 => (0, e)
  | fuel + 1 =>
    if !e.stop_flag_ then
      let r := monitoringLoop (scanActiveProcesses e env) env fuel
      (r.1 + 1, r.2)
    else (0, e)

/-- An environment whose process table holds one process, a key logger run from
a temp folder. -/
def exampleEnv : ScanEnv :=
  { OpenProcess := fun _ =>
      some { baseName := some "KeyLogger.exe", fileName := some "C:\\Temp\\kl.exe" }
    snapshot := some [7]
    now := 0
    to_string := fun _ => "" }

/-- A newly constructed engine with threshold `0.5`. -/
def exampleEngine : DetectionEngine :=
  DetectionEngine.new { Config.default with threat_threshold := 0.5 } 0

/-- The engine states that `start`, `stop` and scans produce from a constructed
engine. -/
inductive Reachable : DetectionEngine → Prop where
  | created (config : Config) (now : Nat) : Reachable (DetectionEngine.new config now)
  | started (e e' : DetectionEngine) (r : Bool) :
      Reachable e → e.start = some (r, e') → Reachable e'
  | stopped (e : DetectionEngine) : Reachable e → Reachable e.stop.2
  | scanned (e : DetectionEngine) (env : ScanEnv) (processId : Nat) :
      Reachable e → Reachable (scanProcess e env processId).2

/-- The engine states that `start()`, whatever the outcome of constructing its
thread, `stop()` and scans produce from a constructed engine. -/
inductive ReachableWith : DetectionEngine → Prop where
  | created (config : Config) (now : Nat) : ReachableWith (DetectionEngine.new config now)
  | started (e e' : DetectionEngine) (thread : Except String Unit) (r : Bool) :
      ReachableWith e → e.startWith thread = some (r, e') → ReachableWith e'
  | stopped (e : DetectionEngine) : ReachableWith e → ReachableWith e.stop.2
  | scanned (e : DetectionEngine) (env : ScanEnv) (processId : Nat) :
      ReachableWith e → ReachableWith (scanProcess e env processId).2

end DetectionEngine

/-! ## ml/MLEngine.cpp: feature extraction -/

/-- Modelled from the spec: the declaration of the `ProcessInfo` that
`extractProcessFeatures` reads is not among the sources (the `ProcessInfo` of
Types.hpp and of ThreatProcessor.hpp have other members). The members are the
ones the function reads, the attributes of the spec's ProcessInfo entity: usage
figures are floating-point values, counts are unsigned integers, flags are
booleans. -/
structure MLEngine.ProcessInfo where
  name : String
  cpu_usage : FloatVal
  memory_mb : FloatVal
  hook_count : Nat
  has_keyboard_hooks : Bool
  has_hidden_windows : Bool
  file_operations_per_minute : Nat
  network_connections : Nat
  registry_accesses : Nat
  uses_encryption_apis : Bool
deriving DecidableEq, Repr

def MLEngine.calculateNameSuspicion (m : MLEngine) (process_name : String) : FloatVal :=
  let lower_name := DetectionEngine.toLower process_name
  m.heuristic_rules_.foldl
    (fun suspicion rule =>
      rule.keywords.foldl
        (fun suspicion keyword =>
          if DetectionEngine.contains lower_name keyword then max suspicion rule.weight
          else suspicion)
        suspicion)
    0

/-- The method `extractProcessFeatures`; the ten assignments write inside the
ten-element vector constructed first. -/
def MLEngine.extractProcessFeatures (m : MLEngine) (process_info : MLEngine.ProcessInfo) :
    FeatureVector :=
  let features : FeatureVector := List.replicate 10 0
  let features := features.set 0 (m.calculateNameSuspicion process_info.name)
  let features := features.set 1 process_info.cpu_usage
  let features := features.set 2 process_info.memory_mb
  let features := features.set 3 (process_info.hook_count : FloatVal)
  let features := features.set 4 (if process_info.has_keyboard_hooks then 1 else 0)
  let features := features.set 5 (if process_info.has_hidden_windows then 1 else 0)
  let features := features.set 6 (process_info.file_operations_per_minute : FloatVal)
  let features := features.set 7 (process_info.network_connections : FloatVal)
  let features := features.set 8 (process_info.registry_accesses : FloatVal)
  let features := features.set 9 (if process_info.uses_encryption_apis then 1 else 0)
  features

/-- The keywords of the rule `suspicious_process_names`, the only rule that has
keywords. -/
def MLEngine.suspicious_keywords : List String :=
  ["keylog", "keycatch", "keystroke", "keyspy", "logger",
   "winlog", "hook", "capture", "record", "monitor"]

/-- An environment in which the lookup opens a process and the allocation for the
copy of its name throws `std::bad_alloc`. -/
def DetectionEngine.failingEnv : ScanEnv :=
  { OpenProcess := fun _ =>
      some { baseName := some "SystemSettingsBroker.exe",
             fileName := some "C:\\Windows\\ImmersiveControlPanel\\SystemSettingsBroker.exe" }
    snapshot := some [9]
    now := 0
    to_string := fun _ => ""
    lookup_alloc := some "bad allocation" }

/-! ## ml/MLEngine.cpp: batches, and the reference scores of the design -/

/-- The method `predictBatch`: one `predict` call per vector, in order;
`elapsed_ms i` is the duration measured by the call for the vector of index `i`. -/
def MLEngine.predictBatch (m : MLEngine) (feature_batch : List FeatureVector)
    (elapsed_ms : Nat → FloatVal) : Option (List PredictionResult × MLEngine) :=
  match feature_batch with
  | [] => some ([], m)
  | features :: rest => do
    let r ← m.predict features (elapsed_ms 0)
    let rs ← MLEngine.predictBatch r.2 rest (fun i => elapsed_ms (i + 1))
    pure (r.1 :: rs.1, rs.2)

/-- Reference definition of the process score, after the design's words: 0.3 if
cpu exceeds 10 or memory exceeds 50, plus 0.7 times the name suspicion, clamped
to 1. An absent entry reads as 0. -/
def processScoreRef (f : FeatureVector) : FloatVal :=
  min 1 ((if f.getD 1 0 > 10 ∨ f.getD 2 0 > 50 then 0.3 else 0) + 0.7 * f.getD 0 0)

/-- Reference definition of the hook score, after the design's words: 0.8 if the
keyboard-hook flag is set, plus 0.4 if the hook count exceeds 3, plus 0.6 if the
hidden-window flag is set, clamped to 1. -/
def hookScoreRef (f : FeatureVector) : FloatVal :=
  min 1 ((if f.getD 4 0 > 0 then 0.8 else 0) + (if f.getD 3 0 > 3 then 0.4 else 0)
          + (if f.getD 5 0 > 0 then 0.6 else 0))

/-- Reference definition of the activity score, after the design's words: 0.2 if
file operations exceed 100, plus 0.3 if network connections exceed 10, plus 0.2 if
registry accesses exceed 50, plus 0.5 if the encryption flag is set, clamped to 1. -/
def activityScoreRef (f : FeatureVector) : FloatVal :=
  min 1 ((if f.getD 6 0 > 100 then 0.2 else 0) + (if f.getD 7 0 > 10 then 0.3 else 0)
          + (if f.getD 8 0 > 50 then 0.2 else 0) + (if f.getD 9 0 > 0 then 0.5 else 0))

/-! ## api/APIServer.hpp -/

/-- The assignment `m[key] = value` on a `std::map` with string keys. -/
def mapSet {β : Type} (m : List (String × β)) (key : String) (value : β) : List (String × β) :=
  if m.any (fun e => e.1 == key) then m.map (fun e => if e.1 == key then (key, value) else e)
  else m ++ [(key, value)]

/-- The lookup `m.find(key)` on a `std::map` with string keys; `none` is `end()`. -/
def mapFind {β : Type} (m : List (String × β)) (key : String) : Option β :=
  (m.find? (fun e => e.1 == key)).map Prod.snd

structure HTTPResponse where
  status_code : Int
  content_type : String
  body : String
  headers : List (String × String)
deriving DecidableEq, Repr

/-- The member initialisers of `HTTPResponse`. -/
def HTTPResponse.new : HTTPResponse :=
  { status_code := 200, content_type := "application/json", body := "", headers := [] }

structure HTTPRequest where
  method : String
  path : String
  query_string : String
  headers : List (String × String)
  body : String
deriving DecidableEq, Repr

structure SystemStatus where
  protection_enabled : Bool
  status : String
  threats_detected : Nat
  processes_scanned : Nat
  cpu_usage : FloatVal
  memory_usage_mb : FloatVal
  last_scan_time : String
  version : String
deriving DecidableEq, Repr

/-- The member initialisers of `SystemStatus`. -/
def SystemStatus.new : SystemStatus :=
  { protection_enabled := true, status := "RUNNING", threats_detected := 0,
    processes_scanned := 0, cpu_usage := 0, memory_usage_mb := 0, last_scan_time := "",
    version := "1.0.0" }

structure SystemConfiguration where
  real_time_protection : Bool
  scan_interval_seconds : Int
  detection_threshold : FloatVal
  auto_quarantine : Bool
  log_level : String
  notifications_enabled : Bool
deriving DecidableEq, Repr

/-- The member initialisers of `SystemConfiguration`. -/
def SystemConfiguration.new : SystemConfiguration :=
  { real_time_protection := true, scan_interval_seconds := 30, detection_threshold := 0.75,
    auto_quarantine := false, log_level := "INFO", notifications_enabled := true }

/-- The seven closures that `setupRoutes` stores in `route_handlers_`. -/
inductive RouteHandler where
  | getStatus
  | startScan
  | getThreats
  | config
  | quarantine
  | getStatistics
  | healthCheck
deriving DecidableEq, Repr

/-- The server; an engine pointer is modelled by the engine it points to, `none`
being the null pointer. -/
structure APIServer where
  host_ : String
  port_ : Int
  running_ : Bool
  /-- Whether `server_thread_` holds a thread. -/
  server_thread_ : Bool
  detection_engine_ : Option DetectionEngine
  ml_engine_ : Option MLEngine
  system_status_ : SystemStatus
  system_config_ : SystemConfiguration
  route_handlers_ : List (String × RouteHandler)
deriving DecidableEq, Repr

/-- The environment of the server: the formatted local time, the text an output
stream gives for a floating-point value, and `DetectionEngine::startFullScan`,
which is called by the server but defined in no source file (`Except.error what`
when it raises). -/
structure ApiEnv where
  currentTime : String
  formatDouble : FloatVal → String
  startFullScan : DetectionEngine → Except String (Bool × DetectionEngine)

/-! ## api/APIServer.cpp -/

namespace APIServer

def getCurrentTime (env : ApiEnv) : String := env.currentTime

/-- The constructor `APIServer(host, port)`. -/
def new (host : String) (port : Int) (env : ApiEnv) : APIServer :=
  { host_ := host, port_ := port, running_ := false, server_thread_ := false,
    detection_engine_ := none, ml_engine_ := none,
    system_status_ := { SystemStatus.new with
      protection_enabled := true, status := "INITIALIZING", threats_detected := 0,
      processes_scanned := 0, cpu_usage := 0, memory_usage_mb := 25,
      last_scan_time := getCurrentTime env },
    system_config_ := SystemConfiguration.new,
    route_handlers_ := [] }

def setupRoutes (s : APIServer) : APIServer :=
  let r := s.route_handlers_
  let r := mapSet r "/api/status" RouteHandler.getStatus
  let r := mapSet r "/api/scan/start" RouteHandler.startScan
  let r := mapSet r "/api/threats" RouteHandler.getThreats
  let r := mapSet r "/api/config" RouteHandler.config
  let r := mapSet r "/api/quarantine" RouteHandler.quarantine
  let r := mapSet r "/api/statistics" RouteHandler.getStatistics
  let r := mapSet r "/api/health" RouteHandler.healthCheck
  { s with route_handlers_ := r }

end APIServer

/-- The method `APIServer::initialize()`. -/
def APIServer.initialize (s : APIServer) : Bool × APIServer :=
  if s.running_ then (true, s)
  else
    let s := APIServer.setupRoutes s
    (true, { s with system_status_ := { s.system_status_ with status := "READY" } })

namespace APIServer

/-- The method `start()`; creating the thread that runs `serverLoop` is taken to
succeed. -/
def start (s : APIServer) : Bool × APIServer :=
  if s.running_ then (true, s)
  else
    (true, { s with server_thread_ := true, running_ := true,
                    system_status_ := { s.system_status_ with status := "RUNNING" } })

def stop (s : APIServer) : APIServer :=
  if !s.running_ then s
  else
    let s := { s with running_ := false,
                      system_status_ := { s.system_status_ with status := "STOPPING" } }
    { s with system_status_ := { s.system_status_ with status := "STOPPED" } }

def setEngines (s : APIServer) (detection_engine : Option DetectionEngine)
    (ml_engine : Option MLEngine) : APIServer :=
  { s with detection_engine_ := detection_engine, ml_engine_ := ml_engine }

/-- The text an output stream gives for a `bool` written as `b ? "true" : "false"`. -/
def boolText (b : Bool) : String := if b then "true" else "false"

def systemStatusToJSON (s : APIServer) (env : ApiEnv) : String :=
  "\x7b"
    ++ "\"protection_enabled\": " ++ boolText s.system_status_.protection_enabled ++ ","
    ++ "\"status\": \"" ++ s.system_status_.status ++ "\","
    ++ "\"threats_detected\": " ++ toString s.system_status_.threats_detected ++ ","
    ++ "\"processes_scanned\": " ++ toString s.system_status_.processes_scanned ++ ","
    ++ "\"cpu_usage\": " ++ env.formatDouble s.system_status_.cpu_usage ++ ","
    ++ "\"memory_usage_mb\": " ++ env.formatDouble s.system_status_.memory_usage_mb ++ ","
    ++ "\"last_scan_time\": \"" ++ s.system_status_.last_scan_time ++ "\","
    ++ "\"version\": \"" ++ s.system_status_.version ++ "\""
    ++ "\x7d"

def systemConfigToJSON (s : APIServer) (env : ApiEnv) : String :=
  "\x7b"
    ++ "\"real_time_protection\": " ++ boolText s.system_config_.real_time_protection ++ ","
    ++ "\"scan_interval_seconds\": " ++ toString s.system_config_.scan_interval_seconds ++ ","
    ++ "\"detection_threshold\": " ++ env.formatDouble s.system_config_.detection_threshold ++ ","
    ++ "\"auto_quarantine\": " ++ boolText s.system_config_.auto_quarantine ++ ","
    ++ "\"log_level\": \"" ++ s.system_config_.log_level ++ "\","
    ++ "\"notifications_enabled\": " ++ boolText s.system_config_.notifications_enabled
    ++ "\x7d"

def threatsToJSON (env : ApiEnv) : String :=
  "\x7b"
    ++ "\"threats\": ["
    ++ "\x7b"
    ++ "\"id\": 1,"
    ++ "\"name\": \"Suspicious Process\","
    ++ "\"type\": \"KEYLOGGER\","
    ++ "\"level\": \"HIGH\","
    ++ "\"process_name\": \"suspicious.exe\","
    ++ "\"process_id\": 1234,"
    ++ "\"confidence\": 0.95,"
    ++ "\"detected_at\": \"" ++ getCurrentTime env ++ "\","
    ++ "\"status\": \"ACTIVE\""
    ++ "\x7d"
    ++ "],"
    ++ "\"total_count\": 1"
    ++ "\x7d"

def statisticsToJSON (s : APIServer) (env : ApiEnv) : String :=
  "\x7b"
    ++ "\"scans_performed\": " ++ toString s.system_status_.processes_scanned ++ ","
    ++ "\"threats_detected\": " ++ toString s.system_status_.threats_detected ++ ","
    ++ "\"threats_quarantined\": 0,"
    ++ "\"system_performance\": \x7b"
    ++ "\"cpu_usage\": " ++ env.formatDouble s.system_status_.cpu_usage ++ ","
    ++ "\"memory_usage_mb\": " ++ env.formatDouble s.system_status_.memory_usage_mb ++ ","
    ++ "\"uptime_hours\": 1"
    ++ "\x7d,"
    ++ "\"detection_accuracy\": 0.98"
    ++ "\x7d"

def createErrorResponse (code : Int) (message : String) : HTTPResponse :=
  let response := HTTPResponse.new
  let response := { response with status_code := code }
  let response := { response with content_type := "application/json" }
  let json := "\x7b\"error\": \x7b\"code\": " ++ toString code
    ++ ", \"message\": \"" ++ message ++ "\"\x7d\x7d"
  let response := { response with body := json }
  { response with headers := mapSet response.headers "Access-Control-Allow-Origin" "*" }

def handleGetStatus (s : APIServer) (env : ApiEnv) : HTTPResponse :=
  let response := HTTPResponse.new
  let response := { response with status_code := 200 }
  let response := { response with content_type := "application/json" }
  let response := { response with body := systemStatusToJSON s env }
  let response :=
    { response with headers := mapSet response.headers "Access-Control-Allow-Origin" "*" }
  { response with
      headers := mapSet response.headers "Access-Control-Allow-Methods" "GET, POST, OPTIONS" }

def handleStartScan (s : APIServer) (env : ApiEnv) : Except String (HTTPResponse × APIServer) := do
  let response := HTTPResponse.new
  let r ← (match s.detection_engine_ with
    | some engine => do
      let scan ← env.startFullScan engine
      let s := { s with detection_engine_ := some scan.2 }
      if scan.1 then
        pure ({ response with
                  status_code := 200
                  body := "\x7b\"status\": \"success\", \"message\": \"Full scan started\"\x7d" },
              s)
      else
        pure ({ response with
                  status_code := 500
                  body := "\x7b\"status\": \"error\", \"message\": \"Failed to start scan\"\x7d" },
              s)
    | none =>
      pure ({ response with
                status_code := 503
                body :=
                  "\x7b\"status\": \"error\", \"message\": \"Detection engine not available\"\x7d" },
            s) : Except String (HTTPResponse × APIServer))
  let response := { r.1 with content_type := "application/json" }
  let response :=
    { response with headers := mapSet response.headers "Access-Control-Allow-Origin" "*" }
  pure (response, r.2)

def handleGetThreats (env : ApiEnv) : HTTPResponse :=
  let response := HTTPResponse.new
  let response := { response with status_code := 200 }
  let response := { response with content_type := "application/json" }
  let response := { response with body := threatsToJSON env }
  { response with headers := mapSet response.headers "Access-Control-Allow-Origin" "*" }

def handleGetConfig (s : APIServer) (env : ApiEnv) : HTTPResponse :=
  let response := HTTPResponse.new
  let response := { response with status_code := 200 }
  let response := { response with content_type := "application/json" }
  let response := { response with body := systemConfigToJSON s env }
  { response with headers := mapSet response.headers "Access-Control-Allow-Origin" "*" }

/-- The method `handleUpdateConfig`; the body never reads its parameter
`request`, which is left out here. -/
def handleUpdateConfig (s : APIServer) : HTTPResponse × APIServer :=
  let response := HTTPResponse.new
  let s := { s with system_config_ := { s.system_config_ with real_time_protection := true } }
  let s := { s with system_config_ := { s.system_config_ with scan_interval_seconds := 30 } }
  let response := { response with status_code := 200 }
  let response := { response with content_type := "application/json" }
  let response := { response with
    body := "\x7b\"status\": \"success\", \"message\": \"Configuration updated\"\x7d" }
  ({ response with headers := mapSet response.headers "Access-Control-Allow-Origin" "*" }, s)

def handleQuarantineThreat : HTTPResponse :=
  let response := HTTPResponse.new
  let response := { response with status_code := 200 }
  let response := { response with content_type := "application/json" }
  let response := { response with
    body := "\x7b\"status\": \"success\", \"message\": \"Threat quarantined\"\x7d" }
  { response with headers := mapSet response.headers "Access-Control-Allow-Origin" "*" }

def handleGetStatistics (s : APIServer) (env : ApiEnv) : HTTPResponse :=
  let response := HTTPResponse.new
  let response := { response with status_code := 200 }
  let response := { response with content_type := "application/json" }
  let response := { response with body := statisticsToJSON s env }
  { response with headers := mapSet response.headers "Access-Control-Allow-Origin" "*" }

/-- The local `healthy` of `handleHealthCheck`. -/
def healthy (s : APIServer) : Bool :=
  s.running_ && s.detection_engine_.isSome && s.ml_engine_.isSome

def handleHealthCheck (s : APIServer) (env : ApiEnv) : HTTPResponse :=
  let response := HTTPResponse.new
  let response := { response with status_code := 200 }
  let response := { response with content_type := "application/json" }
  let json := "\x7b"
    ++ "\"status\": \"" ++ (if healthy s then "healthy" else "unhealthy") ++ "\","
    ++ "\"timestamp\": \"" ++ getCurrentTime env ++ "\","
    ++ "\"uptime_seconds\": 3600,"
    ++ "\"components\": \x7b"
    ++ "\"detection_engine\": " ++ boolText s.detection_engine_.isSome ++ ","
    ++ "\"ml_engine\": " ++ boolText s.ml_engine_.isSome
    ++ "\x7d\x7d"
  let response := { response with body := json }
  { response with headers := mapSet response.headers "Access-Control-Allow-Origin" "*" }

/-- The call of a stored closure on a request. -/
def runHandler (h : RouteHandler) (s : APIServer) (env : ApiEnv) (req : HTTPRequest) :
    Except String (HTTPResponse × APIServer) :=
  match h with
  | RouteHandler.getStatus => pure (handleGetStatus s env, s)
  | RouteHandler.startScan => handleStartScan s env
  | RouteHandler.getThreats => pure (handleGetThreats env, s)
  | RouteHandler.config =>
    if req.method == "GET" then pure (handleGetConfig s env, s)
    else if req.method == "POST" || req.method == "PUT" then pure (handleUpdateConfig s)
    else pure (createErrorResponse 405 "Method not allowed", s)
  | RouteHandler.quarantine => pure (handleQuarantineThreat, s)
  | RouteHandler.getStatistics => pure (handleGetStatistics s env, s)
  | RouteHandler.healthCheck => pure (handleHealthCheck s env, s)

def handleRequest (s : APIServer) (env : ApiEnv) (request : HTTPRequest) :
    HTTPResponse × APIServer :=
  match mapFind s.route_handlers_ request.path with
  | some handler =>
    match runHandler handler s env request with
    | Except.ok r => r
    | Except.error what => (createErrorResponse 500 ("Internal server error: " ++ what), s)
  | none => (createErrorResponse 404 "Endpoint not found", s)

/-- The paths that `setupRoutes` registers. -/
def registeredPaths : List String :=
  ["/api/status", "/api/scan/start", "/api/threats", "/api/config", "/api/quarantine",
   "/api/statistics", "/api/health"]

/-- The server states that the public operations and handled requests produce
from a constructed server. -/
inductive Reachable : APIServer → Prop where
  | created (host : String) (port : Int) (env : ApiEnv) : Reachable (APIServer.new host port env)
  | initialized (s : APIServer) : Reachable s → Reachable ( APIServer.initialize s).2
  | started (s : APIServer) : Reachable s → Reachable s.start.2
  | stopped (s : APIServer) : Reachable s → Reachable s.stop
  | enginesSet (s : APIServer) (detection_engine : Option DetectionEngine)
      (ml_engine : Option MLEngine) :
      Reachable s → Reachable (s.setEngines detection_engine ml_engine)
  | handled (s : APIServer) (env : ApiEnv) (request : HTTPRequest) :
      Reachable s → Reachable (handleRequest s env request).2

/-- An environment with a fixed clock whose full scan starts. -/
def exampleEnv : ApiEnv :=
  { currentTime := "2024-01-01 00:00:00"
    formatDouble := fun _ => "0"
    startFullScan := fun engine => Except.ok (true, engine) }

/-- A server that was constructed, given both engines (the detection engine
in state RUNNING) and initialised, but not started. -/
def exampleServer : APIServer :=
  ( APIServer.initialize
    ((APIServer.new "127.0.0.1" 8080 exampleEnv).setEngines
      (some { DetectionEngine.new Config.default 0 with
                state_ := State.RUNNING, monitoring_thread_ := true, live_loops_ := 1 })
      (some ( MLEngine.initialize MLEngine.new 0).2))).2

end APIServer

/-! ## utils/CircularBuffer.hpp: call sequences, and the bounded list of the design -/

/-- A call that a client makes on a buffer: `push(item)` or `pop(item)`. -/
inductive BufferCall (T : Type) where
  | push (item : T)
  | pop
deriving DecidableEq, Repr

/-- What the client sees of one call: the value it returned, the item a
successful `pop` delivered, and `size()` read right after the call. -/
structure BufferView (T : Type) where
  returned : Bool
  item : Option T
  size : Nat
deriving DecidableEq, Repr

/-- A sequence of calls made on a buffer in list order; `out` is the variable
handed to `pop`. The result is what the client saw, call by call, and the buffer
the calls leave. -/
def CircularBuffer.run {T : Type} (b : CircularBuffer T) (out : T) :
    List (BufferCall T) → Option (List (BufferView T) × CircularBuffer T)
  | [] => some ([], b)
  | BufferCall.push item :: rest => do
    let r ← b.push item
    let rs ← CircularBuffer.run r.2 out rest
    pure ({ returned := r.1, item := none, size := r.2.size } :: rs.1, rs.2)
  | BufferCall.pop :: rest => do
    let r ← b.pop out
    let rs ← CircularBuffer.run r.2.2 r.2.1 rest
    pure ({ returned := r.1, item := if r.1 then some r.2.1 else none, size := r.2.2.size }
            :: rs.1, rs.2)

/-- Reference definition of `push` on a bounded FIFO list, after the design's
words: the item is appended, and the first element is dropped if the list
already had `C` elements. -/
def fifoPush {T : Type} (C : Nat) (l : List T) (x : T) : List T :=
  if l.length = C then (l ++ [x]).tail else l ++ [x]

/-- Reference definition of `pop` on a bounded FIFO list, after the design's
words: the first element is removed and returned; an empty list gives nothing. -/
def fifoPop {T : Type} (l : List T) : Option T × List T :=
  match l with
  | [] => (none, [])
  | y :: rest => (some y, rest)

/-- Reference run of a sequence of calls on a bounded FIFO list: `push` is always
answered true, `pop` is answered true with the first element unless the list is
empty, and `size()` is the length of the list. -/
def fifoRun {T : Type} (C : Nat) (l : List T) : List (BufferCall T) → List (BufferView T) × List T
  | [] => ([], l)
  | BufferCall.push item :: rest =>
    let l1 := fifoPush C l item
    let rs := fifoRun C l1 rest
    ({ returned := true, item := none, size := l1.length } :: rs.1, rs.2)
  | BufferCall.pop :: rest =>
    let r := fifoPop l
    let rs := fifoRun C r.2 rest
    ({ returned := r.1.isSome, item := r.1, size := r.2.length } :: rs.1, rs.2)

/-! ## core/DetectionEngine.cpp: a clean process -/

/-- An environment whose process table holds one process with an ordinary name
and path. -/
def DetectionEngine.benignEnv : ScanEnv :=
  { OpenProcess := fun _ =>
      some { baseName := some "notepad.exe", fileName := some "C:\\Windows\\notepad.exe" }
    snapshot := some [4]
    now := 0
    to_string := fun _ => "" }

/-! ## ml/MLEngine.cpp: the order of the classes, and the element reads of the scorer -/

/-- The severity order of the design on the four classes the scorer selects:
benign (`UNKNOWN`) below SUSPICIOUS_BEHAVIOR below SPYWARE below KEYLOGGER. A
class the scorer never selects has no rank. -/
def classSeverity : ThreatType → Option Nat
  | ThreatType.UNKNOWN => some 0
  | ThreatType.SUSPICIOUS_BEHAVIOR => some 1
  | ThreatType.SPYWARE => some 2
  | ThreatType.KEYLOGGER => some 3
  | _ => none

/-- The element reads `features[...]` that `analyzeProcessFeatures` performs on a
vector of `len` entries, in program order; `none` when its length guard returns
`0.0f` first. -/
def analyzeProcessFeaturesReads (len offset : Nat) : Option (List Nat) :=
  if sizeAdd offset 2 ≥ len then none
  else some [offset, sizeAdd offset 1, sizeAdd offset 2]

/-- The element reads of `analyzeHookFeatures`; `none` when its length guard
returns first. -/
def analyzeHookFeaturesReads (len offset : Nat) : Option (List Nat) :=
  if sizeAdd offset 2 ≥ len then none
  else some [offset, sizeAdd offset 1, sizeAdd offset 2]

/-- The element reads of `analyzeActivityFeatures`; `none` when its length guard
returns first. -/
def analyzeActivityFeaturesReads (len offset : Nat) : Option (List Nat) :=
  if sizeAdd offset 3 ≥ len then none
  else some [offset, sizeAdd offset 1, sizeAdd offset 2, sizeAdd offset 3]

/-- The helper calls that `analyzeWithHeuristics` makes on a vector of `len`
entries, in program order, each with the element reads it performs. The function
reads no element of `features` itself. -/
def analyzeWithHeuristicsReads (len : Nat) : List (Option (List Nat)) :=
  if len ≥ 10 then
    [analyzeProcessFeaturesReads len 0, analyzeHookFeaturesReads len 3,
     analyzeActivityFeaturesReads len 6]
  else []

/-! ## Scorer: auxiliary facts -/

theorem exists_ten_of_length (f : FeatureVector) (h : 10 ≤ f.length) :
    ∃ a0 a1 a2 a3 a4 a5 a6 a7 a8 a9 rest,
      f = a0 :: a1 :: a2 :: a3 :: a4 :: a5 :: a6 :: a7 :: a8 :: a9 :: rest := by
  match f, h with
  | a0 :: a1 :: a2 :: a3 :: a4 :: a5 :: a6 :: a7 :: a8 :: a9 :: rest, _ =>
    exact ⟨a0, a1, a2, a3, a4, a5, a6, a7, a8, a9, rest, rfl⟩

/-- The exact scorer is the scorer with no rounding. -/
theorem scorer_with_id (f : FeatureVector) (offset : Nat) :
    analyzeProcessFeaturesWith id f offset = analyzeProcessFeatures f offset ∧
    analyzeHookFeaturesWith id f offset = analyzeHookFeatures f offset ∧
    analyzeActivityFeaturesWith id f offset = analyzeActivityFeatures f offset ∧
    totalScoreWith id f = totalScore f ∧
    analyzeWithHeuristicsWith id f = analyzeWithHeuristics f :=
  ⟨rfl, rfl, rfl, rfl, rfl⟩

theorem analyzeProcessFeatures_ten (a0 a1 a2 a3 a4 a5 a6 a7 a8 a9 : FloatVal)
    (rest : List FloatVal) :
    analyzeProcessFeatures (a0 :: a1 :: a2 :: a3 :: a4 :: a5 :: a6 :: a7 :: a8 :: a9 :: rest) 0
      = some (min 1 ((if a1 > 10 ∨ a2 > 50 then 0.3 else 0) + a0 * 0.7)) := by
  have hlt : ¬ (List.length rest + 10 ≤ 2) := by omega
  by_cases hc : a1 > 10 ∨ a2 > 50 <;>
    simp [analyzeProcessFeatures, analyzeProcessFeaturesWith, sizeAdd, SIZE_MOD, vecRead, hlt, hc]

theorem analyzeHookFeatures_ten (a0 a1 a2 a3 a4 a5 a6 a7 a8 a9 : FloatVal)
    (rest : List FloatVal) :
    analyzeHookFeatures (a0 :: a1 :: a2 :: a3 :: a4 :: a5 :: a6 :: a7 :: a8 :: a9 :: rest) 3
      = some (min 1 ((if a4 > 0 then 0.8 else 0) + (if a3 > 3 then 0.4 else 0)
                      + (if a5 > 0 then 0.6 else 0))) := by
  have hlt : ¬ (List.length rest + 10 ≤ 5) := by omega
  by_cases h4 : a4 > 0 <;> by_cases h3 : a3 > 3 <;> by_cases h5 : a5 > 0 <;>
    simp [analyzeHookFeatures, analyzeHookFeaturesWith, sizeAdd, SIZE_MOD, vecRead, hlt, h4, h3,
      h5]

theorem analyzeActivityFeatures_ten (a0 a1 a2 a3 a4 a5 a6 a7 a8 a9 : FloatVal)
    (rest : List FloatVal) :
    analyzeActivityFeatures (a0 :: a1 :: a2 :: a3 :: a4 :: a5 :: a6 :: a7 :: a8 :: a9 :: rest) 6
      = some (min 1 ((if a6 > 100 then 0.2 else 0) + (if a7 > 10 then 0.3 else 0)
                      + (if a8 > 50 then 0.2 else 0) + (if a9 > 0 then 0.5 else 0))) := by
  have hlt : ¬ (List.length rest + 10 ≤ 9) := by omega
  by_cases h6 : a6 > 100 <;> by_cases h7 : a7 > 10 <;> by_cases h8 : a8 > 50 <;>
    by_cases h9 : a9 > 0 <;>
    simp [analyzeActivityFeatures, analyzeActivityFeaturesWith, sizeAdd, SIZE_MOD, vecRead, hlt,
      h6, h7, h8, h9]

theorem totalScore_ten (a0 a1 a2 a3 a4 a5 a6 a7 a8 a9 : FloatVal) (rest : List FloatVal) :
    totalScore (a0 :: a1 :: a2 :: a3 :: a4 :: a5 :: a6 :: a7 :: a8 :: a9 :: rest)
      = some ((min 1 ((if a1 > 10 ∨ a2 > 50 then 0.3 else 0) + a0 * 0.7)) * 0.4
              + (min 1 ((if a4 > 0 then 0.8 else 0) + (if a3 > 3 then 0.4 else 0)
                        + (if a5 > 0 then 0.6 else 0))) * 0.5
              + (min 1 ((if a6 > 100 then 0.2 else 0) + (if a7 > 10 then 0.3 else 0)
                        + (if a8 > 50 then 0.2 else 0) + (if a9 > 0 then 0.5 else 0))) * 0.1) := by
  unfold totalScore totalScoreWith
  rw [(scorer_with_id _ 0).1, (scorer_with_id _ 3).2.1, (scorer_with_id _ 6).2.2.1,
    analyzeProcessFeatures_ten, analyzeHookFeatures_ten, analyzeActivityFeatures_ten]
  simp

theorem totalScore_short (f : FeatureVector) (h : f.length < 10) : totalScore f = some 0 := by
  unfold totalScore totalScoreWith
  rw [if_neg (by omega)]

theorem analyzeWithHeuristics_of_total {f : FeatureVector} {t : FloatVal}
    (h : totalScore f = some t) :
    ∃ r, analyzeWithHeuristics f = some r ∧
      r.predicted_class =
        (if t ≥ 0.9 then ThreatType.KEYLOGGER else if t ≥ 0.7 then ThreatType.SPYWARE
         else if t ≥ 0.5 then ThreatType.SUSPICIOUS_BEHAVIOR else ThreatType.UNKNOWN) ∧
      r.confidence = (if t ≥ 0.5 then t else 1 - t) ∧
      r.class_probabilities =
        (if t ≥ 0.9 then [0, t, 0, 0, 0] else if t ≥ 0.7 then [0, 0, t, 0, 0]
         else if t ≥ 0.5 then [0, 0, 0, t, 0] else [1 - t, 0, 0, 0, 0]) := by
  unfold analyzeWithHeuristics analyzeWithHeuristicsWith
  rw [(scorer_with_id f 0).2.2.2.1, h]
  simp only [id_eq]
  by_cases h9 : t ≥ 0.9
  · have h5 : t ≥ 0.5 := by norm_num at h9 ⊢; linarith
    simp [vecWrite, h9, h5]
  · by_cases h7 : t ≥ 0.7
    · have h5 : t ≥ 0.5 := by norm_num at h7 ⊢; linarith
      simp [vecWrite, h9, h7, h5]
    · by_cases h5 : t ≥ 0.5
      · simp [vecWrite, h9, h7, h5]
      · simp [vecWrite, h9, h7, h5]

theorem predict_of_total {m : MLEngine} {f : FeatureVector} {t : FloatVal}
    (elapsed_ms : FloatVal) (hm : m.model_loaded_ = true) (h : totalScore f = some t) :
    ∃ r, m.predict f elapsed_ms
        = some (r, { m with inference_count_ := (m.inference_count_ + 1) % SIZE_MOD }) ∧
      r.predicted_class =
        (if t ≥ 0.9 then ThreatType.KEYLOGGER else if t ≥ 0.7 then ThreatType.SPYWARE
         else if t ≥ 0.5 then ThreatType.SUSPICIOUS_BEHAVIOR else ThreatType.UNKNOWN) ∧
      r.confidence = (if t ≥ 0.5 then t else 1 - t) ∧
      r.class_probabilities =
        (if t ≥ 0.9 then [0, t, 0, 0, 0] else if t ≥ 0.7 then [0, 0, t, 0, 0]
         else if t ≥ 0.5 then [0, 0, 0, t, 0] else [1 - t, 0, 0, 0, 0]) ∧
      r.features_used = f ∧ r.inference_time_ms = some elapsed_ms ∧ r.is_valid = true := by
  obtain ⟨r, hr, hc, hconf, hp⟩ := analyzeWithHeuristics_of_total h
  have hr' : analyzeWithHeuristicsWith id f = some r := hr
  refine ⟨{ r with inference_time_ms := some elapsed_ms, features_used := f, is_valid := true },
    ?_, hc, hconf, hp, rfl, rfl, rfl⟩
  simp [MLEngine.predict, MLEngine.predictWith, hm, hr']

theorem predict_not_loaded (m : MLEngine) (f : FeatureVector) (elapsed_ms : FloatVal)
    (hm : m.model_loaded_ = false) :
    m.predict f elapsed_ms
      = some ({ predicted_class := ThreatType.UNKNOWN, confidence := 0,
                class_probabilities := [], features_used := [],
                inference_time_ms := none, is_valid := false }, m) := by
  simp [MLEngine.predict, MLEngine.predictWith, hm]

/-! ## Bounded event buffer: auxiliary facts -/

theorem add_mod_cases (a j c : Nat) (ha : a < c) (hj : j ≤ c) :
    (a + j) % c = if a + j < c then a + j else a + j - c := by
  split_ifs with h
  · exact Nat.mod_eq_of_lt h
  · rw [Nat.mod_eq_sub_mod (by omega), Nat.mod_eq_of_lt (by omega)]

theorem sizeAdd_one_of_lt {a c : Nat} (ha : a < c) (hc : c < SIZE_MOD) : sizeAdd a 1 = a + 1 := by
  unfold sizeAdd
  exact Nat.mod_eq_of_lt (by omega)

theorem getD_set_ne {α : Type} (l : List α) (i j : Nat) (a d : α) (h : i ≠ j) :
    (l.set i a).getD j d = l.getD j d := by
  simp [List.getD_eq_getElem?_getD, List.getElem?_set_ne h]

theorem getD_set_self {α : Type} (l : List α) (i : Nat) (a d : α) (h : i < l.length) :
    (l.set i a).getD i d = a := by
  simp [List.getD_eq_getElem?_getD, h]

namespace CircularBuffer

variable {T : Type} [Inhabited T]

theorem WF_new (c : Nat) (h0 : 0 < c) (hc : c < SIZE_MOD) : (new c : CircularBuffer T).WF := by
  refine ⟨by simp [new], h0, hc, h0, h0, Nat.zero_le _, ?_⟩
  simp [new]

theorem contents_new (c : Nat) : (new c : CircularBuffer T).contents = [] := by
  simp [contents, new]

theorem length_contents (b : CircularBuffer T) : b.contents.length = b.size_ := by
  simp [contents]

theorem contents_eq_cons (b : CircularBuffer T) (n : Nat) (hn : b.size_ = n + 1) :
    b.contents = b.buffer_.getD ((b.tail_ + 0) % b.capacity_) default ::
      (List.range n).map
        (fun i => b.buffer_.getD ((b.tail_ + (i + 1)) % b.capacity_) default) := by
  unfold contents
  rw [hn, List.range_succ_eq_map, List.map_cons, List.map_map]
  rfl

theorem contents_eq_snoc (b : CircularBuffer T) (n : Nat) (hn : b.size_ = n + 1) :
    b.contents = (List.range n).map
        (fun i => b.buffer_.getD ((b.tail_ + i) % b.capacity_) default)
      ++ [b.buffer_.getD ((b.tail_ + n) % b.capacity_) default] := by
  unfold contents
  rw [hn, List.range_succ, List.map_append]
  rfl

/-- A push onto a buffer that is not full appends the item. -/
theorem push_not_full (b : CircularBuffer T) (x : T) (hwf : b.WF) (hlt : b.size_ < b.capacity_) :
    ∃ b', b.push x = some (true, b') ∧ b'.WF ∧ b'.contents = b.contents ++ [x] ∧
      b'.capacity_ = b.capacity_ ∧ b'.size_ = b.size_ + 1 ∧ b'.tail_ = b.tail_ ∧
      b'.head_ = (b.head_ + 1) % b.capacity_ := by
  obtain ⟨hlen, h0, hc, hh, ht, hs, hhead⟩ := hwf
  have hne : b.capacity_ ≠ 0 := by omega
  have hsz : sizeAdd b.size_ 1 = b.size_ + 1 := sizeAdd_one_of_lt hlt hc
  have hhd : sizeAdd b.head_ 1 = b.head_ + 1 := sizeAdd_one_of_lt hh hc
  have hheadc := add_mod_cases b.tail_ b.size_ b.capacity_ ht hs
  have hhead1 := add_mod_cases b.head_ 1 b.capacity_ hh (by omega)
  have htail1 := add_mod_cases b.tail_ (b.size_ + 1) b.capacity_ ht (by omega)
  refine ⟨{ b with size_ := b.size_ + 1, buffer_ := b.buffer_.set b.head_ x,
                   head_ := (b.head_ + 1) % b.capacity_ }, ?_, ?_, ?_, rfl, rfl, rfl, rfl⟩
  · simp [push, vecWrite, sizeRem, hsz, hhd, hne, hlen, hh, Nat.not_le.mpr hlt]
  · refine ⟨by simpa using hlen, h0, hc, Nat.mod_lt _ h0, ht, hlt, ?_⟩
    show (b.head_ + 1) % b.capacity_ = (b.tail_ + (b.size_ + 1)) % b.capacity_
    rw [hhead1, htail1]
    rw [hheadc] at hhead
    split_ifs at hhead ⊢ <;> omega
  · show (List.range (b.size_ + 1)).map _ = _
    rw [List.range_succ, List.map_append]
    congr 1
    · apply List.map_congr_left
      intro i hi
      have hi' : i < b.size_ := List.mem_range.mp hi
      have hic := add_mod_cases b.tail_ i b.capacity_ ht (by omega)
      apply getD_set_ne
      rw [hic]
      rw [hheadc] at hhead
      split_ifs at hhead ⊢ <;> omega
    · simp only [List.map_cons, List.map_nil]
      rw [← hhead, getD_set_self _ _ _ _ (by omega)]

/-- A push onto a full buffer drops the oldest item and appends the new one. -/
theorem push_full (b : CircularBuffer T) (x : T) (hwf : b.WF) (hfull : b.size_ = b.capacity_) :
    ∃ b', b.push x = some (true, b') ∧ b'.WF ∧ b'.contents = b.contents.tail ++ [x] ∧
      b'.capacity_ = b.capacity_ ∧ b'.size_ = b.size_ ∧
      b'.tail_ = (b.tail_ + 1) % b.capacity_ ∧ b'.head_ = (b.head_ + 1) % b.capacity_ := by
  obtain ⟨hlen, h0, hc, hh, ht, hs, hhead⟩ := hwf
  have hne : b.capacity_ ≠ 0 := by omega
  have htl : sizeAdd b.tail_ 1 = b.tail_ + 1 := sizeAdd_one_of_lt ht hc
  have hhd : sizeAdd b.head_ 1 = b.head_ + 1 := sizeAdd_one_of_lt hh hc
  have hheadc := add_mod_cases b.tail_ b.size_ b.capacity_ ht hs
  have hhead1 := add_mod_cases b.head_ 1 b.capacity_ hh (by omega)
  have htail1 := add_mod_cases b.tail_ 1 b.capacity_ ht (by omega)
  have hht : b.head_ = b.tail_ := by
    rw [hheadc] at hhead
    split_ifs at hhead <;> omega
  refine ⟨{ b with tail_ := (b.tail_ + 1) % b.capacity_, buffer_ := b.buffer_.set b.head_ x,
                   head_ := (b.head_ + 1) % b.capacity_ }, ?_, ?_, ?_, rfl, rfl, rfl, rfl⟩
  · simp [push, vecWrite, sizeRem, htl, hhd, hne, hlen, hh, hfull]
  · refine ⟨by simpa using hlen, h0, hc, Nat.mod_lt _ h0, Nat.mod_lt _ h0, hs, ?_⟩
    show (b.head_ + 1) % b.capacity_ = ((b.tail_ + 1) % b.capacity_ + b.size_) % b.capacity_
    rw [hfull, Nat.add_mod_right, Nat.mod_mod, hht]
  · obtain ⟨n, hn⟩ : ∃ n, b.size_ = n + 1 := ⟨b.size_ - 1, by omega⟩
    rw [contents_eq_cons b n hn, List.tail_cons,
      contents_eq_snoc { b with tail_ := (b.tail_ + 1) % b.capacity_,
                                buffer_ := b.buffer_.set b.head_ x,
                                head_ := (b.head_ + 1) % b.capacity_ } n hn]
    congr 1
    · apply List.map_congr_left
      intro i hi
      have hi' : i < n := List.mem_range.mp hi
      have hic := add_mod_cases ((b.tail_ + 1) % b.capacity_) i b.capacity_
        (Nat.mod_lt _ h0) (by omega)
      have hic' := add_mod_cases b.tail_ (i + 1) b.capacity_ ht (by omega)
      show (b.buffer_.set b.head_ x).getD (((b.tail_ + 1) % b.capacity_ + i) % b.capacity_) default
        = b.buffer_.getD ((b.tail_ + (i + 1)) % b.capacity_) default
      have hidx : ((b.tail_ + 1) % b.capacity_ + i) % b.capacity_
          = (b.tail_ + (i + 1)) % b.capacity_ := by
        rw [hic, hic', htail1]
        split_ifs <;> omega
      rw [hidx]
      apply getD_set_ne
      rw [hic', hht]
      split_ifs <;> omega
    · show [(b.buffer_.set b.head_ x).getD (((b.tail_ + 1) % b.capacity_ + n) % b.capacity_)
        default] = [x]
      have hidx : ((b.tail_ + 1) % b.capacity_ + n) % b.capacity_ = b.head_ := by
        have hic := add_mod_cases ((b.tail_ + 1) % b.capacity_) n b.capacity_
          (Nat.mod_lt _ h0) (by omega)
        rw [hic, htail1, hht]
        split_ifs <;> omega
      rw [hidx, getD_set_self _ _ _ _ (by omega)]

omit [Inhabited T] in
/-- A pop from an empty buffer returns `false` and changes nothing. -/
theorem pop_empty (b : CircularBuffer T) (item : T) (h : b.size_ = 0) :
    b.pop item = some (false, item, b) := by
  simp [pop, h]

/-- A pop from a non-empty buffer returns the oldest item and keeps the rest. -/
theorem pop_nonempty (b : CircularBuffer T) (item : T) (hwf : b.WF) (hpos : 0 < b.size_) :
    ∃ y rest b', b.contents = y :: rest ∧ b.pop item = some (true, y, b') ∧ b'.WF ∧
      b'.contents = rest ∧ b'.capacity_ = b.capacity_ ∧ b'.size_ = b.size_ - 1 := by
  obtain ⟨hlen, h0, hc, hh, ht, hs, hhead⟩ := hwf
  have hne : b.capacity_ ≠ 0 := by omega
  have htl : sizeAdd b.tail_ 1 = b.tail_ + 1 := sizeAdd_one_of_lt ht hc
  have hheadc := add_mod_cases b.tail_ b.size_ b.capacity_ ht hs
  have htail1 := add_mod_cases b.tail_ 1 b.capacity_ ht (by omega)
  have htlen : b.tail_ < b.buffer_.length := by omega
  obtain ⟨n, hn⟩ : ∃ n, b.size_ = n + 1 := ⟨b.size_ - 1, by omega⟩
  refine ⟨b.buffer_[b.tail_], (List.range n).map (fun i =>
      b.buffer_.getD (((b.tail_ + 1) % b.capacity_ + i) % b.capacity_) default),
    { b with tail_ := (b.tail_ + 1) % b.capacity_, size_ := b.size_ - 1 }, ?_, ?_, ?_, ?_, rfl, rfl⟩
  · rw [contents_eq_cons b n hn]
    congr 1
    · simp [List.getD_eq_getElem?_getD, Nat.mod_eq_of_lt ht, List.getElem?_eq_getElem htlen]
    · apply List.map_congr_left
      intro i hi
      have hi' : i < n := List.mem_range.mp hi
      have hic := add_mod_cases ((b.tail_ + 1) % b.capacity_) i b.capacity_
        (Nat.mod_lt _ h0) (by omega)
      have hic' := add_mod_cases b.tail_ (i + 1) b.capacity_ ht (by omega)
      show b.buffer_.getD ((b.tail_ + (i + 1)) % b.capacity_) default
        = b.buffer_.getD (((b.tail_ + 1) % b.capacity_ + i) % b.capacity_) default
      congr 1
      rw [hic, hic', htail1]
      split_ifs <;> omega
  · have hsz : b.size_ ≠ 0 := by omega
    simp [pop, vecRead, sizeRem, hsz, htl, hne, List.getElem?_eq_getElem htlen]
  · refine ⟨hlen, h0, hc, hh, Nat.mod_lt _ h0, ?_, ?_⟩
    · show b.size_ - 1 ≤ b.capacity_
      omega
    · show b.head_ = ((b.tail_ + 1) % b.capacity_ + (b.size_ - 1)) % b.capacity_
      have hic := add_mod_cases ((b.tail_ + 1) % b.capacity_) (b.size_ - 1) b.capacity_
        (Nat.mod_lt _ h0) (by omega)
      rw [hic, htail1]
      rw [hheadc] at hhead
      split_ifs at hhead ⊢ <;> omega
  · show (List.range (b.size_ - 1)).map _ = _
    rw [hn, Nat.add_sub_cancel]

/-- A push always succeeds on a well-formed buffer: it appends the item and keeps
the last `capacity_` items. -/
theorem push_spec (b : CircularBuffer T) (x : T) (hwf : b.WF) :
    ∃ b', b.push x = some (true, b') ∧ b'.WF ∧ b'.capacity_ = b.capacity_ ∧
      b'.contents = (b.contents ++ [x]).drop (b.contents.length + 1 - b.capacity_) := by
  have hs : b.size_ ≤ b.capacity_ := hwf.2.2.2.2.2.1
  have h0 : 0 < b.capacity_ := hwf.2.1
  rcases Nat.lt_or_ge b.size_ b.capacity_ with hlt | hge
  · obtain ⟨b', hp, hwf', hc, hcap, -⟩ := push_not_full b x hwf hlt
    refine ⟨b', hp, hwf', hcap, ?_⟩
    rw [hc, length_contents, Nat.sub_eq_zero_of_le (by omega), List.drop_zero]
  · have hfull : b.size_ = b.capacity_ := by omega
    obtain ⟨b', hp, hwf', hc, hcap, -⟩ := push_full b x hwf hfull
    refine ⟨b', hp, hwf', hcap, ?_⟩
    have hne : b.contents ≠ [] := by
      intro h
      have := length_contents b
      rw [h] at this
      simp at this
      omega
    have h1 : b.contents.length + 1 - b.capacity_ = 1 := by
      rw [length_contents]
      omega
    rw [hc, h1, List.drop_one, List.tail_append_of_ne_nil hne]

theorem pushAll_spec (xs : List T) (b : CircularBuffer T) (hwf : b.WF) :
    ∃ b', b.pushAll xs = some b' ∧ b'.WF ∧ b'.capacity_ = b.capacity_ ∧
      b'.contents = (b.contents ++ xs).drop ((b.contents ++ xs).length - b.capacity_) := by
  induction xs generalizing b with
  | nil =>
    refine ⟨b, rfl, hwf, rfl, ?_⟩
    have hs : b.size_ ≤ b.capacity_ := hwf.2.2.2.2.2.1
    rw [List.append_nil, length_contents, Nat.sub_eq_zero_of_le hs, List.drop_zero]
  | cons x xs ih =>
    obtain ⟨b1, hp, hwf1, hcap1, hc1⟩ := push_spec b x hwf
    obtain ⟨b', hp', hwf', hcap', hc'⟩ := ih b1 hwf1
    refine ⟨b', ?_, hwf', by rw [hcap', hcap1], ?_⟩
    · simp [pushAll, hp, hp']
    · have hs : b.size_ ≤ b.capacity_ := hwf.2.2.2.2.2.1
      have hl := length_contents b
      rw [hc', hc1, hcap1]
      rw [← List.drop_append_of_le_length (by simp), List.drop_drop]
      have e : b.contents ++ [x] ++ xs = b.contents ++ x :: xs := by simp
      rw [e]
      congr 1
      simp
      omega

theorem popN_spec (n : Nat) (b : CircularBuffer T) (item : T) (hwf : b.WF) (hn : n ≤ b.size_) :
    ∃ b', b.popN item n = some (b.contents.take n, b') ∧ b'.WF ∧
      b'.contents = b.contents.drop n ∧ b'.size_ = b.size_ - n := by
  induction n generalizing b item with
  | zero => exact ⟨b, rfl, hwf, rfl, rfl⟩
  | succ n ih =>
    obtain ⟨y, rest, b1, hc, hp, hwf1, hc1, -, hs1⟩ := pop_nonempty b item hwf (by omega)
    obtain ⟨b', hp', hwf', hc', hs'⟩ := ih b1 y hwf1 (by omega)
    refine ⟨b', ?_, hwf', ?_, by omega⟩
    · simp [popN, hp, hp', hc, hc1]
    · rw [hc', hc1, hc, List.drop_succ_cons]

end CircularBuffer

/-! ## Bounded event buffer: overflow keeps the newest items -/

/-- C2: for every capacity `C ≥ 1` (a `size_t` value) and every sequence of more
than `C` pushes onto a freshly constructed buffer of capacity `C`, all pushes
succeed, the buffer then has size `C`, and `C` successive pops all succeed and
return exactly the last `C` pushed items in the order they were pushed. -/
theorem C2_overflow_keeps_last_items {T : Type} [Inhabited T] (C : Nat) (items : List T)
    (item : T) (hC : 1 ≤ C) (hsize_t : C < SIZE_MOD) (hN : C < items.length) :
    ∃ b b', (CircularBuffer.new C).pushAll items = some b ∧ b.size = C ∧
      b.popN item C = some (items.drop (items.length - C), b') ∧
      (items.drop (items.length - C)).length = C ∧ b'.size = 0 := by
  obtain ⟨b, hp, hwf, hcap, hc⟩ :=
    CircularBuffer.pushAll_spec items (CircularBuffer.new C) (CircularBuffer.WF_new C hC hsize_t)
  rw [CircularBuffer.contents_new, List.nil_append] at hc
  have hcapC : b.capacity_ = C := hcap
  have hcap' : (CircularBuffer.new C : CircularBuffer T).capacity_ = C := rfl
  rw [hcap'] at hc
  have hsize : b.size_ = C := by
    rw [← CircularBuffer.length_contents, hc, List.length_drop]
    omega
  obtain ⟨b', hp', -, -, hs'⟩ := CircularBuffer.popN_spec C b item hwf (by omega)
  refine ⟨b, b', hp, hsize, ?_, by rw [List.length_drop]; omega, ?_⟩
  · rw [hp', hc, List.take_of_length_le (by rw [List.length_drop]; omega)]
  · show b'.size_ = 0
    omega

/-- Witness of C2: three pushes onto a buffer of capacity two. -/
theorem C2_overflow_keeps_last_items_witness :
    (1 ≤ 2 ∧ 2 < SIZE_MOD ∧ 2 < [10, 20, 30].length) ∧
    ∃ b b', (CircularBuffer.new 2).pushAll [10, 20, 30] = some b ∧ b.size = 2 ∧
      b.popN 0 2 = some (([10, 20, 30] : List Nat).drop ([10, 20, 30].length - 2), b') ∧
      (([10, 20, 30] : List Nat).drop ([10, 20, 30].length - 2)).length = 2 ∧ b'.size = 0 :=
  ⟨⟨by decide, by decide, by decide⟩,
    C2_overflow_keeps_last_items 2 [10, 20, 30] 0 (by decide) (by decide) (by decide)⟩

/-! ## Threat registry -/

namespace DetectionEngine

theorem registerThreat_threats (e : DetectionEngine) (threat : ThreatInfo)
    (h : e.detected_threats_.length ≤ 1000) :
    (registerThreat e threat).detected_threats_
      = (e.detected_threats_ ++ [threat]).drop (e.detected_threats_.length + 1 - 1000) := by
  unfold registerThreat
  by_cases hlt : e.detected_threats_.length < 1000
  · have h1 : ¬ (e.detected_threats_ ++ [threat]).length > 1000 := by
      simp only [List.length_append, List.length_singleton]
      omega
    simp only [h1, if_false]
    rw [Nat.sub_eq_zero_of_le (by omega), List.drop_zero]
  · have h1 : (e.detected_threats_ ++ [threat]).length > 1000 := by
      simp only [List.length_append, List.length_singleton]
      omega
    have h2 : e.detected_threats_.length + 1 - 1000 = 1 := by omega
    simp only [h1, if_true]
    rw [h2, List.drop_one]

theorem registerThreat_length_le (e : DetectionEngine) (threat : ThreatInfo)
    (h : e.detected_threats_.length ≤ 1000) :
    (registerThreat e threat).detected_threats_.length ≤ 1000 := by
  rw [registerThreat_threats e threat h, List.length_drop]
  simp only [List.length_append, List.length_singleton]
  omega

theorem foldl_registerThreat_threats (records : List ThreatInfo) (e : DetectionEngine)
    (h : e.detected_threats_.length ≤ 1000) :
    (records.foldl registerThreat e).detected_threats_
      = (e.detected_threats_ ++ records).drop
          ((e.detected_threats_ ++ records).length - 1000) := by
  induction records generalizing e with
  | nil =>
    rw [List.foldl_nil, List.append_nil, Nat.sub_eq_zero_of_le h, List.drop_zero]
  | cons x xs ih =>
    rw [List.foldl_cons, ih _ (registerThreat_length_le e x h), registerThreat_threats e x h]
    have hle : e.detected_threats_.length + 1 - 1000 ≤ (e.detected_threats_ ++ [x]).length := by
      simp only [List.length_append, List.length_singleton]
      omega
    rw [← List.drop_append_of_le_length hle, List.drop_drop]
    have e1 : e.detected_threats_ ++ [x] ++ xs = e.detected_threats_ ++ x :: xs := by
      rw [List.append_assoc, List.singleton_append]
    have e2 : e.detected_threats_.length + 1 - 1000
        + ((List.drop (e.detected_threats_.length + 1 - 1000) (e.detected_threats_ ++ [x] ++ xs)
            ).length - 1000)
        = (e.detected_threats_ ++ x :: xs).length - 1000 := by
      simp only [List.length_append, List.length_drop, List.length_cons, List.length_nil]
      omega
    rw [e2, e1]

end DetectionEngine

/-- C3: after any sequence of `N` `registerThreat` calls on an engine whose
registry was empty, `getDetectedThreats` returns exactly the last `min N 1000`
registered records in insertion order, so it never holds more than 1000; and a
further registration appends the new record, dropping the oldest record exactly
when 1000 records were already registered. -/
theorem C3_registry_keeps_last_1000 (e : DetectionEngine) (records : List ThreatInfo)
    (threat : ThreatInfo) :
    DetectionEngine.getDetectedThreats
        (records.foldl DetectionEngine.registerThreat { e with detected_threats_ := [] })
      = records.drop (records.length - min records.length 1000) ∧
    (DetectionEngine.getDetectedThreats
        (records.foldl DetectionEngine.registerThreat { e with detected_threats_ := [] })).length
      = min records.length 1000 ∧
    (DetectionEngine.getDetectedThreats
        (records.foldl DetectionEngine.registerThreat { e with detected_threats_ := [] })).length
      ≤ 1000 ∧
    DetectionEngine.getDetectedThreats (DetectionEngine.registerThreat
        (records.foldl DetectionEngine.registerThreat { e with detected_threats_ := [] }) threat)
      = (if 1000 ≤ records.length then
          (DetectionEngine.getDetectedThreats (records.foldl DetectionEngine.registerThreat
            { e with detected_threats_ := [] })).tail ++ [threat]
         else
          DetectionEngine.getDetectedThreats (records.foldl DetectionEngine.registerThreat
            { e with detected_threats_ := [] }) ++ [threat]) := by
  have h0 : ({ e with detected_threats_ := [] } : DetectionEngine).detected_threats_.length
      ≤ 1000 := Nat.zero_le _
  simp only [DetectionEngine.getDetectedThreats]
  have hmain := DetectionEngine.foldl_registerThreat_threats records _ h0
  simp only [List.nil_append] at hmain
  have hidx : records.length - min records.length 1000 = records.length - 1000 := by omega
  have hlen : ((records.foldl DetectionEngine.registerThreat
      { e with detected_threats_ := [] }).detected_threats_).length = min records.length 1000 := by
    rw [hmain, List.length_drop]
    omega
  refine ⟨by rw [hidx]; exact hmain, hlen, by rw [hlen]; omega, ?_⟩
  rw [DetectionEngine.registerThreat_threats _ _ (by rw [hlen]; omega), hlen]
  split_ifs with hge
  · have h1 : min records.length 1000 + 1 - 1000 = 1 := by omega
    have hne : (records.foldl DetectionEngine.registerThreat
        { e with detected_threats_ := [] }).detected_threats_ ≠ [] := by
      intro h
      rw [h, List.length_nil] at hlen
      omega
    rw [h1, List.drop_one, List.tail_append_of_ne_nil hne]
  · rw [Nat.sub_eq_zero_of_le (by omega), List.drop_zero]

/-! ## Scorer: short vectors, engines without a model, range of the confidence -/

theorem MLEngine.loaded_of_initialized {m : MLEngine} (hr : m.Reachable) :
    m.initialized_ = true → m.model_loaded_ = true := by
  induction hr with
  | created => intro h; exact absurd h (by decide)
  | initialized m now _ ih =>
    unfold MLEngine.initialize
    by_cases hi : m.initialized_ = true
    · simpa [hi] using ih hi
    · simp [hi, initializeHeuristicRules]
  | loaded m model_path _ ih =>
    unfold MLEngine.loadModel
    by_cases hi : m.initialized_ = true
    · simp [hi]
    · simp [hi]
  | reloaded m _ ih =>
    unfold MLEngine.reloadModel MLEngine.loadModel
    by_cases hi : m.initialized_ = true
    · by_cases hp : m.metadata_.model_path.isEmpty = true
      · simpa [hi, hp] using ih hi
      · simp [hi, hp]
    · simp [hi]
  | stopped m _ _ => intro h; exact absurd h (by simp [MLEngine.shutdown])
  | predicted m m' features elapsed_ms result _ hp ih =>
    unfold MLEngine.predict MLEngine.predictWith at hp
    by_cases hl : m.model_loaded_ = true
    · intro _
      simp only [hl, Bool.not_true, Bool.false_eq_true, if_false] at hp
      cases hres : analyzeWithHeuristicsWith id features with
      | none => simp [hres] at hp
      | some r =>
        simp [hres] at hp
        have hm' : m'.model_loaded_ = true := by rw [← hp.2]
        exact hm'
    · simp only [hl, Bool.not_false, if_true, Bool.not_eq_true] at hp
      simp at hl
      simp [hl] at hp
      rw [← hp.2]
      exact ih

/-- On a loaded engine a vector with fewer than 10 entries is scored as total 0. -/
theorem predict_short (m : MLEngine) (features : FeatureVector) (elapsed_ms : FloatVal)
    (hm : m.model_loaded_ = true) (hlen : features.length < 10) :
    m.predict features elapsed_ms
      = some ({ predicted_class := ThreatType.UNKNOWN, confidence := 1,
                class_probabilities := [1, 0, 0, 0, 0], features_used := features,
                inference_time_ms := some elapsed_ms, is_valid := true },
              { m with inference_count_ := (m.inference_count_ + 1) % SIZE_MOD }) := by
  have ht : totalScoreWith id features = some 0 := totalScore_short features hlen
  have h5 : ¬ ((0 : FloatVal) ≥ 0.5) := by norm_num
  have h7 : ¬ ((0 : FloatVal) ≥ 0.7) := by norm_num
  have h9 : ¬ ((0 : FloatVal) ≥ 0.9) := by norm_num
  simp [MLEngine.predict, MLEngine.predictWith, hm, analyzeWithHeuristicsWith, ht, h5, h7, h9,
    vecWrite]

/-- C4 fails as stated: an initialised engine scores the two-entry vector `[1, 2]`
as a valid benign result with confidence 1. -/
theorem C4_short_vector_counterexample :
    ( MLEngine.initialize MLEngine.new 0).2.predict [1, 2] 1
      = some ({ predicted_class := ThreatType.UNKNOWN, confidence := 1,
                class_probabilities := [1, 0, 0, 0, 0], features_used := [1, 2],
                inference_time_ms := some 1, is_valid := true },
              { ( MLEngine.initialize MLEngine.new 0).2 with inference_count_ := 1 }) :=
  predict_short _ [1, 2] 1 rfl (by decide)

/-- C4, amended: for every feature vector with fewer than 10 entries given to an
engine whose model is loaded, `predict` does not raise and returns a valid result
(`is_valid = true`): the benign class UNKNOWN with confidence 1, the whole
probability mass on index 0, and the call is counted as an inference. -/
theorem C4_short_vector_scored_benign (m : MLEngine) (features : FeatureVector)
    (elapsed_ms : FloatVal) (hm : m.model_loaded_ = true) (hlen : features.length < 10) :
    ∃ result m', m.predict features elapsed_ms = some (result, m') ∧
      result.is_valid = true ∧ result.predicted_class = ThreatType.UNKNOWN ∧
      result.confidence = 1 ∧ result.class_probabilities = [1, 0, 0, 0, 0] ∧
      m'.inference_count_ = (m.inference_count_ + 1) % SIZE_MOD :=
  ⟨_, _, predict_short m features elapsed_ms hm hlen, rfl, rfl, rfl, rfl, rfl⟩

/-- Witness of the amended C4: the empty vector on a freshly initialised engine. -/
theorem C4_short_vector_scored_benign_witness :
    (( MLEngine.initialize MLEngine.new 0).2.model_loaded_ = true ∧
      ([] : FeatureVector).length < 10) ∧
    ∃ result m', ( MLEngine.initialize MLEngine.new 0).2.predict [] 3 = some (result, m') ∧
      result.is_valid = true ∧ result.predicted_class = ThreatType.UNKNOWN ∧
      result.confidence = 1 ∧ result.class_probabilities = [1, 0, 0, 0, 0] ∧
      m'.inference_count_
        = (( MLEngine.initialize MLEngine.new 0).2.inference_count_ + 1) % SIZE_MOD :=
  ⟨⟨rfl, by decide⟩, C4_short_vector_scored_benign _ [] 3 rfl (by decide)⟩

/-- C5: on every reachable engine, when no model is loaded `predict` does not
raise and returns `is_valid = false`, confidence 0 and class UNKNOWN, leaving the
engine (and so its inference counter) unchanged; no model is loaded on a newly
constructed engine and after `shutdown`; and `initialize` succeeds, after which
`predict` returns `is_valid = true`. -/
theorem C5_predict_without_model_is_invalid (m : MLEngine) (hr : m.Reachable)
    (features : FeatureVector) (elapsed_ms : FloatVal) (now : Nat) :
    (m.model_loaded_ = false →
      ∃ result, m.predict features elapsed_ms = some (result, m) ∧
        result.is_valid = false ∧ result.confidence = 0 ∧
        result.predicted_class = ThreatType.UNKNOWN) ∧
    MLEngine.new.model_loaded_ = false ∧
    m.shutdown.model_loaded_ = false ∧
    ( MLEngine.initialize m now).1 = true ∧
    ∃ result m', ( MLEngine.initialize m now).2.predict features elapsed_ms = some (result, m') ∧
      result.is_valid = true := by
  refine ⟨fun hm => ⟨_, predict_not_loaded m features elapsed_ms hm, rfl, rfl, rfl⟩, rfl, rfl,
    ?_, ?_⟩
  · unfold MLEngine.initialize
    split_ifs <;> rfl
  · have hloaded : ( MLEngine.initialize m now).2.model_loaded_ = true := by
      unfold MLEngine.initialize
      by_cases hi : m.initialized_ = true
      · simpa [hi] using MLEngine.loaded_of_initialized hr hi
      · simp [hi, initializeHeuristicRules]
    rcases Nat.lt_or_ge features.length 10 with hlt | hge
    · exact ⟨_, _, predict_short _ features elapsed_ms hloaded hlt, rfl⟩
    · obtain ⟨a0, a1, a2, a3, a4, a5, a6, a7, a8, a9, rest, rfl⟩ :=
        exists_ten_of_length features hge
      obtain ⟨r, hp, -, -, -, -, -, hv⟩ := predict_of_total elapsed_ms hloaded
        (totalScore_ten a0 a1 a2 a3 a4 a5 a6 a7 a8 a9 rest)
      exact ⟨r, _, hp, hv⟩

/-- Witness of C5: the newly constructed engine, which has no model. -/
theorem C5_predict_without_model_is_invalid_witness :
    MLEngine.new.Reachable ∧
    (∃ result, MLEngine.new.predict [0, 0, 0, 5, 1, 1, 0, 0, 0, 0] 2 = some (result, MLEngine.new) ∧
      result.is_valid = false ∧ result.confidence = 0 ∧
      result.predicted_class = ThreatType.UNKNOWN) ∧
    ∃ result m', ( MLEngine.initialize MLEngine.new 7).2.predict [0, 0, 0, 5, 1, 1, 0, 0, 0, 0] 2
        = some (result, m') ∧ result.is_valid = true :=
  ⟨MLEngine.Reachable.created,
    (C5_predict_without_model_is_invalid MLEngine.new MLEngine.Reachable.created
      [0, 0, 0, 5, 1, 1, 0, 0, 0, 0] 2 7).1 rfl,
    (C5_predict_without_model_is_invalid MLEngine.new MLEngine.Reachable.created
      [0, 0, 0, 5, 1, 1, 0, 0, 0, 0] 2 7).2.2.2.2⟩

theorem min_one_nonneg {x : FloatVal} (hx : 0 ≤ x) : 0 ≤ min 1 x := le_min zero_le_one hx

/-- The hook and activity scores lie in `[0, 1]`; so does the process score when
the name-suspicion entry is not negative. -/
theorem scores_bounds_ten (a0 a1 a2 a3 a4 a5 a6 a7 a8 a9 : FloatVal) :
    (0 ≤ a0 → 0 ≤ min 1 ((if a1 > 10 ∨ a2 > 50 then (0.3 : FloatVal) else 0) + a0 * 0.7)) ∧
    0 ≤ min 1 ((if a4 > 0 then (0.8 : FloatVal) else 0) + (if a3 > 3 then 0.4 else 0)
                + (if a5 > 0 then 0.6 else 0)) ∧
    0 ≤ min 1 ((if a6 > 100 then (0.2 : FloatVal) else 0) + (if a7 > 10 then 0.3 else 0)
                + (if a8 > 50 then 0.2 else 0) + (if a9 > 0 then 0.5 else 0)) := by
  refine ⟨fun h0 => min_one_nonneg ?_, min_one_nonneg ?_, min_one_nonneg ?_⟩
  · have : (0 : FloatVal) ≤ a0 * 0.7 := mul_nonneg h0 (by norm_num)
    split_ifs <;> norm_num <;> linarith
  · split_ifs <;> norm_num
  · split_ifs <;> norm_num

/-- The weighted sum of three scores of `[0, 1]` lies in `[0, 1]`. -/
theorem total_bounds {p h a : FloatVal} (hp0 : 0 ≤ p) (hp1 : p ≤ 1) (hh0 : 0 ≤ h) (hh1 : h ≤ 1)
    (ha0 : 0 ≤ a) (ha1 : a ≤ 1) :
    0 ≤ p * 0.4 + h * 0.5 + a * 0.1 ∧ p * 0.4 + h * 0.5 + a * 0.1 ≤ 1 := by
  constructor <;> norm_num <;> linarith

/-- The confidence derived from a total in `[0, 1]` lies in `[0, 1]`. -/
theorem confidence_bounds_of_total {t : FloatVal} (h0 : 0 ≤ t) (h1 : t ≤ 1) :
    0 ≤ (if t ≥ 0.5 then t else 1 - t) ∧ (if t ≥ 0.5 then t else 1 - t) ≤ 1 := by
  split_ifs <;> constructor <;> linarith

/-- C6 fails as stated: an initialised engine scores the vector whose
name-suspicion entry is `-10` (all other entries 0) with confidence `19/5`. -/
theorem C6_confidence_range_counterexample :
    ∃ result m',
      ( MLEngine.initialize MLEngine.new 0).2.predict [-10, 0, 0, 0, 0, 0, 0, 0, 0, 0] 1
        = some (result, m') ∧
      result.confidence = 19 / 5 ∧ (1 : FloatVal) < result.confidence := by
  obtain ⟨r, hp, -, hconf, -⟩ := predict_of_total
    (m := ( MLEngine.initialize MLEngine.new 0).2) 1 rfl
    (totalScore_ten (-10) 0 0 0 0 0 0 0 0 0 [])
  have hc : r.confidence = 19 / 5 := by
    rw [hconf]
    norm_num
  exact ⟨r, _, hp, hc, by rw [hc]; norm_num⟩

/-- C6, amended: for every engine state and every feature vector that has fewer
than 10 entries or whose name-suspicion entry `[0]` is not negative, `predict`
returns a result whose confidence lies in `[0, 1]`. -/
theorem C6_confidence_in_unit_interval (m : MLEngine) (features : FeatureVector)
    (elapsed_ms : FloatVal) (h : features.length < 10 ∨ 0 ≤ features.getD 0 0) :
    ∃ result m', m.predict features elapsed_ms = some (result, m') ∧
      0 ≤ result.confidence ∧ result.confidence ≤ 1 := by
  cases hm : m.model_loaded_ with
  | false =>
    exact ⟨_, _, predict_not_loaded m features elapsed_ms hm, le_refl _, zero_le_one⟩
  | true =>
    rcases Nat.lt_or_ge features.length 10 with hlt | hge
    · exact ⟨_, _, predict_short m features elapsed_ms hm hlt, zero_le_one, le_refl _⟩
    · obtain ⟨a0, a1, a2, a3, a4, a5, a6, a7, a8, a9, rest, rfl⟩ :=
        exists_ten_of_length features hge
      have h0 : 0 ≤ a0 := by
        rcases h with h | h
        · exact absurd hge (Nat.not_le.mpr h)
        · simpa using h
      obtain ⟨r, hp, -, hconf, -⟩ := predict_of_total elapsed_ms hm
        (totalScore_ten a0 a1 a2 a3 a4 a5 a6 a7 a8 a9 rest)
      obtain ⟨hp0, hh0, ha0⟩ := scores_bounds_ten a0 a1 a2 a3 a4 a5 a6 a7 a8 a9
      have hp0 := hp0 h0
      refine ⟨r, _, hp, ?_⟩
      rw [hconf]
      exact confidence_bounds_of_total
        (total_bounds hp0 (min_le_left _ _) hh0 (min_le_left _ _) ha0 (min_le_left _ _)).1
        (total_bounds hp0 (min_le_left _ _) hh0 (min_le_left _ _) ha0 (min_le_left _ _)).2

/-- Witness of the amended C6: a fully suspicious vector on an initialised engine. -/
theorem C6_confidence_in_unit_interval_witness :
    (([1, 20, 60, 5, 1, 1, 200, 20, 60, 1] : FeatureVector).length < 10 ∨
      0 ≤ ([1, 20, 60, 5, 1, 1, 200, 20, 60, 1] : FeatureVector).getD 0 0) ∧
    ∃ result m',
      ( MLEngine.initialize MLEngine.new 0).2.predict [1, 20, 60, 5, 1, 1, 200, 20, 60, 1] 1
        = some (result, m') ∧
      0 ≤ result.confidence ∧ result.confidence ≤ 1 :=
  ⟨Or.inr (by norm_num),
    C6_confidence_in_unit_interval _ [1, 20, 60, 5, 1, 1, 200, 20, 60, 1] 1
      (Or.inr (by norm_num))⟩

/-! ## Detection engine: start, stop and the monitoring loop -/

namespace DetectionEngine

/-- With the stop flag set the monitoring loop leaves at its first test. -/
theorem monitoringLoop_of_stop_flag (e : DetectionEngine) (env : ScanEnv) (fuel : Nat)
    (h : e.stop_flag_ = true) : monitoringLoop e env fuel = (0, e) := by
  cases fuel with
  | zero => rfl
  | succ n => simp [monitoringLoop, h]

/-- With the stop flag clear the monitoring loop performs a scan cycle and tests
the flag again. -/
theorem monitoringLoop_of_running (e : DetectionEngine) (env : ScanEnv) (fuel : Nat)
    (h : e.stop_flag_ = false) :
    monitoringLoop e env (fuel + 1)
      = ((monitoringLoop (scanActiveProcesses e env) env fuel).1 + 1,
         (monitoringLoop (scanActiveProcesses e env) env fuel).2) := by
  simp [monitoringLoop, h]

theorem start_of_running (e : DetectionEngine) (h : e.state_ = State.RUNNING) :
    e.start = some (true, e) := by
  simp [start, startWith, h]

theorem start_of_not_running (e : DetectionEngine) (h : e.state_ ≠ State.RUNNING)
    (ht : e.monitoring_thread_ = false) :
    e.start = some (true, { e with state_ := State.RUNNING, monitoring_thread_ := true,
                                    live_loops_ := e.live_loops_ + 1 }) := by
  simp [start, startWith, h, ht, initializeComponents]

theorem stop_of_stopped (e : DetectionEngine) (h : e.state_ = State.STOPPED) :
    e.stop = (true, e) := by
  simp [stop, h]

theorem stop_of_not_stopped (e : DetectionEngine) (h : e.state_ ≠ State.STOPPED) :
    e.stop = (true, { e with state_ := State.STOPPED, stop_flag_ := true,
                             monitoring_thread_ := false,
                             live_loops_ := if e.monitoring_thread_ then e.live_loops_ - 1
                                            else e.live_loops_ }) := by
  cases ht : e.monitoring_thread_ <;> simp [stop, h, ht]

/-- A scan changes the registry and the statistics only. -/
theorem scanProcess_frame (e : DetectionEngine) (env : ScanEnv) (processId : Nat) :
    (scanProcess e env processId).2.state_ = e.state_ ∧
    (scanProcess e env processId).2.stop_flag_ = e.stop_flag_ ∧
    (scanProcess e env processId).2.monitoring_thread_ = e.monitoring_thread_ ∧
    (scanProcess e env processId).2.live_loops_ = e.live_loops_ ∧
    (scanProcess e env processId).2.config_ = e.config_ := by
  unfold scanProcess scanProcessWith
  cases getProcessInfo env processId with
  | error what => exact ⟨rfl, rfl, rfl, rfl, rfl⟩
  | ok info =>
    by_cases hthr : suspicionScore info processId ≥ e.config_.threat_threshold
    · simp [hthr, registerThreat]
    · simp [hthr]

/-- A reachable engine is RUNNING with its one monitoring thread, or STOPPED with
none. -/
theorem state_of_reachable {e : DetectionEngine} (hr : e.Reachable) :
    (e.state_ = State.RUNNING ∧ e.monitoring_thread_ = true ∧ e.live_loops_ = 1) ∨
    (e.state_ = State.STOPPED ∧ e.monitoring_thread_ = false ∧ e.live_loops_ = 0) := by
  induction hr with
  | created config now => exact Or.inr ⟨rfl, rfl, rfl⟩
  | started e e' r _ hs ih =>
    rcases ih with ⟨h1, h2, h3⟩ | ⟨h1, h2, h3⟩
    · rw [start_of_running e h1] at hs
      simp only [Option.some.injEq, Prod.mk.injEq] at hs
      rw [← hs.2]
      exact Or.inl ⟨h1, h2, h3⟩
    · rw [start_of_not_running e (by rw [h1]; decide) h2] at hs
      simp only [Option.some.injEq, Prod.mk.injEq] at hs
      rw [← hs.2]
      exact Or.inl ⟨rfl, rfl, by simp [h3]⟩
  | stopped e _ ih =>
    rcases ih with ⟨h1, h2, h3⟩ | ⟨h1, h2, h3⟩
    · rw [stop_of_not_stopped e (by rw [h1]; decide)]
      exact Or.inr ⟨rfl, rfl, by simp [h2, h3]⟩
    · rw [stop_of_stopped e h1]
      exact Or.inr ⟨h1, h2, h3⟩
  | scanned e env processId _ ih =>
    obtain ⟨f1, -, f3, f4, -⟩ := scanProcess_frame e env processId
    rw [f1, f3, f4]
    exact ih

end DetectionEngine

/-- C7, evaluated on the code: for every engine in state RUNNING, `stop()` followed
by `start()` succeeds and leaves the state RUNNING with a monitoring thread
attached, but the stop flag that `stop()` set is still set, so the new monitoring
loop leaves at its first test and performs no scan cycle, whatever the number of
tests it is given. -/
theorem C7_restart_loop_performs_no_cycle (e : DetectionEngine) (env : ScanEnv) (fuel : Nat)
    (h : e.state_ = State.RUNNING) :
    ∃ e', e.stop.2.start = some (true, e') ∧ e'.state_ = State.RUNNING ∧
      e'.monitoring_thread_ = true ∧ e'.stop_flag_ = true ∧
      DetectionEngine.monitoringLoop e' env fuel = (0, e') := by
  have hs := DetectionEngine.stop_of_not_stopped e (by rw [h]; decide)
  have hst := DetectionEngine.start_of_not_running e.stop.2
    (by rw [hs]; exact fun hne => State.noConfusion hne) (by rw [hs])
  refine ⟨_, hst, rfl, rfl, ?_, ?_⟩
  · rw [hs]
  · apply DetectionEngine.monitoringLoop_of_stop_flag
    rw [hs]

/-- Witness of C7: the engine that `start()` produces from a newly constructed one,
with a process table of one process. -/
theorem C7_restart_loop_performs_no_cycle_witness :
    ({ DetectionEngine.new Config.default 0 with
        state_ := State.RUNNING, monitoring_thread_ := true, live_loops_ := 1 }
      : DetectionEngine).state_ = State.RUNNING ∧
    ∃ e', ({ DetectionEngine.new Config.default 0 with
        state_ := State.RUNNING, monitoring_thread_ := true, live_loops_ := 1 }
      : DetectionEngine).stop.2.start = some (true, e') ∧ e'.state_ = State.RUNNING ∧
      e'.monitoring_thread_ = true ∧ e'.stop_flag_ = true ∧
      DetectionEngine.monitoringLoop e'
        { OpenProcess := fun _ => none, snapshot := some [4], now := 0,
          to_string := fun _ => "" } 3 = (0, e') :=
  ⟨rfl, C7_restart_loop_performs_no_cycle _ _ 3 rfl⟩

/-- C8: on every engine whose state is RUNNING, `start()` returns true and leaves
the whole engine unchanged (state RUNNING, no further monitoring loop); hence two
consecutive `start()` calls on a reachable STOPPED engine both return true and
leave the state RUNNING with exactly one monitoring loop. -/
theorem C8_start_is_idempotent_when_running (e e0 : DetectionEngine)
    (hrun : e.state_ = State.RUNNING) (hreach : e0.Reachable)
    (hstopped : e0.state_ = State.STOPPED) :
    e.start = some (true, e) ∧
    ∃ e1, e0.start = some (true, e1) ∧ e1.start = some (true, e1) ∧
      e1.state_ = State.RUNNING ∧ e1.monitoring_thread_ = true ∧ e1.live_loops_ = 1 := by
  refine ⟨DetectionEngine.start_of_running e hrun, ?_⟩
  rcases DetectionEngine.state_of_reachable hreach with ⟨h1, -, -⟩ | ⟨h1, h2, h3⟩
  · rw [h1] at hstopped
    exact State.noConfusion hstopped
  · have hne : e0.state_ ≠ State.RUNNING := by
      rw [h1]
      exact fun hne => State.noConfusion hne
    refine ⟨_, DetectionEngine.start_of_not_running e0 hne h2,
      DetectionEngine.start_of_running _ rfl, rfl, rfl, ?_⟩
    show e0.live_loops_ + 1 = 1
    rw [h3]

/-- Witness of C8: a running engine, and the newly constructed engine started
twice. -/
theorem C8_start_is_idempotent_when_running_witness :
    (({ DetectionEngine.new Config.default 0 with
        state_ := State.RUNNING, monitoring_thread_ := true, live_loops_ := 1 }
      : DetectionEngine).state_ = State.RUNNING ∧
      (DetectionEngine.new Config.default 0).Reachable ∧
      (DetectionEngine.new Config.default 0).state_ = State.STOPPED) ∧
    ({ DetectionEngine.new Config.default 0 with
        state_ := State.RUNNING, monitoring_thread_ := true, live_loops_ := 1 }
      : DetectionEngine).start
      = some (true, { DetectionEngine.new Config.default 0 with
        state_ := State.RUNNING, monitoring_thread_ := true, live_loops_ := 1 }) ∧
    ∃ e1, (DetectionEngine.new Config.default 0).start = some (true, e1) ∧
      e1.start = some (true, e1) ∧
      e1.state_ = State.RUNNING ∧ e1.monitoring_thread_ = true ∧ e1.live_loops_ = 1 :=
  ⟨⟨rfl, DetectionEngine.Reachable.created _ _, rfl⟩,
    C8_start_is_idempotent_when_running _ _ rfl (DetectionEngine.Reachable.created _ _) rfl⟩

/-- C9: on every engine whose state is STOPPED, `stop()` returns true and leaves
the whole engine unchanged; in every other state `stop()` returns true, sets the
state to STOPPED and sets the stop flag; the monitoring loop tests that flag at
the top of each cycle, so after such a `stop()` it performs no further cycle. -/
theorem C9_stop_is_idempotent_and_sets_flag (e : DetectionEngine) (env : ScanEnv)
    (fuel : Nat) :
    (e.state_ = State.STOPPED → e.stop = (true, e)) ∧
    (e.state_ ≠ State.STOPPED →
      e.stop.1 = true ∧ e.stop.2.state_ = State.STOPPED ∧ e.stop.2.stop_flag_ = true ∧
      e.stop.2.detected_threats_ = e.detected_threats_ ∧ e.stop.2.statistics_ = e.statistics_ ∧
      DetectionEngine.monitoringLoop e.stop.2 env fuel = (0, e.stop.2)) ∧
    DetectionEngine.monitoringLoop e env (fuel + 1)
      = (if e.stop_flag_ then (0, e)
         else ((DetectionEngine.monitoringLoop
                  (DetectionEngine.scanActiveProcesses e env) env fuel).1 + 1,
               (DetectionEngine.monitoringLoop
                  (DetectionEngine.scanActiveProcesses e env) env fuel).2)) := by
  refine ⟨DetectionEngine.stop_of_stopped e, fun h => ?_, ?_⟩
  · have hs := DetectionEngine.stop_of_not_stopped e h
    refine ⟨by rw [hs], by rw [hs], by rw [hs], by rw [hs], by rw [hs], ?_⟩
    apply DetectionEngine.monitoringLoop_of_stop_flag
    rw [hs]
  · cases hf : e.stop_flag_ with
    | true => simpa using DetectionEngine.monitoringLoop_of_stop_flag e env (fuel + 1) hf
    | false => simpa using DetectionEngine.monitoringLoop_of_running e env fuel hf

/-- Witness of C9: the newly constructed (STOPPED) engine and a running one. -/
theorem C9_stop_is_idempotent_and_sets_flag_witness :
    (DetectionEngine.new Config.default 0).stop = (true, DetectionEngine.new Config.default 0) ∧
    (({ DetectionEngine.new Config.default 0 with
        state_ := State.RUNNING, monitoring_thread_ := true, live_loops_ := 1 }
      : DetectionEngine).stop.2.state_ = State.STOPPED ∧
     ({ DetectionEngine.new Config.default 0 with
        state_ := State.RUNNING, monitoring_thread_ := true, live_loops_ := 1 }
      : DetectionEngine).stop.2.stop_flag_ = true) :=
  ⟨(C9_stop_is_idempotent_and_sets_flag (DetectionEngine.new Config.default 0)
      { OpenProcess := fun _ => none, snapshot := none, now := 0,
        to_string := fun _ => "" } 1).1 rfl,
    ((C9_stop_is_idempotent_and_sets_flag
      { DetectionEngine.new Config.default 0 with
        state_ := State.RUNNING, monitoring_thread_ := true, live_loops_ := 1 }
      { OpenProcess := fun _ => none, snapshot := none, now := 0,
        to_string := fun _ => "" } 1).2.1 (fun hne => State.noConfusion hne)).2.1,
    ((C9_stop_is_idempotent_and_sets_flag
      { DetectionEngine.new Config.default 0 with
        state_ := State.RUNNING, monitoring_thread_ := true, live_loops_ := 1 }
      { OpenProcess := fun _ => none, snapshot := none, now := 0,
        to_string := fun _ => "" } 1).2.1 (fun hne => State.noConfusion hne)).2.2.1⟩

/-! ## Detection engine: scan tasks -/

namespace DetectionEngine

theorem registerThreat_getLast (e : DetectionEngine) (threat : ThreatInfo) :
    (registerThreat e threat).detected_threats_.getLast? = some threat := by
  unfold registerThreat
  by_cases hlen : (e.detected_threats_ ++ [threat]).length > 1000
  · simp only [hlen, if_true]
    cases hl : e.detected_threats_ with
    | nil =>
      rw [hl] at hlen
      simp only [List.nil_append, List.length_singleton] at hlen
      omega
    | cons a l =>
      rw [List.cons_append, List.tail_cons]
      exact List.getLast?_concat _
  · simp only [hlen, if_false]
    exact List.getLast?_concat _

/-- A scan that reaches the threshold: its result and the registry it leaves. -/
theorem scanProcess_of_threat (e : DetectionEngine) (env : ScanEnv) (processId : Nat)
    (info : ProcessInfo) (hok : getProcessInfo env processId = Except.ok info)
    (hthr : suspicionScore info processId ≥ e.config_.threat_threshold) :
    (scanProcess e env processId).1.errorMessage = "" ∧
    (scanProcess e env processId).1.isThreat = true ∧
    (scanProcess e env processId).1.confidence = suspicionScore info processId ∧
    (scanProcess e env processId).1.threatType = ThreatType.KEYLOGGER ∧
    getDetectedThreats (scanProcess e env processId).2
      = getDetectedThreats (registerThreat e
          { id := ""
            processName := info.name
            processId := processId
            type := ThreatType.KEYLOGGER
            level := if suspicionScore info processId > 0.9 then ThreatLevel.CRITICAL
                     else ThreatLevel.HIGH
            description :=
              "Potencial keylogger detectado - Score: "
                ++ env.to_string (suspicionScore info processId)
            detectedAt := env.now
            filePath := info.path
            confidence := suspicionScore info processId }) := by
  unfold scanProcess scanProcessWith
  rw [hok]
  dsimp only
  rw [if_pos hthr]
  exact ⟨rfl, rfl, rfl, rfl, rfl⟩

/-- A scan that stays below the threshold: its result and the registry it leaves. -/
theorem scanProcess_of_clean (e : DetectionEngine) (env : ScanEnv) (processId : Nat)
    (info : ProcessInfo) (hok : getProcessInfo env processId = Except.ok info)
    (hthr : ¬ suspicionScore info processId ≥ e.config_.threat_threshold) :
    (scanProcess e env processId).1.errorMessage = "" ∧
    (scanProcess e env processId).1.isThreat = false ∧
    (scanProcess e env processId).1.confidence = suspicionScore info processId ∧
    (scanProcess e env processId).1.threatType = ThreatType.UNKNOWN ∧
    getDetectedThreats (scanProcess e env processId).2 = getDetectedThreats e := by
  unfold scanProcess scanProcessWith
  rw [hok]
  dsimp only
  rw [if_neg hthr]
  exact ⟨rfl, rfl, rfl, rfl, rfl⟩

end DetectionEngine

/-- C10: for every scan whose process lookup raises no error, `scanProcess` reports
no error and `isThreat = true` exactly when its confidence reaches the configured
threshold; in that case the registry is the old one after one `registerThreat` of
a record that is then its newest entry, whose confidence is the task's confidence
(hence at least the threshold) and whose level is CRITICAL if the confidence
exceeds 0.9 and HIGH otherwise; below the threshold the registry is unchanged. -/
theorem C10_scan_reports_threat_iff_threshold (e : DetectionEngine) (env : ScanEnv)
    (processId : Nat) (info : ProcessInfo)
    (hok : DetectionEngine.getProcessInfo env processId = Except.ok info) :
    (DetectionEngine.scanProcess e env processId).1.errorMessage = "" ∧
    ((DetectionEngine.scanProcess e env processId).1.isThreat = true ↔
      (DetectionEngine.scanProcess e env processId).1.confidence ≥ e.config_.threat_threshold) ∧
    ((DetectionEngine.scanProcess e env processId).1.confidence ≥ e.config_.threat_threshold →
      ∃ threat : ThreatInfo,
        DetectionEngine.getDetectedThreats (DetectionEngine.scanProcess e env processId).2
          = DetectionEngine.getDetectedThreats (DetectionEngine.registerThreat e threat) ∧
        (DetectionEngine.getDetectedThreats
          (DetectionEngine.scanProcess e env processId).2).getLast? = some threat ∧
        threat.confidence = (DetectionEngine.scanProcess e env processId).1.confidence ∧
        threat.confidence ≥ e.config_.threat_threshold ∧
        threat.level = (if (DetectionEngine.scanProcess e env processId).1.confidence > 0.9
                        then ThreatLevel.CRITICAL else ThreatLevel.HIGH)) ∧
    ((DetectionEngine.scanProcess e env processId).1.confidence < e.config_.threat_threshold →
      DetectionEngine.getDetectedThreats (DetectionEngine.scanProcess e env processId).2
        = DetectionEngine.getDetectedThreats e) := by
  by_cases hthr : DetectionEngine.suspicionScore info processId ≥ e.config_.threat_threshold
  · obtain ⟨h1, h2, h3, h4, h5⟩ := DetectionEngine.scanProcess_of_threat e env processId info hok hthr
    rw [h1, h2, h3]
    refine ⟨rfl, ⟨fun _ => hthr, fun _ => rfl⟩,
      fun _ => ⟨_, h5, ?_, rfl, hthr, rfl⟩, fun hlt => absurd hthr (not_le.mpr hlt)⟩
    rw [h5]
    exact DetectionEngine.registerThreat_getLast e _
  · obtain ⟨h1, h2, h3, h4, h5⟩ := DetectionEngine.scanProcess_of_clean e env processId info hok hthr
    rw [h1, h2, h3, h5]
    exact ⟨rfl, ⟨fun h => absurd h (by decide), fun h => absurd h hthr⟩,
      fun h => absurd h hthr, fun _ => rfl⟩

/-- Witness of C10: a process named `KeyLogger.exe` running from a temp folder,
scanned with threshold 0.5. -/
theorem C10_scan_reports_threat_iff_threshold_witness :
    DetectionEngine.getProcessInfo DetectionEngine.exampleEnv 7
      = Except.ok { processId := 7, name := "KeyLogger.exe", path := "C:\\Temp\\kl.exe",
                    parentId := 0 } ∧
    (DetectionEngine.scanProcess DetectionEngine.exampleEngine DetectionEngine.exampleEnv
        7).1.errorMessage = "" ∧
    ((DetectionEngine.scanProcess DetectionEngine.exampleEngine DetectionEngine.exampleEnv
        7).1.isThreat = true ↔
      (DetectionEngine.scanProcess DetectionEngine.exampleEngine DetectionEngine.exampleEnv
        7).1.confidence ≥ DetectionEngine.exampleEngine.config_.threat_threshold) :=
  ⟨rfl,
   (C10_scan_reports_threat_iff_threshold DetectionEngine.exampleEngine
      DetectionEngine.exampleEnv 7
      { processId := 7, name := "KeyLogger.exe", path := "C:\\Temp\\kl.exe", parentId := 0 }
      rfl).1,
   (C10_scan_reports_threat_iff_threshold DetectionEngine.exampleEngine
      DetectionEngine.exampleEnv 7
      { processId := 7, name := "KeyLogger.exe", path := "C:\\Temp\\kl.exe", parentId := 0 }
      rfl).2.1⟩

/-! ## Detection engine: counters -/

namespace DetectionEngine

/-- A scan whose lookup raises returns the error message and leaves the engine
as it was. -/
theorem scanProcess_of_error (e : DetectionEngine) (env : ScanEnv) (processId : Nat)
    (what : String) (herr : getProcessInfo env processId = Except.error what) :
    scanProcess e env processId
      = ({ ThreatScanResult.new with
            processId := processId
            errorMessage := "Error scanning process: " ++ what }, e) := by
  unfold scanProcess scanProcessWith
  rw [herr]

/-- The statistics after a scan that reaches the threshold. -/
theorem scanProcess_statistics_of_threat (e : DetectionEngine) (env : ScanEnv)
    (processId : Nat) (info : ProcessInfo)
    (hok : getProcessInfo env processId = Except.ok info)
    (hthr : suspicionScore info processId ≥ e.config_.threat_threshold) :
    (scanProcess e env processId).2.statistics_
      = { e.statistics_ with
            threats_detected := (e.statistics_.threats_detected + 1) % SIZE_MOD
            events_processed := (e.statistics_.events_processed + 1) % SIZE_MOD } := by
  unfold scanProcess scanProcessWith
  rw [hok]
  dsimp only
  rw [if_pos hthr]
  rfl

/-- The statistics after a scan that stays below the threshold. -/
theorem scanProcess_statistics_of_clean (e : DetectionEngine) (env : ScanEnv)
    (processId : Nat) (info : ProcessInfo)
    (hok : getProcessInfo env processId = Except.ok info)
    (hthr : ¬ suspicionScore info processId ≥ e.config_.threat_threshold) :
    (scanProcess e env processId).2.statistics_
      = { e.statistics_ with
            events_processed := (e.statistics_.events_processed + 1) % SIZE_MOD } := by
  unfold scanProcess scanProcessWith
  rw [hok]
  dsimp only
  rw [if_neg hthr]

/-- A scan whose lookup raises nothing counts one event (modulo `2^64`). -/
theorem scanProcess_events_of_ok (e : DetectionEngine) (env : ScanEnv) (processId : Nat)
    (info : ProcessInfo) (hok : getProcessInfo env processId = Except.ok info) :
    (scanProcess e env processId).2.statistics_.events_processed
      = (e.statistics_.events_processed + 1) % SIZE_MOD := by
  by_cases hthr : suspicionScore info processId ≥ e.config_.threat_threshold
  · rw [scanProcess_statistics_of_threat e env processId info hok hthr]
  · rw [scanProcess_statistics_of_clean e env processId info hok hthr]

/-- Each counter is kept or incremented (modulo `2^64`) by a scan. -/
theorem scanProcess_counters (e : DetectionEngine) (env : ScanEnv) (processId : Nat) :
    ((scanProcess e env processId).2.statistics_.events_processed
        = e.statistics_.events_processed ∨
      (scanProcess e env processId).2.statistics_.events_processed
        = (e.statistics_.events_processed + 1) % SIZE_MOD) ∧
    ((scanProcess e env processId).2.statistics_.threats_detected
        = e.statistics_.threats_detected ∨
      (scanProcess e env processId).2.statistics_.threats_detected
        = (e.statistics_.threats_detected + 1) % SIZE_MOD) := by
  cases hres : getProcessInfo env processId with
  | error what =>
    rw [scanProcess_of_error e env processId what hres]
    exact ⟨Or.inl rfl, Or.inl rfl⟩
  | ok info =>
    by_cases hthr : suspicionScore info processId ≥ e.config_.threat_threshold
    · rw [scanProcess_statistics_of_threat e env processId info hres hthr]
      exact ⟨Or.inr rfl, Or.inr rfl⟩
    · rw [scanProcess_statistics_of_clean e env processId info hres hthr]
      exact ⟨Or.inr rfl, Or.inl rfl⟩

/-- Over a sequence of scans that cannot make a counter wrap, no counter
decreases. -/
theorem foldl_scanProcess_counters (scans : List (ScanEnv × Nat)) (e : DetectionEngine)
    (hev : e.statistics_.events_processed + scans.length < SIZE_MOD)
    (hth : e.statistics_.threats_detected + scans.length < SIZE_MOD) :
    (e.statistics_.events_processed
        ≤ (scans.foldl (fun acc s => (scanProcess acc s.1 s.2).2) e).statistics_.events_processed ∧
      (scans.foldl (fun acc s => (scanProcess acc s.1 s.2).2) e).statistics_.events_processed
        ≤ e.statistics_.events_processed + scans.length) ∧
    (e.statistics_.threats_detected
        ≤ (scans.foldl (fun acc s => (scanProcess acc s.1 s.2).2) e).statistics_.threats_detected ∧
      (scans.foldl (fun acc s => (scanProcess acc s.1 s.2).2) e).statistics_.threats_detected
        ≤ e.statistics_.threats_detected + scans.length) := by
  induction scans generalizing e with
  | nil => exact ⟨⟨le_refl _, le_refl _⟩, ⟨le_refl _, le_refl _⟩⟩
  | cons s rest ih =>
    rw [List.length_cons] at hev hth
    obtain ⟨h1, h2⟩ := scanProcess_counters e s.1 s.2
    have m1 : (e.statistics_.events_processed + 1) % SIZE_MOD
        = e.statistics_.events_processed + 1 := Nat.mod_eq_of_lt (by omega)
    have m2 : (e.statistics_.threats_detected + 1) % SIZE_MOD
        = e.statistics_.threats_detected + 1 := Nat.mod_eq_of_lt (by omega)
    rw [m1] at h1
    rw [m2] at h2
    have ih' := ih (scanProcess e s.1 s.2).2 (by rcases h1 with h | h <;> omega)
      (by rcases h2 with h | h <;> omega)
    rw [List.foldl_cons, List.length_cons]
    obtain ⟨⟨a1, a2⟩, ⟨b1, b2⟩⟩ := ih'
    refine ⟨⟨?_, ?_⟩, ⟨?_, ?_⟩⟩
    · rcases h1 with h | h <;> omega
    · rcases h1 with h | h <;> omega
    · rcases h2 with h | h <;> omega
    · rcases h2 with h | h <;> omega

end DetectionEngine

/-- C11 fails as stated: a scan that completes without error on an engine whose
`events_processed` is `2^64 - 1` leaves the counter at 0. -/
theorem C11_counter_wraps_counterexample :
    DetectionEngine.getProcessInfo DetectionEngine.exampleEnv 7
      = Except.ok { processId := 7, name := "KeyLogger.exe", path := "C:\\Temp\\kl.exe",
                    parentId := 0 } ∧
    ({ DetectionEngine.exampleEngine with
        statistics_ := { DetectionEngine.exampleEngine.statistics_ with
          events_processed := 18446744073709551615 } }
      : DetectionEngine).statistics_.events_processed = 18446744073709551615 ∧
    (DetectionEngine.scanProcess
      { DetectionEngine.exampleEngine with
        statistics_ := { DetectionEngine.exampleEngine.statistics_ with
          events_processed := 18446744073709551615 } }
      DetectionEngine.exampleEnv 7).2.statistics_.events_processed = 0 := by
  refine ⟨rfl, rfl, ?_⟩
  rw [DetectionEngine.scanProcess_events_of_ok
    { DetectionEngine.exampleEngine with
        statistics_ := { DetectionEngine.exampleEngine.statistics_ with
          events_processed := 18446744073709551615 } }
    DetectionEngine.exampleEnv 7
    { processId := 7, name := "KeyLogger.exe", path := "C:\\Temp\\kl.exe", parentId := 0 } rfl]
  decide

/-- C11, amended: for every scan that completes without error on an engine whose
counters are below `2^64 - 1`, `events_processed` increases by exactly one whether
or not a threat was found, and `threats_detected` increases by exactly one if a
threat record was registered and is unchanged (as is the registry) otherwise;
and over every sequence of scans, failed ones included, that is too short to
make a counter reach `2^64`, neither counter decreases. -/
theorem C11_counters_increase_without_wrap (e : DetectionEngine) (env : ScanEnv)
    (processId : Nat) (info : ProcessInfo) (scans : List (ScanEnv × Nat))
    (hok : DetectionEngine.getProcessInfo env processId = Except.ok info)
    (hev : e.statistics_.events_processed + 1 < SIZE_MOD)
    (hth : e.statistics_.threats_detected + 1 < SIZE_MOD)
    (hevs : e.statistics_.events_processed + scans.length < SIZE_MOD)
    (hths : e.statistics_.threats_detected + scans.length < SIZE_MOD) :
    (DetectionEngine.scanProcess e env processId).2.statistics_.events_processed
      = e.statistics_.events_processed + 1 ∧
    ((DetectionEngine.scanProcess e env processId).1.isThreat = true →
      (DetectionEngine.scanProcess e env processId).2.statistics_.threats_detected
        = e.statistics_.threats_detected + 1 ∧
      ∃ threat : ThreatInfo,
        DetectionEngine.getDetectedThreats (DetectionEngine.scanProcess e env processId).2
          = DetectionEngine.getDetectedThreats (DetectionEngine.registerThreat e threat)) ∧
    ((DetectionEngine.scanProcess e env processId).1.isThreat = false →
      (DetectionEngine.scanProcess e env processId).2.statistics_.threats_detected
        = e.statistics_.threats_detected ∧
      DetectionEngine.getDetectedThreats (DetectionEngine.scanProcess e env processId).2
        = DetectionEngine.getDetectedThreats e) ∧
    e.statistics_.events_processed
      ≤ (scans.foldl (fun acc s => (DetectionEngine.scanProcess acc s.1 s.2).2)
          e).statistics_.events_processed ∧
    e.statistics_.threats_detected
      ≤ (scans.foldl (fun acc s => (DetectionEngine.scanProcess acc s.1 s.2).2)
          e).statistics_.threats_detected := by
  have m1 : (e.statistics_.events_processed + 1) % SIZE_MOD
      = e.statistics_.events_processed + 1 := Nat.mod_eq_of_lt hev
  have m2 : (e.statistics_.threats_detected + 1) % SIZE_MOD
      = e.statistics_.threats_detected + 1 := Nat.mod_eq_of_lt hth
  obtain ⟨⟨s1, -⟩, ⟨s2, -⟩⟩ := DetectionEngine.foldl_scanProcess_counters scans e hevs hths
  refine ⟨by rw [DetectionEngine.scanProcess_events_of_ok e env processId info hok, m1],
    ?_, ?_, s1, s2⟩
  · intro hthreat
    by_cases hthr : DetectionEngine.suspicionScore info processId ≥ e.config_.threat_threshold
    · obtain ⟨-, -, -, -, h5⟩ :=
        DetectionEngine.scanProcess_of_threat e env processId info hok hthr
      rw [DetectionEngine.scanProcess_statistics_of_threat e env processId info hok hthr]
      exact ⟨m2, _, h5⟩
    · obtain ⟨-, h2, -⟩ := DetectionEngine.scanProcess_of_clean e env processId info hok hthr
      rw [h2] at hthreat
      exact absurd hthreat (by decide)
  · intro hclean
    by_cases hthr : DetectionEngine.suspicionScore info processId ≥ e.config_.threat_threshold
    · obtain ⟨-, h2, -⟩ := DetectionEngine.scanProcess_of_threat e env processId info hok hthr
      rw [h2] at hclean
      exact absurd hclean (by decide)
    · obtain ⟨-, -, -, -, h5⟩ :=
        DetectionEngine.scanProcess_of_clean e env processId info hok hthr
      rw [DetectionEngine.scanProcess_statistics_of_clean e env processId info hok hthr]
      exact ⟨rfl, h5⟩

/-- Witness of the amended C11: the key logger process scanned by a new engine. -/
theorem C11_counters_increase_without_wrap_witness :
    (DetectionEngine.getProcessInfo DetectionEngine.exampleEnv 7
        = Except.ok { processId := 7, name := "KeyLogger.exe", path := "C:\\Temp\\kl.exe",
                      parentId := 0 } ∧
      DetectionEngine.exampleEngine.statistics_.events_processed + 1 < SIZE_MOD ∧
      DetectionEngine.exampleEngine.statistics_.threats_detected + 1 < SIZE_MOD ∧
      DetectionEngine.exampleEngine.statistics_.events_processed
        + [(DetectionEngine.exampleEnv, 7), (DetectionEngine.failingEnv, 9)].length < SIZE_MOD ∧
      DetectionEngine.exampleEngine.statistics_.threats_detected
        + [(DetectionEngine.exampleEnv, 7), (DetectionEngine.failingEnv, 9)].length < SIZE_MOD) ∧
    (DetectionEngine.scanProcess DetectionEngine.exampleEngine DetectionEngine.exampleEnv
        7).2.statistics_.events_processed
      = DetectionEngine.exampleEngine.statistics_.events_processed + 1 :=
  ⟨⟨rfl, by decide, by decide, by decide, by decide⟩,
    (C11_counters_increase_without_wrap DetectionEngine.exampleEngine
      DetectionEngine.exampleEnv 7
      { processId := 7, name := "KeyLogger.exe", path := "C:\\Temp\\kl.exe", parentId := 0 }
      [(DetectionEngine.exampleEnv, 7), (DetectionEngine.failingEnv, 9)]
      rfl (by decide) (by decide) (by decide) (by decide)).1⟩

/-! ## Scorer: the worked examples -/

/-- C13: on an engine whose model is loaded, `predict` on the vector
`[0, 0, 0, 5, 1, 1, 0, 0, 0, 0]` (hook count 5, keyboard-hook flag 1,
hidden-window flag 1) computes hook score 1 and total 0.5 and returns class
SUSPICIOUS_BEHAVIOR with confidence 0.5. -/
theorem C13_hook_example_is_suspicious (m : MLEngine) (elapsed_ms : FloatVal)
    (hm : m.model_loaded_ = true) :
    analyzeHookFeatures [0, 0, 0, 5, 1, 1, 0, 0, 0, 0] 3 = some 1 ∧
    totalScore [0, 0, 0, 5, 1, 1, 0, 0, 0, 0] = some 0.5 ∧
    ∃ result m', m.predict [0, 0, 0, 5, 1, 1, 0, 0, 0, 0] elapsed_ms = some (result, m') ∧
      result.predicted_class = ThreatType.SUSPICIOUS_BEHAVIOR ∧ result.confidence = 0.5 ∧
      result.is_valid = true := by
  have hhook : analyzeHookFeatures [0, 0, 0, 5, 1, 1, 0, 0, 0, 0] 3 = some 1 := by
    rw [analyzeHookFeatures_ten]
    norm_num
  have htotal : totalScore [0, 0, 0, 5, 1, 1, 0, 0, 0, 0] = some 0.5 := by
    rw [totalScore_ten]
    norm_num
  obtain ⟨r, hp, hclass, hconf, -, -, -, hvalid⟩ := predict_of_total elapsed_ms hm htotal
  refine ⟨hhook, htotal, r, _, hp, ?_, ?_, hvalid⟩
  · rw [hclass]
    norm_num
  · rw [hconf]
    norm_num

/-- Witness of C13: a freshly initialised engine. -/
theorem C13_hook_example_is_suspicious_witness :
    ( MLEngine.initialize MLEngine.new 0).2.model_loaded_ = true ∧
    ∃ result m',
      ( MLEngine.initialize MLEngine.new 0).2.predict [0, 0, 0, 5, 1, 1, 0, 0, 0, 0] 1
        = some (result, m') ∧
      result.predicted_class = ThreatType.SUSPICIOUS_BEHAVIOR ∧ result.confidence = 0.5 ∧
      result.is_valid = true :=
  ⟨rfl, (C13_hook_example_is_suspicious ( MLEngine.initialize MLEngine.new 0).2 1 rfl).2.2⟩

/-- C14: on an engine whose model is loaded, `predict` on the all-zero vector of
length 10 computes total 0 and returns the benign class UNKNOWN with confidence 1
and `is_valid = true`. -/
theorem C14_zero_vector_is_benign (m : MLEngine) (elapsed_ms : FloatVal)
    (hm : m.model_loaded_ = true) :
    totalScore [0, 0, 0, 0, 0, 0, 0, 0, 0, 0] = some 0 ∧
    ∃ result m', m.predict [0, 0, 0, 0, 0, 0, 0, 0, 0, 0] elapsed_ms = some (result, m') ∧
      result.predicted_class = ThreatType.UNKNOWN ∧ result.confidence = 1 ∧
      result.is_valid = true := by
  have htotal : totalScore [0, 0, 0, 0, 0, 0, 0, 0, 0, 0] = some 0 := by
    rw [totalScore_ten]
    norm_num
  obtain ⟨r, hp, hclass, hconf, -, -, -, hvalid⟩ := predict_of_total elapsed_ms hm htotal
  refine ⟨htotal, r, _, hp, ?_, ?_, hvalid⟩
  · rw [hclass]
    norm_num
  · rw [hconf]
    norm_num

/-- Witness of C14: a freshly initialised engine. -/
theorem C14_zero_vector_is_benign_witness :
    ( MLEngine.initialize MLEngine.new 0).2.model_loaded_ = true ∧
    ∃ result m',
      ( MLEngine.initialize MLEngine.new 0).2.predict [0, 0, 0, 0, 0, 0, 0, 0, 0, 0] 1
        = some (result, m') ∧
      result.predicted_class = ThreatType.UNKNOWN ∧ result.confidence = 1 ∧
      result.is_valid = true :=
  ⟨rfl, (C14_zero_vector_is_benign ( MLEngine.initialize MLEngine.new 0).2 1 rfl).2⟩

/-! ## Feature extraction -/

/-- Folding one rule over its keywords: the weight is taken exactly when some
keyword matches. -/
theorem foldl_keywords (c : String → Bool) (w : FloatVal) (keywords : List String)
    (s0 : FloatVal) :
    keywords.foldl (fun suspicion keyword => if c keyword then max suspicion w else suspicion) s0
      = if keywords.any c then max s0 w else s0 := by
  induction keywords generalizing s0 with
  | nil => simp
  | cons k rest ih =>
    rw [List.foldl_cons, ih]
    by_cases hk : c k = true
    · simp [hk, max_assoc]
    · simp [hk]

/-- On a reachable engine that is initialised the rules are the three that
`initializeHeuristicRules` installs. -/
theorem MLEngine.rules_of_initialized {m : MLEngine} (hr : m.Reachable) :
    m.initialized_ = true →
    m.heuristic_rules_ = (initializeHeuristicRules MLEngine.new).heuristic_rules_ := by
  induction hr with
  | created => intro h; exact absurd h (by decide)
  | initialized m now _ ih =>
    unfold MLEngine.initialize
    by_cases hi : m.initialized_ = true
    · simpa [hi] using ih hi
    · simp [hi, initializeHeuristicRules]
  | loaded m model_path _ ih =>
    unfold MLEngine.loadModel
    by_cases hi : m.initialized_ = true
    · simpa [hi] using ih hi
    · simp [hi]
  | reloaded m _ ih =>
    unfold MLEngine.reloadModel MLEngine.loadModel
    by_cases hi : m.initialized_ = true
    · by_cases hp : m.metadata_.model_path.isEmpty = true
      · simpa [hi, hp] using ih hi
      · simpa [hi, hp] using ih hi
    · simp [hi]
  | stopped m _ _ => intro h; exact absurd h (by simp [MLEngine.shutdown])
  | predicted m m' features elapsed_ms result _ hp ih =>
    unfold MLEngine.predict MLEngine.predictWith at hp
    by_cases hl : m.model_loaded_ = true
    · simp only [hl, Bool.not_true, Bool.false_eq_true, if_false] at hp
      cases hres : analyzeWithHeuristicsWith id features with
      | none => simp [hres] at hp
      | some r =>
        simp [hres] at hp
        rw [← hp.2]
        exact ih
    · simp at hl
      simp [hl] at hp
      rw [← hp.2]
      exact ih

/-- The name-suspicion score under the installed rules: 0.8 exactly when the
lower-cased name contains one of the ten keywords, else 0. -/
theorem MLEngine.calculateNameSuspicion_eq (m : MLEngine)
    (hrules : m.heuristic_rules_ = (initializeHeuristicRules MLEngine.new).heuristic_rules_)
    (process_name : String) :
    m.calculateNameSuspicion process_name
      = if MLEngine.suspicious_keywords.any
            (fun keyword => DetectionEngine.contains (DetectionEngine.toLower process_name) keyword)
        then 0.8 else 0 := by
  have key := foldl_keywords
    (fun keyword => DetectionEngine.contains (DetectionEngine.toLower process_name) keyword)
    0.8 MLEngine.suspicious_keywords 0
  have h08 : max (0 : FloatVal) 0.8 = 0.8 := max_eq_right (by norm_num)
  rw [h08] at key
  unfold MLEngine.calculateNameSuspicion
  rw [hrules]
  exact key

theorem MLEngine.extractProcessFeatures_eq (m : MLEngine) (p : MLEngine.ProcessInfo) :
    m.extractProcessFeatures p
      = [m.calculateNameSuspicion p.name, p.cpu_usage, p.memory_mb, (p.hook_count : FloatVal),
         if p.has_keyboard_hooks then 1 else 0, if p.has_hidden_windows then 1 else 0,
         (p.file_operations_per_minute : FloatVal), (p.network_connections : FloatVal),
         (p.registry_accesses : FloatVal), if p.uses_encryption_apis then 1 else 0] := by
  rfl

/-- Every feature vector has a total score. -/
theorem totalScore_some (f : FeatureVector) : ∃ t, totalScore f = some t := by
  rcases Nat.lt_or_ge f.length 10 with hlt | hge
  · exact ⟨0, totalScore_short f hlt⟩
  · obtain ⟨a0, a1, a2, a3, a4, a5, a6, a7, a8, a9, rest, rfl⟩ := exists_ten_of_length f hge
    exact ⟨_, totalScore_ten a0 a1 a2 a3 a4 a5 a6 a7 a8 a9 rest⟩

/-- C16: for every feature vector scored by an engine whose model is loaded, the
probability vector of the result has length 5 and exactly one non-zero entry; the
entry sits at index 0 for the benign class UNKNOWN, 1 for KEYLOGGER, 2 for SPYWARE
and 3 for SUSPICIOUS_BEHAVIOR, no other class is returned, and its value is the
returned confidence. -/
theorem C16_one_nonzero_probability (m : MLEngine) (features : FeatureVector)
    (elapsed_ms : FloatVal) (hm : m.model_loaded_ = true) :
    ∃ result m', m.predict features elapsed_ms = some (result, m') ∧
      result.class_probabilities.length = 5 ∧
      (result.class_probabilities.filter (fun p => decide (p ≠ 0))).length = 1 ∧
      result.confidence ≠ 0 ∧
      ((result.predicted_class = ThreatType.UNKNOWN ∧
          result.class_probabilities = [result.confidence, 0, 0, 0, 0]) ∨
       (result.predicted_class = ThreatType.KEYLOGGER ∧
          result.class_probabilities = [0, result.confidence, 0, 0, 0]) ∨
       (result.predicted_class = ThreatType.SPYWARE ∧
          result.class_probabilities = [0, 0, result.confidence, 0, 0]) ∨
       (result.predicted_class = ThreatType.SUSPICIOUS_BEHAVIOR ∧
          result.class_probabilities = [0, 0, 0, result.confidence, 0])) := by
  obtain ⟨t, ht⟩ := totalScore_some features
  obtain ⟨r, hp, hclass, hconf, hprobs, -⟩ := predict_of_total elapsed_ms hm ht
  refine ⟨r, _, hp, ?_⟩
  by_cases h9 : t ≥ 0.9
  · have h5 : t ≥ 0.5 := by norm_num at h9 ⊢; linarith
    have hne : t ≠ 0 := by norm_num at h9; linarith
    rw [if_pos h9] at hclass hprobs
    rw [if_pos h5] at hconf
    rw [hprobs, hconf]
    exact ⟨rfl, by simp [hne], hne, Or.inr (Or.inl ⟨hclass, rfl⟩)⟩
  · by_cases h7 : t ≥ 0.7
    · have h5 : t ≥ 0.5 := by norm_num at h7 ⊢; linarith
      have hne : t ≠ 0 := by norm_num at h7; linarith
      rw [if_neg h9, if_pos h7] at hclass hprobs
      rw [if_pos h5] at hconf
      rw [hprobs, hconf]
      exact ⟨rfl, by simp [hne], hne, Or.inr (Or.inr (Or.inl ⟨hclass, rfl⟩))⟩
    · by_cases h5 : t ≥ 0.5
      · have hne : t ≠ 0 := by norm_num at h5; linarith
        rw [if_neg h9, if_neg h7, if_pos h5] at hclass hprobs
        rw [if_pos h5] at hconf
        rw [hprobs, hconf]
        exact ⟨rfl, by simp [hne], hne, Or.inr (Or.inr (Or.inr ⟨hclass, rfl⟩))⟩
      · have hne : 1 - t ≠ 0 := by norm_num at h5; linarith
        rw [if_neg h9, if_neg h7, if_neg h5] at hclass hprobs
        rw [if_neg h5] at hconf
        rw [hprobs, hconf]
        exact ⟨rfl, by simp [hne], hne, Or.inl ⟨hclass, rfl⟩⟩

/-- Witness of C16: the spec's hook example on a freshly initialised engine. -/
theorem C16_one_nonzero_probability_witness :
    ( MLEngine.initialize MLEngine.new 0).2.model_loaded_ = true ∧
    ∃ result m',
      ( MLEngine.initialize MLEngine.new 0).2.predict [0, 0, 0, 5, 1, 1, 0, 0, 0, 0] 1
        = some (result, m') ∧
      result.class_probabilities.length = 5 ∧
      (result.class_probabilities.filter (fun p => decide (p ≠ 0))).length = 1 ∧
      result.confidence ≠ 0 ∧
      ((result.predicted_class = ThreatType.UNKNOWN ∧
          result.class_probabilities = [result.confidence, 0, 0, 0, 0]) ∨
       (result.predicted_class = ThreatType.KEYLOGGER ∧
          result.class_probabilities = [0, result.confidence, 0, 0, 0]) ∨
       (result.predicted_class = ThreatType.SPYWARE ∧
          result.class_probabilities = [0, 0, result.confidence, 0, 0]) ∨
       (result.predicted_class = ThreatType.SUSPICIOUS_BEHAVIOR ∧
          result.class_probabilities = [0, 0, 0, result.confidence, 0])) :=
  ⟨rfl, C16_one_nonzero_probability ( MLEngine.initialize MLEngine.new 0).2
    [0, 0, 0, 5, 1, 1, 0, 0, 0, 0] 1 rfl⟩

/-- C17: for every ProcessInfo, `extractProcessFeatures` returns a vector of
length exactly 10 whose entries are, in order, the name-suspicion score of the
name, cpu usage, memory in MB, hook count, the keyboard-hook flag as 1 or 0, the
hidden-window flag as 1 or 0, file operations per minute, network connections,
registry accesses and the encryption-API flag as 1 or 0; and the hook score
computed from that vector uses the hook count of index 3, the keyboard-hook flag
of index 4 and the hidden-window flag of index 5. -/
theorem C17_extracted_vector_layout (m : MLEngine) (p : MLEngine.ProcessInfo) :
    (m.extractProcessFeatures p).length = 10 ∧
    m.extractProcessFeatures p
      = [m.calculateNameSuspicion p.name, p.cpu_usage, p.memory_mb, (p.hook_count : FloatVal),
         if p.has_keyboard_hooks then 1 else 0, if p.has_hidden_windows then 1 else 0,
         (p.file_operations_per_minute : FloatVal), (p.network_connections : FloatVal),
         (p.registry_accesses : FloatVal), if p.uses_encryption_apis then 1 else 0] ∧
    analyzeHookFeatures (m.extractProcessFeatures p) 3
      = some (min 1 ((if p.has_keyboard_hooks then (0.8 : FloatVal) else 0)
                      + (if p.hook_count > 3 then 0.4 else 0)
                      + (if p.has_hidden_windows then 0.6 else 0))) := by
  refine ⟨rfl, MLEngine.extractProcessFeatures_eq m p, ?_⟩
  rw [MLEngine.extractProcessFeatures_eq, analyzeHookFeatures_ten]
  cases hk : p.has_keyboard_hooks <;> cases hw : p.has_hidden_windows <;>
    by_cases hc : p.hook_count > 3 <;> simp [hc]

/-- C18 fails as stated: the lower-cased name `stealer.exe` contains the keyword
`stealer`, yet an initialised engine gives it name-suspicion 0. -/
theorem C18_stealer_counterexample :
    DetectionEngine.contains (DetectionEngine.toLower "Stealer.exe") "stealer" = true ∧
    ( MLEngine.initialize MLEngine.new 0).2.calculateNameSuspicion "Stealer.exe" = 0 := by
  refine ⟨by decide, ?_⟩
  rw [MLEngine.calculateNameSuspicion_eq ( MLEngine.initialize MLEngine.new 0).2 rfl]
  have hany : MLEngine.suspicious_keywords.any (fun keyword =>
      DetectionEngine.contains (DetectionEngine.toLower "Stealer.exe") keyword) = false := by
    decide
  rw [hany]
  rfl

/-- C18, amended: on a reachable, initialised engine, for every process name whose
lower-cased form contains one of the ten keywords of the rule
`suspicious_process_names` (keylog, keycatch, keystroke, keyspy, logger, winlog,
hook, capture, record, monitor) the name-suspicion score is the rule's weight 0.8;
for every name whose lower-cased form contains none of them it is 0; and two names
with the same lower-cased form, that is names differing in letter case only, have
the same score. -/
theorem C18_name_suspicion_by_keyword (m : MLEngine) (name name' : String)
    (hr : m.Reachable) (hi : m.initialized_ = true) :
    ((∃ keyword ∈ MLEngine.suspicious_keywords,
        DetectionEngine.contains (DetectionEngine.toLower name) keyword = true) →
      m.calculateNameSuspicion name = 0.8) ∧
    ((∀ keyword ∈ MLEngine.suspicious_keywords,
        DetectionEngine.contains (DetectionEngine.toLower name) keyword = false) →
      m.calculateNameSuspicion name = 0) ∧
    (DetectionEngine.toLower name = DetectionEngine.toLower name' →
      m.calculateNameSuspicion name = m.calculateNameSuspicion name') := by
  have hrules := MLEngine.rules_of_initialized hr hi
  refine ⟨?_, ?_, ?_⟩
  · rintro ⟨keyword, hmem, hc⟩
    rw [MLEngine.calculateNameSuspicion_eq m hrules]
    have hany : MLEngine.suspicious_keywords.any (fun keyword =>
        DetectionEngine.contains (DetectionEngine.toLower name) keyword) = true :=
      List.any_eq_true.mpr ⟨keyword, hmem, hc⟩
    rw [if_pos hany]
  · intro hnone
    rw [MLEngine.calculateNameSuspicion_eq m hrules]
    have hany : ¬ MLEngine.suspicious_keywords.any (fun keyword =>
        DetectionEngine.contains (DetectionEngine.toLower name) keyword) = true := by
      intro h
      obtain ⟨keyword, hmem, hc⟩ := List.any_eq_true.mp h
      rw [hnone keyword hmem] at hc
      exact absurd hc (by decide)
    rw [if_neg hany]
  · intro hlow
    rw [MLEngine.calculateNameSuspicion_eq m hrules, MLEngine.calculateNameSuspicion_eq m hrules,
      hlow]

/-- Witness of the amended C18: the names `KeyLogger.exe`, `notepad.exe` and
`KEYLOGGER.EXE` on a freshly initialised engine. -/
theorem C18_name_suspicion_by_keyword_witness :
    (( MLEngine.initialize MLEngine.new 0).2.Reachable ∧
      ( MLEngine.initialize MLEngine.new 0).2.initialized_ = true) ∧
    ( MLEngine.initialize MLEngine.new 0).2.calculateNameSuspicion "KeyLogger.exe" = 0.8 ∧
    ( MLEngine.initialize MLEngine.new 0).2.calculateNameSuspicion "notepad.exe" = 0 ∧
    ( MLEngine.initialize MLEngine.new 0).2.calculateNameSuspicion "KeyLogger.exe"
      = ( MLEngine.initialize MLEngine.new 0).2.calculateNameSuspicion "KEYLOGGER.EXE" :=
  ⟨⟨MLEngine.Reachable.initialized _ 0 MLEngine.Reachable.created, rfl⟩,
    (C18_name_suspicion_by_keyword ( MLEngine.initialize MLEngine.new 0).2
      "KeyLogger.exe" "KEYLOGGER.EXE"
      (MLEngine.Reachable.initialized _ 0 MLEngine.Reachable.created) rfl).1
      ⟨"keylog", by decide, by decide⟩,
    (C18_name_suspicion_by_keyword ( MLEngine.initialize MLEngine.new 0).2
      "notepad.exe" "notepad.exe"
      (MLEngine.Reachable.initialized _ 0 MLEngine.Reachable.created) rfl).2.1 (by decide),
    (C18_name_suspicion_by_keyword ( MLEngine.initialize MLEngine.new 0).2
      "KeyLogger.exe" "KEYLOGGER.EXE"
      (MLEngine.Reachable.initialized _ 0 MLEngine.Reachable.created) rfl).2.2 (by decide)⟩

/-! ## Bounded event buffer: push, and the zero capacity -/

namespace CircularBuffer

variable {T : Type} [Inhabited T]

/-- Every state reachable in a buffer of non-zero capacity satisfies the
representation invariant and keeps the capacity. -/
theorem WF_of_reachable (C : Nat) (h0 : 0 < C) (hc : C < SIZE_MOD) {b : CircularBuffer T}
    (hr : Reachable C b) : b.WF ∧ b.capacity_ = C := by
  induction hr with
  | created => exact ⟨WF_new C h0 hc, rfl⟩
  | pushed b b' item r _ hp ih =>
    obtain ⟨b'', hp', hwf, hcap, -⟩ := push_spec b item ih.1
    rw [hp'] at hp
    simp only [Option.some.injEq, Prod.mk.injEq] at hp
    rw [← hp.2]
    exact ⟨hwf, by rw [hcap, ih.2]⟩
  | popped b b' item out r _ hp ih =>
    rcases Nat.eq_zero_or_pos b.size_ with hz | hpos
    · rw [pop_empty b item hz] at hp
      simp only [Option.some.injEq, Prod.mk.injEq] at hp
      rw [← hp.2.2]
      exact ih
    · obtain ⟨y, rest, b'', -, hp', hwf, -, hcap, -⟩ := pop_nonempty b item ih.1 hpos
      rw [hp'] at hp
      simp only [Option.some.injEq, Prod.mk.injEq] at hp
      rw [← hp.2.2]
      exact ⟨hwf, by rw [hcap, ih.2]⟩

end CircularBuffer

/-- C19: for every buffer of capacity `C ≥ 1` in a reachable state and every item,
`push` returns true; if the buffer was full its size stays `C`, head and tail both
advance by one modulo `C` and the oldest item is dropped for the new one; if it
was not full its size grows by one, head advances by one modulo `C`, tail is
unchanged and the item is appended. -/
theorem C19_push_advances_pointers {T : Type} [Inhabited T] (C : Nat) (b : CircularBuffer T)
    (item : T) (hC : 1 ≤ C) (hsize_t : C < SIZE_MOD) (hr : CircularBuffer.Reachable C b) :
    ∃ b', b.push item = some (true, b') ∧
      (b.full = true →
        b.size_ = C ∧ b'.size_ = C ∧ b'.head_ = (b.head_ + 1) % C ∧
        b'.tail_ = (b.tail_ + 1) % C ∧ b'.contents = b.contents.tail ++ [item]) ∧
      (b.full = false →
        b'.size_ = b.size_ + 1 ∧ b'.head_ = (b.head_ + 1) % C ∧ b'.tail_ = b.tail_ ∧
        b'.contents = b.contents ++ [item]) := by
  obtain ⟨hwf, hcap⟩ := CircularBuffer.WF_of_reachable C hC hsize_t hr
  have hs : b.size_ ≤ b.capacity_ := hwf.2.2.2.2.2.1
  rcases Nat.lt_or_ge b.size_ b.capacity_ with hlt | hge
  · obtain ⟨b', hp, -, hc, -, hsz, htl, hhd⟩ := CircularBuffer.push_not_full b item hwf hlt
    refine ⟨b', hp, fun hfull => ?_, fun _ => ⟨hsz, by rw [hhd, hcap], htl, hc⟩⟩
    have : b.size_ ≥ b.capacity_ := by simpa [CircularBuffer.full] using hfull
    omega
  · have hfull : b.size_ = b.capacity_ := by omega
    obtain ⟨b', hp, -, hc, -, hsz, htl, hhd⟩ := CircularBuffer.push_full b item hwf hfull
    refine ⟨b', hp, fun _ => ⟨by rw [hfull, hcap], by rw [hsz, hfull, hcap], by rw [hhd, hcap],
      by rw [htl, hcap], hc⟩, fun hnot => ?_⟩
    have : ¬ b.size_ ≥ b.capacity_ := by simpa [CircularBuffer.full] using hnot
    omega

/-- Witness of C19: a push onto a newly constructed buffer of capacity two. -/
theorem C19_push_advances_pointers_witness :
    (1 ≤ 2 ∧ 2 < SIZE_MOD ∧
      CircularBuffer.Reachable 2 (CircularBuffer.new 2 : CircularBuffer Nat)) ∧
    ∃ b', (CircularBuffer.new 2 : CircularBuffer Nat).push 7 = some (true, b') ∧
      ((CircularBuffer.new 2 : CircularBuffer Nat).full = true →
        (CircularBuffer.new 2 : CircularBuffer Nat).size_ = 2 ∧ b'.size_ = 2 ∧
        b'.head_ = ((CircularBuffer.new 2 : CircularBuffer Nat).head_ + 1) % 2 ∧
        b'.tail_ = ((CircularBuffer.new 2 : CircularBuffer Nat).tail_ + 1) % 2 ∧
        b'.contents = (CircularBuffer.new 2 : CircularBuffer Nat).contents.tail ++ [7]) ∧
      ((CircularBuffer.new 2 : CircularBuffer Nat).full = false →
        b'.size_ = (CircularBuffer.new 2 : CircularBuffer Nat).size_ + 1 ∧
        b'.head_ = ((CircularBuffer.new 2 : CircularBuffer Nat).head_ + 1) % 2 ∧
        b'.tail_ = (CircularBuffer.new 2 : CircularBuffer Nat).tail_ ∧
        b'.contents = (CircularBuffer.new 2 : CircularBuffer Nat).contents ++ [7]) :=
  ⟨⟨by decide, by decide, CircularBuffer.Reachable.created⟩,
    C19_push_advances_pointers 2 (CircularBuffer.new 2) 7 (by decide) (by decide)
      CircularBuffer.Reachable.created⟩

/-- C20, evaluated on the code: on a buffer constructed with capacity 0, which is
also what the engine constructor builds from a configuration whose `buffer_size`
is 0, the first `push` takes the remainder `(tail_ + 1) % capacity_` with a zero
divisor, so the call has no defined result. -/
theorem C20_push_on_zero_capacity_faults {T : Type} [Inhabited T] (item : T) :
    (CircularBuffer.new 0 : CircularBuffer T).capacity_ = 0 ∧
    sizeRem (sizeAdd (CircularBuffer.new 0 : CircularBuffer T).tail_ 1)
      (CircularBuffer.new 0 : CircularBuffer T).capacity_ = none ∧
    (CircularBuffer.new 0 : CircularBuffer T).push item = none ∧
    (CircularBuffer.new ({ Config.default with buffer_size := 0 } : Config).buffer_size
      : CircularBuffer T).push item = none := by
  refine ⟨rfl, rfl, ?_, ?_⟩ <;> simp [CircularBuffer.push, CircularBuffer.new, sizeRem]

/-! ## Bounded event buffer: pop, and the invariant -/

/-- C21: for every buffer of capacity `C ≥ 1` in a reachable state: `pop` on an
empty buffer returns false and leaves the buffer and the output item unchanged;
`pop` on a non-empty buffer returns true with the oldest retained item, decreases
the size by exactly one and leaves the remaining items in their order; and on an
empty buffer `push x` followed by `pop` returns `x`. -/
theorem C21_pop_returns_oldest {T : Type} [Inhabited T] (C : Nat) (b : CircularBuffer T)
    (item x : T) (hC : 1 ≤ C) (hsize_t : C < SIZE_MOD) (hr : CircularBuffer.Reachable C b) :
    (b.size_ = 0 → b.pop item = some (false, item, b)) ∧
    (0 < b.size_ →
      ∃ oldest rest b', b.contents = oldest :: rest ∧ b.pop item = some (true, oldest, b') ∧
        b'.contents = rest ∧ b'.size_ + 1 = b.size_) ∧
    (b.size_ = 0 →
      ∃ b1 b2, b.push x = some (true, b1) ∧ b1.pop item = some (true, x, b2) ∧
        b2.size_ = 0 ∧ b2.contents = []) := by
  obtain ⟨hwf, hcap⟩ := CircularBuffer.WF_of_reachable C hC hsize_t hr
  refine ⟨CircularBuffer.pop_empty b item, fun hpos => ?_, fun hz => ?_⟩
  · obtain ⟨y, rest, b', hc, hp, -, hc', -, hs⟩ := CircularBuffer.pop_nonempty b item hwf hpos
    exact ⟨y, rest, b', hc, hp, hc', by omega⟩
  · have hlt : b.size_ < b.capacity_ := by
      rw [hz, hcap]
      omega
    obtain ⟨b1, hp1, hwf1, hc1, -, hs1, -⟩ := CircularBuffer.push_not_full b x hwf hlt
    have hcont : b.contents = [] := by
      apply List.eq_nil_of_length_eq_zero
      rw [CircularBuffer.length_contents, hz]
    rw [hcont, List.nil_append] at hc1
    obtain ⟨y, rest, b2, hc, hp2, -, hc2, -, hs2⟩ :=
      CircularBuffer.pop_nonempty b1 item hwf1 (by omega)
    rw [hc1] at hc
    simp only [List.cons.injEq] at hc
    obtain ⟨hy, hrest⟩ := hc
    subst hy
    exact ⟨b1, b2, hp1, hp2, by omega, by rw [hc2, ← hrest]⟩

/-- Witness of C21: a newly constructed buffer of capacity three. -/
theorem C21_pop_returns_oldest_witness :
    (1 ≤ 3 ∧ 3 < SIZE_MOD ∧
      CircularBuffer.Reachable 3 (CircularBuffer.new 3 : CircularBuffer Nat)) ∧
    (CircularBuffer.new 3 : CircularBuffer Nat).pop 0
      = some (false, 0, CircularBuffer.new 3) ∧
    ∃ b1 b2, (CircularBuffer.new 3 : CircularBuffer Nat).push 8 = some (true, b1) ∧
      b1.pop 0 = some (true, 8, b2) ∧ b2.size_ = 0 ∧ b2.contents = [] :=
  ⟨⟨by decide, by decide, CircularBuffer.Reachable.created⟩,
    (C21_pop_returns_oldest 3 (CircularBuffer.new 3) 0 8 (by decide) (by decide)
      CircularBuffer.Reachable.created).1 rfl,
    (C21_pop_returns_oldest 3 (CircularBuffer.new 3) 0 8 (by decide) (by decide)
      CircularBuffer.Reachable.created).2.2 rfl⟩

/-- C30: in every state reachable from a newly constructed buffer of capacity
`C ≥ 1` by any sequence of `push` and `pop` calls, the storage length is `C`, the
capacity is `C`, `size ≤ C`, `head < C`, `tail < C` and
`head = (tail + size) mod C`; `full()` returns true exactly when `size = C` and
`empty()` exactly when `size = 0`. -/
theorem C30_buffer_invariant {T : Type} [Inhabited T] (C : Nat) (b : CircularBuffer T)
    (hC : 1 ≤ C) (hsize_t : C < SIZE_MOD) (hr : CircularBuffer.Reachable C b) :
    b.buffer_.length = C ∧ b.capacity_ = C ∧ b.size_ ≤ C ∧ b.head_ < C ∧ b.tail_ < C ∧
    b.head_ = (b.tail_ + b.size_) % C ∧
    (b.full = true ↔ b.size = C) ∧ (b.empty = true ↔ b.size = 0) := by
  obtain ⟨⟨hlen, -, -, hh, ht, hs, hhead⟩, hcap⟩ :=
    CircularBuffer.WF_of_reachable C hC hsize_t hr
  rw [hcap] at hlen hh ht hs hhead
  refine ⟨hlen, hcap, hs, hh, ht, hhead, ?_, ?_⟩
  · simp only [CircularBuffer.full, CircularBuffer.size, decide_eq_true_eq, hcap]
    omega
  · simp [CircularBuffer.empty, CircularBuffer.size]

/-- Witness of C30: a buffer of capacity two after one push. -/
theorem C30_buffer_invariant_witness :
    (1 ≤ 2 ∧ 2 < SIZE_MOD ∧
      CircularBuffer.Reachable 2
        ({ buffer_ := [5, 0], capacity_ := 2, head_ := 1, tail_ := 0, size_ := 1 }
          : CircularBuffer Nat)) ∧
    ({ buffer_ := [5, 0], capacity_ := 2, head_ := 1, tail_ := 0, size_ := 1 }
      : CircularBuffer Nat).head_
      = (({ buffer_ := [5, 0], capacity_ := 2, head_ := 1, tail_ := 0, size_ := 1 }
          : CircularBuffer Nat).tail_
        + ({ buffer_ := [5, 0], capacity_ := 2, head_ := 1, tail_ := 0, size_ := 1 }
          : CircularBuffer Nat).size_) % 2 :=
  ⟨⟨by decide, by decide,
      CircularBuffer.Reachable.pushed (CircularBuffer.new 2) _ 5 true
        CircularBuffer.Reachable.created rfl⟩,
    (C30_buffer_invariant 2 _ (by decide) (by decide)
      (CircularBuffer.Reachable.pushed (CircularBuffer.new 2) _ 5 true
        CircularBuffer.Reachable.created rfl)).2.2.2.2.2.1⟩

/-! ## Scorer: determinism, batches and the reference scores -/

/-- The result of `predict` depends on the engine through `model_loaded_` only. -/
theorem predict_result_of_loaded_eq (m1 m2 : MLEngine) (f : FeatureVector)
    (elapsed_ms : FloatVal) (h : m1.model_loaded_ = m2.model_loaded_) :
    (m1.predict f elapsed_ms).map Prod.fst = (m2.predict f elapsed_ms).map Prod.fst := by
  unfold MLEngine.predict MLEngine.predictWith
  rw [h]
  cases m2.model_loaded_
  · rfl
  · cases analyzeWithHeuristicsWith id f <;> rfl

/-- The call `predict` always returns; it is valid exactly on a loaded engine, and
it counts exactly the valid predictions. -/
theorem predict_returns (m : MLEngine) (f : FeatureVector) (elapsed_ms : FloatVal) :
    ∃ r m', m.predict f elapsed_ms = some (r, m') ∧ r.is_valid = m.model_loaded_ ∧
      m'.model_loaded_ = m.model_loaded_ ∧ m'.initialized_ = m.initialized_ ∧
      m'.inference_count_
        = (if r.is_valid then (m.inference_count_ + 1) % SIZE_MOD else m.inference_count_) := by
  cases hm : m.model_loaded_ with
  | false =>
    exact ⟨_, m, predict_not_loaded m f elapsed_ms hm, rfl, hm, rfl, rfl⟩
  | true =>
    obtain ⟨t, ht⟩ := totalScore_some f
    obtain ⟨r, hp, -, -, -, -, -, hv⟩ := predict_of_total elapsed_ms hm ht
    refine ⟨r, _, hp, hv, hm, rfl, ?_⟩
    rw [hv]
    rfl

/-- C22: `predict` is deterministic: on two engines in the same initialisation
state, whatever their inference counters and whatever the measured durations, the
calls on one feature vector both return, with the same class, confidence,
probability vector, `features_used` and validity flag; and a call leaves the
initialisation state as it was, so any number of calls may lie in between. -/
theorem C22_predict_is_deterministic (m1 m2 : MLEngine) (features : FeatureVector)
    (elapsed1 elapsed2 : FloatVal) (h : m1.model_loaded_ = m2.model_loaded_) :
    ∃ r1 r2 m1' m2',
      m1.predict features elapsed1 = some (r1, m1') ∧
      m2.predict features elapsed2 = some (r2, m2') ∧
      r1.predicted_class = r2.predicted_class ∧ r1.confidence = r2.confidence ∧
      r1.class_probabilities = r2.class_probabilities ∧
      r1.features_used = r2.features_used ∧ r1.is_valid = r2.is_valid ∧
      m1'.model_loaded_ = m1.model_loaded_ ∧ m1'.initialized_ = m1.initialized_ := by
  cases hm : m2.model_loaded_ with
  | false =>
    rw [hm] at h
    exact ⟨_, _, m1, m2, predict_not_loaded m1 features elapsed1 h,
      predict_not_loaded m2 features elapsed2 hm, rfl, rfl, rfl, rfl, rfl, rfl, rfl⟩
  | true =>
    rw [hm] at h
    obtain ⟨t, ht⟩ := totalScore_some features
    obtain ⟨r1, hp1, hc1, hf1, hpr1, hu1, -, hv1⟩ := predict_of_total elapsed1 h ht
    obtain ⟨r2, hp2, hc2, hf2, hpr2, hu2, -, hv2⟩ := predict_of_total elapsed2 hm ht
    exact ⟨r1, r2, _, _, hp1, hp2, by rw [hc1, hc2], by rw [hf1, hf2], by rw [hpr1, hpr2],
      by rw [hu1, hu2], by rw [hv1, hv2], rfl, rfl⟩

/-- Witness of C22: a freshly initialised engine and the same engine after 41
counted inferences. -/
theorem C22_predict_is_deterministic_witness :
    (( MLEngine.initialize MLEngine.new 0).2.model_loaded_
      = ({ ( MLEngine.initialize MLEngine.new 0).2 with inference_count_ := 41 }
          : MLEngine).model_loaded_) ∧
    ∃ r1 r2 m1' m2',
      ( MLEngine.initialize MLEngine.new 0).2.predict [0, 0, 0, 5, 1, 1, 0, 0, 0, 0] 1
        = some (r1, m1') ∧
      ({ ( MLEngine.initialize MLEngine.new 0).2 with inference_count_ := 41 }
          : MLEngine).predict [0, 0, 0, 5, 1, 1, 0, 0, 0, 0] 2 = some (r2, m2') ∧
      r1.predicted_class = r2.predicted_class ∧ r1.confidence = r2.confidence ∧
      r1.class_probabilities = r2.class_probabilities ∧
      r1.features_used = r2.features_used ∧ r1.is_valid = r2.is_valid ∧
      m1'.model_loaded_ = ( MLEngine.initialize MLEngine.new 0).2.model_loaded_ ∧
      m1'.initialized_ = ( MLEngine.initialize MLEngine.new 0).2.initialized_ :=
  ⟨rfl, C22_predict_is_deterministic ( MLEngine.initialize MLEngine.new 0).2
    { ( MLEngine.initialize MLEngine.new 0).2 with inference_count_ := 41 }
    [0, 0, 0, 5, 1, 1, 0, 0, 0, 0] 1 2 rfl⟩

/-- The batch call returns one result per vector, each the result of `predict` on
that vector, and counts the valid ones modulo `2^64`. -/
theorem predictBatch_spec (batch : List FeatureVector) (m : MLEngine)
    (elapsed_ms : Nat → FloatVal) (hcount : m.inference_count_ < SIZE_MOD) :
    ∃ results m', m.predictBatch batch elapsed_ms = some (results, m') ∧
      results.length = batch.length ∧
      (∀ i features, batch[i]? = some features →
        ∃ r m'', results[i]? = some r ∧ m.predict features (elapsed_ms i) = some (r, m'')) ∧
      m'.inference_count_
        = (m.inference_count_ + (results.filter (fun r => r.is_valid)).length) % SIZE_MOD := by
  induction batch generalizing m elapsed_ms with
  | nil =>
    refine ⟨[], m, rfl, rfl, ?_, ?_⟩
    · intro i features hi
      simp at hi
    · simp only [List.filter_nil, List.length_nil, Nat.add_zero]
      exact (Nat.mod_eq_of_lt hcount).symm
  | cons f rest ih =>
    obtain ⟨r, m1, hp, hv, hl, -, hc⟩ := predict_returns m f (elapsed_ms 0)
    have hm1 : m1.inference_count_ < SIZE_MOD := by
      rw [hc]
      split_ifs
      · exact Nat.mod_lt _ (by decide)
      · exact hcount
    obtain ⟨rs, m', hb, hlen, hith, hcnt⟩ := ih m1 (fun i => elapsed_ms (i + 1)) hm1
    refine ⟨r :: rs, m', ?_, by rw [List.length_cons, List.length_cons, hlen], ?_, ?_⟩
    · simp [MLEngine.predictBatch, hp, hb]
    · intro i features hi
      cases i with
      | zero =>
        simp only [List.getElem?_cons_zero, Option.some.injEq] at hi
        subst hi
        exact ⟨r, m1, List.getElem?_cons_zero, hp⟩
      | succ j =>
        simp only [List.getElem?_cons_succ] at hi
        obtain ⟨rj, mj, hrj, hpj⟩ := hith j features hi
        have heq := predict_result_of_loaded_eq m m1 features (elapsed_ms (j + 1)) hl.symm
        rw [hpj] at heq
        obtain ⟨rm, mm, hpm, -⟩ := predict_returns m features (elapsed_ms (j + 1))
        rw [hpm] at heq
        simp only [Option.map_some', Option.some.injEq] at heq
        exact ⟨rj, mm, by simpa using hrj, by rw [hpm, heq]⟩
    · rw [hcnt, hc]
      cases hvalid : r.is_valid
      · simp [hvalid]
      · simp only [hvalid, if_true, List.filter_cons_of_pos, List.length_cons]
        rw [Nat.mod_add_mod]
        congr 1
        omega

/-- C23: for every list of feature vectors, `predictBatch` returns a list of the
same length whose element of index `i` is the result of `predict` on the vector of
index `i` (the empty batch gives the empty list and leaves the engine unchanged),
and it advances the 64-bit inference counter by the number of valid predictions
made; without a wrap the counter is the old one plus that number. -/
theorem C23_predictBatch_maps_predict (m : MLEngine) (batch : List FeatureVector)
    (elapsed_ms : Nat → FloatVal) (hcount : m.inference_count_ < SIZE_MOD) :
    m.predictBatch [] elapsed_ms = some ([], m) ∧
    ∃ results m', m.predictBatch batch elapsed_ms = some (results, m') ∧
      results.length = batch.length ∧
      (∀ i features, batch[i]? = some features →
        ∃ r m'', results[i]? = some r ∧ m.predict features (elapsed_ms i) = some (r, m'')) ∧
      m'.inference_count_
        = (m.inference_count_ + (results.filter (fun r => r.is_valid)).length) % SIZE_MOD ∧
      (m.inference_count_ + (results.filter (fun r => r.is_valid)).length < SIZE_MOD →
        m'.inference_count_
          = m.inference_count_ + (results.filter (fun r => r.is_valid)).length) := by
  obtain ⟨results, m', hb, hlen, hith, hcnt⟩ := predictBatch_spec batch m elapsed_ms hcount
  exact ⟨rfl, results, m', hb, hlen, hith, hcnt, fun hlt => by rw [hcnt, Nat.mod_eq_of_lt hlt]⟩

/-- Witness of C23: a batch of two vectors on a freshly initialised engine. -/
theorem C23_predictBatch_maps_predict_witness :
    ( MLEngine.initialize MLEngine.new 0).2.inference_count_ < SIZE_MOD ∧
    ∃ results m',
      ( MLEngine.initialize MLEngine.new 0).2.predictBatch
          [[0, 0, 0, 5, 1, 1, 0, 0, 0, 0], [1, 2]] (fun _ => 1) = some (results, m') ∧
      results.length = [[0, 0, 0, 5, 1, 1, 0, 0, 0, 0], [(1 : FloatVal), 2]].length :=
  ⟨by decide,
    (C23_predictBatch_maps_predict ( MLEngine.initialize MLEngine.new 0).2
      [[0, 0, 0, 5, 1, 1, 0, 0, 0, 0], [1, 2]] (fun _ => 1) (by decide)).2.imp
      (fun _ h => h.imp (fun _ h' => ⟨h'.1, h'.2.1⟩))⟩

namespace APIServer

theorem routes_closed :
    mapSet (mapSet (mapSet (mapSet (mapSet (mapSet (mapSet ([] : List (String × RouteHandler))
      "/api/status" RouteHandler.getStatus) "/api/scan/start" RouteHandler.startScan)
      "/api/threats" RouteHandler.getThreats) "/api/config" RouteHandler.config)
      "/api/quarantine" RouteHandler.quarantine) "/api/statistics" RouteHandler.getStatistics)
      "/api/health" RouteHandler.healthCheck
      = [("/api/status", RouteHandler.getStatus), ("/api/scan/start", RouteHandler.startScan),
         ("/api/threats", RouteHandler.getThreats), ("/api/config", RouteHandler.config),
         ("/api/quarantine", RouteHandler.quarantine),
         ("/api/statistics", RouteHandler.getStatistics),
         ("/api/health", RouteHandler.healthCheck)] := by
  decide

theorem routes_closed_again :
    mapSet (mapSet (mapSet (mapSet (mapSet (mapSet (mapSet
      [("/api/status", RouteHandler.getStatus), ("/api/scan/start", RouteHandler.startScan),
       ("/api/threats", RouteHandler.getThreats), ("/api/config", RouteHandler.config),
       ("/api/quarantine", RouteHandler.quarantine),
       ("/api/statistics", RouteHandler.getStatistics),
       ("/api/health", RouteHandler.healthCheck)]
      "/api/status" RouteHandler.getStatus) "/api/scan/start" RouteHandler.startScan)
      "/api/threats" RouteHandler.getThreats) "/api/config" RouteHandler.config)
      "/api/quarantine" RouteHandler.quarantine) "/api/statistics" RouteHandler.getStatistics)
      "/api/health" RouteHandler.healthCheck
      = [("/api/status", RouteHandler.getStatus), ("/api/scan/start", RouteHandler.startScan),
         ("/api/threats", RouteHandler.getThreats), ("/api/config", RouteHandler.config),
         ("/api/quarantine", RouteHandler.quarantine),
         ("/api/statistics", RouteHandler.getStatistics),
         ("/api/health", RouteHandler.healthCheck)] := by
  decide

/-- The route table that `setupRoutes` builds from an empty one. -/
theorem setupRoutes_of_empty (s : APIServer) (h : s.route_handlers_ = []) :
    (setupRoutes s).route_handlers_
      = [("/api/status", RouteHandler.getStatus), ("/api/scan/start", RouteHandler.startScan),
         ("/api/threats", RouteHandler.getThreats), ("/api/config", RouteHandler.config),
         ("/api/quarantine", RouteHandler.quarantine),
         ("/api/statistics", RouteHandler.getStatistics),
         ("/api/health", RouteHandler.healthCheck)] := by
  unfold setupRoutes
  rw [h]
  exact routes_closed

/-- Running `setupRoutes` on the table it built gives the same table. -/
theorem setupRoutes_of_routes (s : APIServer)
    (h : s.route_handlers_
      = [("/api/status", RouteHandler.getStatus), ("/api/scan/start", RouteHandler.startScan),
         ("/api/threats", RouteHandler.getThreats), ("/api/config", RouteHandler.config),
         ("/api/quarantine", RouteHandler.quarantine),
         ("/api/statistics", RouteHandler.getStatistics),
         ("/api/health", RouteHandler.healthCheck)]) :
    (setupRoutes s).route_handlers_ = s.route_handlers_ := by
  unfold setupRoutes
  rw [h]
  exact routes_closed_again

/-- The header written by every handler is found again. -/
theorem cors_header :
    mapFind (mapSet ([] : List (String × String)) "Access-Control-Allow-Origin" "*")
      "Access-Control-Allow-Origin" = some "*" := by
  decide

theorem cors_header_after_methods :
    mapFind (mapSet (mapSet ([] : List (String × String)) "Access-Control-Allow-Origin" "*")
      "Access-Control-Allow-Methods" "GET, POST, OPTIONS")
      "Access-Control-Allow-Origin" = some "*" := by
  decide

/-- What every response of a stored closure has: a status other than 404, the
JSON content type and the permissive cross-origin header. -/
theorem runHandler_ok (h : RouteHandler) (s : APIServer) (env : ApiEnv) (req : HTTPRequest)
    (r : HTTPResponse × APIServer) (hr : runHandler h s env req = Except.ok r) :
    r.1.status_code ≠ 404 ∧ r.1.content_type = "application/json" ∧
    mapFind r.1.headers "Access-Control-Allow-Origin" = some "*" ∧
    r.2.route_handlers_ = s.route_handlers_ := by
  have h200 : (200 : Int) ≠ 404 := by decide
  have h500 : (500 : Int) ≠ 404 := by decide
  have h503 : (503 : Int) ≠ 404 := by decide
  have h405 : (405 : Int) ≠ 404 := by decide
  cases h with
  | getStatus =>
    simp only [runHandler, pure, Except.pure, Except.ok.injEq] at hr
    subst hr
    exact ⟨h200, rfl, cors_header_after_methods, rfl⟩
  | startScan =>
    simp only [runHandler, handleStartScan] at hr
    cases hd : s.detection_engine_ with
    | none =>
      simp only [hd, pure, Except.pure, bind, Except.bind, Except.ok.injEq] at hr
      subst hr
      exact ⟨h503, rfl, cors_header, rfl⟩
    | some engine =>
      cases hs : env.startFullScan engine with
      | error what => simp [hd, hs, bind, Except.bind] at hr
      | ok scan =>
        cases hb : scan.1
        · simp only [hd, hs, hb, pure, Except.pure, bind, Except.bind, Except.ok.injEq,
            if_false, Bool.false_eq_true] at hr
          subst hr
          exact ⟨h500, rfl, cors_header, rfl⟩
        · simp only [hd, hs, hb, pure, Except.pure, bind, Except.bind, Except.ok.injEq,
            if_true] at hr
          subst hr
          exact ⟨h200, rfl, cors_header, rfl⟩
  | getThreats =>
    simp only [runHandler, pure, Except.pure, Except.ok.injEq] at hr
    subst hr
    exact ⟨h200, rfl, cors_header, rfl⟩
  | config =>
    simp only [runHandler] at hr
    by_cases hg : (req.method == "GET") = true
    · simp only [hg, if_true, pure, Except.pure, Except.ok.injEq] at hr
      subst hr
      exact ⟨h200, rfl, cors_header, rfl⟩
    · by_cases hp : (req.method == "POST" || req.method == "PUT") = true
      · simp only [hg, hp, if_true, if_false, Bool.false_eq_true, pure, Except.pure,
          Except.ok.injEq] at hr
        subst hr
        exact ⟨h200, rfl, cors_header, rfl⟩
      · simp only [hg, hp, if_false, Bool.false_eq_true, pure, Except.pure,
          Except.ok.injEq] at hr
        subst hr
        exact ⟨h405, rfl, cors_header, rfl⟩
  | quarantine =>
    simp only [runHandler, pure, Except.pure, Except.ok.injEq] at hr
    subst hr
    exact ⟨h200, rfl, cors_header, rfl⟩
  | getStatistics =>
    simp only [runHandler, pure, Except.pure, Except.ok.injEq] at hr
    subst hr
    exact ⟨h200, rfl, cors_header, rfl⟩
  | healthCheck =>
    simp only [runHandler, pure, Except.pure, Except.ok.injEq] at hr
    subst hr
    exact ⟨h200, rfl, cors_header, rfl⟩

/-- The error responses carry their code, the JSON content type and the
permissive cross-origin header. -/
theorem createErrorResponse_fields (code : Int) (message : String) :
    (createErrorResponse code message).status_code = code ∧
    (createErrorResponse code message).content_type = "application/json" ∧
    (createErrorResponse code message).body
      = "\x7b\"error\": \x7b\"code\": " ++ toString code ++ ", \"message\": \"" ++ message
          ++ "\"\x7d\x7d" ∧
    mapFind (createErrorResponse code message).headers "Access-Control-Allow-Origin"
      = some "*" :=
  ⟨rfl, rfl, rfl, cors_header⟩

/-- A request for an unknown path is answered 404. -/
theorem handleRequest_none (s : APIServer) (env : ApiEnv) (req : HTTPRequest)
    (hf : mapFind s.route_handlers_ req.path = none) :
    handleRequest s env req = (createErrorResponse 404 "Endpoint not found", s) := by
  unfold handleRequest
  rw [hf]

/-- A request whose handler returns is answered by the handler. -/
theorem handleRequest_ok (s : APIServer) (env : ApiEnv) (req : HTTPRequest) (h : RouteHandler)
    (r : HTTPResponse × APIServer) (hf : mapFind s.route_handlers_ req.path = some h)
    (hr : runHandler h s env req = Except.ok r) :
    handleRequest s env req = r := by
  unfold handleRequest
  rw [hf]
  dsimp only
  rw [hr]

/-- A request whose handler raises is answered 500. -/
theorem handleRequest_error (s : APIServer) (env : ApiEnv) (req : HTTPRequest)
    (h : RouteHandler) (what : String) (hf : mapFind s.route_handlers_ req.path = some h)
    (hr : runHandler h s env req = Except.error what) :
    handleRequest s env req
      = (createErrorResponse 500 ("Internal server error: " ++ what), s) := by
  unfold handleRequest
  rw [hf]
  dsimp only
  rw [hr]

/-- A request leaves the route table as it was. -/
theorem handleRequest_routes (s : APIServer) (env : ApiEnv) (req : HTTPRequest) :
    (handleRequest s env req).2.route_handlers_ = s.route_handlers_ := by
  cases hf : mapFind s.route_handlers_ req.path with
  | none => rw [handleRequest_none s env req hf]
  | some h =>
    cases hr : runHandler h s env req with
    | error what => rw [handleRequest_error s env req h what hf hr]
    | ok r =>
      rw [handleRequest_ok s env req h r hf hr]
      exact (runHandler_ok h s env req r hr).2.2.2

/-- The route table of a reachable server is empty or the one `setupRoutes`
builds. -/
theorem routes_of_reachable {s : APIServer} (hr : s.Reachable) :
    s.route_handlers_ = [] ∨
    s.route_handlers_
      = [("/api/status", RouteHandler.getStatus), ("/api/scan/start", RouteHandler.startScan),
         ("/api/threats", RouteHandler.getThreats), ("/api/config", RouteHandler.config),
         ("/api/quarantine", RouteHandler.quarantine),
         ("/api/statistics", RouteHandler.getStatistics),
         ("/api/health", RouteHandler.healthCheck)] := by
  induction hr with
  | created host port env => exact Or.inl rfl
  | initialized s _ ih =>
    unfold APIServer.initialize
    by_cases hrun : s.running_ = true
    · simpa [hrun] using ih
    · simp only [hrun, if_false, Bool.false_eq_true]
      rcases ih with h | h
      · exact Or.inr (setupRoutes_of_empty s h)
      · exact Or.inr (by rw [← h]; exact setupRoutes_of_routes s h)
  | started s _ ih =>
    unfold start
    by_cases hrun : s.running_ = true
    · simpa [hrun] using ih
    · simpa [hrun] using ih
  | stopped s _ ih =>
    unfold stop
    by_cases hrun : s.running_ = true
    · simpa [hrun] using ih
    · simpa [hrun] using ih
  | enginesSet s d m _ ih => exact ih
  | handled s env req _ ih =>
    rw [handleRequest_routes]
    exact ih

/-- The table built by `setupRoutes` finds nothing exactly for the paths that are
not registered. -/
theorem mapFind_routes_none (path : String) :
    mapFind
        [("/api/status", RouteHandler.getStatus), ("/api/scan/start", RouteHandler.startScan),
         ("/api/threats", RouteHandler.getThreats), ("/api/config", RouteHandler.config),
         ("/api/quarantine", RouteHandler.quarantine),
         ("/api/statistics", RouteHandler.getStatistics),
         ("/api/health", RouteHandler.healthCheck)] path = none
      ↔ path ∉ registeredPaths := by
  simp only [mapFind, registeredPaths, List.find?_cons, List.find?_nil, List.mem_cons,
    List.mem_singleton, List.not_mem_nil, or_false, not_or]
  by_cases h1 : "/api/status" = path
  · simp [h1.symm]
  by_cases h2 : "/api/scan/start" = path
  · simp [h2.symm]
  by_cases h3 : "/api/threats" = path
  · simp [h3.symm]
  by_cases h4 : "/api/config" = path
  · simp [h4.symm]
  by_cases h5 : "/api/quarantine" = path
  · simp [h5.symm]
  by_cases h6 : "/api/statistics" = path
  · simp [h6.symm]
  by_cases h7 : "/api/health" = path
  · simp [h7.symm]
  have e1 : ("/api/status" == path) = false := beq_eq_false_iff_ne.mpr h1
  have e2 : ("/api/scan/start" == path) = false := beq_eq_false_iff_ne.mpr h2
  have e3 : ("/api/threats" == path) = false := beq_eq_false_iff_ne.mpr h3
  have e4 : ("/api/config" == path) = false := beq_eq_false_iff_ne.mpr h4
  have e5 : ("/api/quarantine" == path) = false := beq_eq_false_iff_ne.mpr h5
  have e6 : ("/api/statistics" == path) = false := beq_eq_false_iff_ne.mpr h6
  have e7 : ("/api/health" == path) = false := beq_eq_false_iff_ne.mpr h7
  simp only [e1, e2, e3, e4, e5, e6, e7, Option.map_none', true_iff]
  exact ⟨Ne.symm h1, Ne.symm h2, Ne.symm h3, Ne.symm h4, Ne.symm h5, Ne.symm h6, Ne.symm h7⟩

end APIServer

/-- C24: for every request and server state, `handleRequest` answers 404 exactly
when the request path is not a key of the route table (exact string match); the
table of a newly constructed server is empty, so every path gives 404, and the
non-empty table of a reachable server has exactly the seven registered paths; for
a registered path the answer is the handler's response, and if the handler raises
an error with message `m` the answer has status 500 and the body
`{"error": {"code": 500, "message": "Internal server error: m"}}`. -/
theorem C24_unknown_path_is_404 (s : APIServer) (env : ApiEnv) (req : HTTPRequest) :
    ((APIServer.handleRequest s env req).1.status_code = 404 ↔
      mapFind s.route_handlers_ req.path = none) ∧
    (∀ handler r, mapFind s.route_handlers_ req.path = some handler →
      APIServer.runHandler handler s env req = Except.ok r →
      APIServer.handleRequest s env req = r) ∧
    (∀ handler m, mapFind s.route_handlers_ req.path = some handler →
      APIServer.runHandler handler s env req = Except.error m →
      (APIServer.handleRequest s env req).1.status_code = 500 ∧
      (APIServer.handleRequest s env req).1.body
        = "\x7b\"error\": \x7b\"code\": " ++ toString (500 : Int) ++ ", \"message\": \""
            ++ ("Internal server error: " ++ m) ++ "\"\x7d\x7d") ∧
    (∀ host port env0,
      (APIServer.handleRequest (APIServer.new host port env0) env req).1.status_code = 404) ∧
    (s.Reachable → s.route_handlers_ ≠ [] →
      (mapFind s.route_handlers_ req.path = none ↔ req.path ∉ APIServer.registeredPaths)) := by
  refine ⟨?_, fun handler r hf hr => APIServer.handleRequest_ok s env req handler r hf hr,
    fun handler m hf hr => ?_, fun host port env0 => ?_, fun hreach hne => ?_⟩
  · cases hf : mapFind s.route_handlers_ req.path with
    | none =>
      rw [APIServer.handleRequest_none s env req hf]
      exact ⟨fun _ => rfl, fun _ => rfl⟩
    | some handler =>
      cases hr : APIServer.runHandler handler s env req with
      | error what =>
        rw [APIServer.handleRequest_error s env req handler what hf hr]
        exact ⟨fun h => absurd h (show (500 : Int) ≠ 404 by decide),
          fun h => absurd h (by simp)⟩
      | ok r =>
        rw [APIServer.handleRequest_ok s env req handler r hf hr]
        exact ⟨fun h => absurd h (APIServer.runHandler_ok handler s env req r hr).1,
          fun h => absurd h (by simp)⟩
  · rw [APIServer.handleRequest_error s env req handler m hf hr]
    exact ⟨rfl, rfl⟩
  · rw [APIServer.handleRequest_none (APIServer.new host port env0) env req rfl]
    rfl
  · rcases APIServer.routes_of_reachable hreach with h | h
    · exact absurd h hne
    · rw [h]
      exact APIServer.mapFind_routes_none req.path

/-- C25: for every request, whatever its path and method, and every server state,
the response of `handleRequest` has the content type `application/json` and
carries the header `Access-Control-Allow-Origin` with value `*`. -/
theorem C25_every_response_is_json_with_cors (s : APIServer) (env : ApiEnv)
    (req : HTTPRequest) :
    (APIServer.handleRequest s env req).1.content_type = "application/json" ∧
    mapFind (APIServer.handleRequest s env req).1.headers "Access-Control-Allow-Origin"
      = some "*" := by
  cases hf : mapFind s.route_handlers_ req.path with
  | none =>
    rw [APIServer.handleRequest_none s env req hf]
    exact ⟨rfl, APIServer.cors_header⟩
  | some handler =>
    cases hr : APIServer.runHandler handler s env req with
    | error what =>
      rw [APIServer.handleRequest_error s env req handler what hf hr]
      exact ⟨rfl, APIServer.cors_header⟩
    | ok r =>
      rw [APIServer.handleRequest_ok s env req handler r hf hr]
      exact ⟨(APIServer.runHandler_ok handler s env req r hr).2.1,
        (APIServer.runHandler_ok handler s env req r hr).2.2.1⟩

namespace APIServer

/-- In the table built by `setupRoutes` the scan closure is stored under
`/api/scan/start` only and the config closure under `/api/config` only. -/
theorem mapFind_routes_some (path : String) (handler : RouteHandler)
    (h : mapFind
        [("/api/status", RouteHandler.getStatus), ("/api/scan/start", RouteHandler.startScan),
         ("/api/threats", RouteHandler.getThreats), ("/api/config", RouteHandler.config),
         ("/api/quarantine", RouteHandler.quarantine),
         ("/api/statistics", RouteHandler.getStatistics),
         ("/api/health", RouteHandler.healthCheck)] path = some handler) :
    (handler = RouteHandler.startScan → path = "/api/scan/start") ∧
    (handler = RouteHandler.config → path = "/api/config") := by
  simp only [mapFind, List.find?_cons, List.find?_nil] at h
  by_cases h1 : "/api/status" = path
  · subst h1
    simp at h
    subst h
    exact ⟨fun hh => absurd hh (by decide), fun hh => absurd hh (by decide)⟩
  have e1 : ("/api/status" == path) = false := beq_eq_false_iff_ne.mpr h1
  by_cases h2 : "/api/scan/start" = path
  · exact ⟨fun _ => h2.symm, fun hh => by
      subst h2
      simp at h
      subst h
      exact absurd hh (by decide)⟩
  have e2 : ("/api/scan/start" == path) = false := beq_eq_false_iff_ne.mpr h2
  by_cases h3 : "/api/threats" = path
  · subst h3
    simp at h
    subst h
    exact ⟨fun hh => absurd hh (by decide), fun hh => absurd hh (by decide)⟩
  have e3 : ("/api/threats" == path) = false := beq_eq_false_iff_ne.mpr h3
  by_cases h4 : "/api/config" = path
  · exact ⟨fun hh => by
      subst h4
      simp at h
      subst h
      exact absurd hh (by decide), fun _ => h4.symm⟩
  have e4 : ("/api/config" == path) = false := beq_eq_false_iff_ne.mpr h4
  by_cases h5 : "/api/quarantine" = path
  · subst h5
    simp at h
    subst h
    exact ⟨fun hh => absurd hh (by decide), fun hh => absurd hh (by decide)⟩
  have e5 : ("/api/quarantine" == path) = false := beq_eq_false_iff_ne.mpr h5
  by_cases h6 : "/api/statistics" = path
  · subst h6
    simp at h
    subst h
    exact ⟨fun hh => absurd hh (by decide), fun hh => absurd hh (by decide)⟩
  have e6 : ("/api/statistics" == path) = false := beq_eq_false_iff_ne.mpr h6
  by_cases h7 : "/api/health" = path
  · subst h7
    simp at h
    subst h
    exact ⟨fun hh => absurd hh (by decide), fun hh => absurd hh (by decide)⟩
  have e7 : ("/api/health" == path) = false := beq_eq_false_iff_ne.mpr h7
  simp [e1, e2, e3, e4, e5, e6, e7] at h

/-- Every stored closure but the scan closure and the config closure on POST or
PUT returns the server as it was. -/
theorem runHandler_frame (h : RouteHandler) (s : APIServer) (env : ApiEnv) (req : HTTPRequest)
    (hscan : h ≠ RouteHandler.startScan)
    (hcfg : h = RouteHandler.config → ¬ (req.method = "POST" ∨ req.method = "PUT")) :
    ∃ response, runHandler h s env req = Except.ok (response, s) := by
  cases h with
  | getStatus => exact ⟨_, rfl⟩
  | startScan => exact absurd rfl hscan
  | getThreats => exact ⟨_, rfl⟩
  | config =>
    have hm := hcfg rfl
    simp only [runHandler]
    by_cases hg : (req.method == "GET") = true
    · exact ⟨_, by simp only [hg, if_true]; rfl⟩
    · have hp : ¬ (req.method == "POST" || req.method == "PUT") = true := by
        simpa using hm
      exact ⟨_, by simp only [hg, hp, if_false, Bool.false_eq_true]; rfl⟩
  | quarantine => exact ⟨_, rfl⟩
  | getStatistics => exact ⟨_, rfl⟩
  | healthCheck => exact ⟨_, rfl⟩

end APIServer

/-- C26 fails as stated: with both engines attached and the Detection Engine in
state RUNNING, the health check of a server that was not started reports
`unhealthy`. -/
theorem C26_health_counterexample :
    APIServer.exampleServer.detection_engine_.map (fun engine => engine.state_)
      = some State.RUNNING ∧
    APIServer.exampleServer.ml_engine_.isSome = true ∧
    (APIServer.handleRequest APIServer.exampleServer APIServer.exampleEnv
        { method := "GET", path := "/api/health", query_string := "", headers := [],
          body := "" }).1.body
      = "\x7b\"status\": \"unhealthy\",\"timestamp\": \"2024-01-01 00:00:00\","
          ++ "\"uptime_seconds\": 3600,\"components\": "
          ++ "\x7b\"detection_engine\": true,\"ml_engine\": true\x7d\x7d" := by
  decide

/-- C26, amended: the health-check endpoint answers 200 and reports `healthy`
exactly when the API server itself is running (its `running_` flag) and both a
Detection Engine and an MLEngine are attached, `unhealthy` in every other case;
its components section reports the presence of each engine; and the answer does
not depend on the state of the attached Detection Engine. -/
theorem C26_health_reports_server_running (s : APIServer) (env : ApiEnv)
    (engine : DetectionEngine) :
    (APIServer.handleHealthCheck s env).status_code = 200 ∧
    (APIServer.handleHealthCheck s env).body
      = "\x7b"
        ++ "\"status\": \""
        ++ (if s.running_ = true ∧ s.detection_engine_.isSome = true ∧ s.ml_engine_.isSome = true
            then "healthy" else "unhealthy")
        ++ "\","
        ++ "\"timestamp\": \"" ++ env.currentTime ++ "\","
        ++ "\"uptime_seconds\": 3600,"
        ++ "\"components\": \x7b"
        ++ "\"detection_engine\": " ++ (if s.detection_engine_.isSome then "true" else "false")
        ++ ","
        ++ "\"ml_engine\": " ++ (if s.ml_engine_.isSome then "true" else "false")
        ++ "\x7d\x7d" ∧
    APIServer.handleHealthCheck
        { s with detection_engine_ := s.detection_engine_.map (fun _ => engine) } env
      = APIServer.handleHealthCheck s env := by
  refine ⟨rfl, ?_, ?_⟩
  · have hcond : (APIServer.healthy s = true)
        ↔ (s.running_ = true ∧ s.detection_engine_.isSome = true ∧ s.ml_engine_.isSome = true) := by
      simp [APIServer.healthy, and_assoc]
    simp only [APIServer.handleHealthCheck, APIServer.getCurrentTime, APIServer.boolText, hcond]
  · simp [APIServer.handleHealthCheck, APIServer.healthy]

/-- C27: on a reachable server, for every request that is neither a config update
(POST or PUT on `/api/config`) nor a start-scan (`/api/scan/start`),
`handleRequest` leaves the whole server unchanged: configuration record, status
record and both engines. -/
theorem C27_other_requests_are_read_only (s : APIServer) (env : ApiEnv) (req : HTTPRequest)
    (hr : s.Reachable) (hscan : req.path ≠ "/api/scan/start")
    (hcfg : ¬ (req.path = "/api/config" ∧ (req.method = "POST" ∨ req.method = "PUT"))) :
    (APIServer.handleRequest s env req).2 = s ∧
    (APIServer.handleRequest s env req).2.system_config_ = s.system_config_ ∧
    (APIServer.handleRequest s env req).2.system_status_ = s.system_status_ ∧
    (APIServer.handleRequest s env req).2.detection_engine_ = s.detection_engine_ ∧
    (APIServer.handleRequest s env req).2.ml_engine_ = s.ml_engine_ := by
  have hmain : (APIServer.handleRequest s env req).2 = s := by
    cases hf : mapFind s.route_handlers_ req.path with
    | none => rw [APIServer.handleRequest_none s env req hf]
    | some handler =>
      have hroutes := APIServer.routes_of_reachable hr
      rcases hroutes with h | h
      · rw [h] at hf
        exact absurd hf (by simp [mapFind])
      · rw [h] at hf
        obtain ⟨hs, hc⟩ := APIServer.mapFind_routes_some req.path handler hf
        obtain ⟨response, hresp⟩ := APIServer.runHandler_frame handler s env req
          (fun hh => hscan (hs hh)) (fun hh hm => hcfg ⟨hc hh, hm⟩)
        rw [APIServer.handleRequest_ok s env req handler (response, s) (by rw [h]; exact hf)
          hresp]
  rw [hmain]
  exact ⟨rfl, rfl, rfl, rfl, rfl⟩

/-- Witness of C27: a health check on the example server. -/
theorem C27_other_requests_are_read_only_witness :
    (APIServer.exampleServer.Reachable ∧
      ({ method := "GET", path := "/api/health", query_string := "", headers := [],
         body := "" } : HTTPRequest).path ≠ "/api/scan/start") ∧
    (APIServer.handleRequest APIServer.exampleServer APIServer.exampleEnv
        { method := "GET", path := "/api/health", query_string := "", headers := [],
          body := "" }).2 = APIServer.exampleServer :=
  ⟨⟨APIServer.Reachable.initialized _
      (APIServer.Reachable.enginesSet _ _ _ (APIServer.Reachable.created _ _ _)),
    by decide⟩,
    (C27_other_requests_are_read_only APIServer.exampleServer APIServer.exampleEnv
      { method := "GET", path := "/api/health", query_string := "", headers := [], body := "" }
      (APIServer.Reachable.initialized _
        (APIServer.Reachable.enginesSet _ _ _ (APIServer.Reachable.created _ _ _)))
      (by decide) (by decide)).1⟩

/-! ## Bounded event buffer: refinement of a bounded FIFO list -/

namespace CircularBuffer

variable {T : Type} [Inhabited T]

/-- A push on a well-formed buffer is the reference push on its contents. -/
theorem push_refines (b : CircularBuffer T) (x : T) (hwf : b.WF) :
    ∃ b', b.push x = some (true, b') ∧ b'.WF ∧ b'.capacity_ = b.capacity_ ∧
      b'.contents = fifoPush b.capacity_ b.contents x := by
  have hs : b.size_ ≤ b.capacity_ := hwf.2.2.2.2.2.1
  have h0 : 0 < b.capacity_ := hwf.2.1
  rcases Nat.lt_or_ge b.size_ b.capacity_ with hlt | hge
  · obtain ⟨b1, hp, hwf1, hc1, hcap1, -⟩ := push_not_full b x hwf hlt
    refine ⟨b1, hp, hwf1, hcap1, ?_⟩
    unfold fifoPush
    rw [length_contents, if_neg (by omega), hc1]
  · have hfull : b.size_ = b.capacity_ := by omega
    obtain ⟨b1, hp, hwf1, hc1, hcap1, -⟩ := push_full b x hwf hfull
    refine ⟨b1, hp, hwf1, hcap1, ?_⟩
    have hne : b.contents ≠ [] := by
      intro h
      have hl := length_contents b
      rw [h, List.length_nil] at hl
      omega
    unfold fifoPush
    rw [length_contents, if_pos hfull, hc1, List.tail_append_of_ne_nil hne]

/-- A pop on a well-formed buffer is the reference pop on its contents. -/
theorem pop_refines (b : CircularBuffer T) (out : T) (hwf : b.WF) :
    ∃ b', b.pop out = some ((fifoPop b.contents).1.isSome, (fifoPop b.contents).1.getD out, b') ∧
      b'.WF ∧ b'.capacity_ = b.capacity_ ∧ b'.contents = (fifoPop b.contents).2 := by
  rcases Nat.eq_zero_or_pos b.size_ with hz | hpos
  · have hc : b.contents = [] := by
      apply List.eq_nil_of_length_eq_zero
      rw [length_contents, hz]
    rw [hc]
    exact ⟨b, pop_empty b out hz, hwf, rfl, hc⟩
  · obtain ⟨y, rest, b1, hc, hp, hwf1, hc1, hcap1, -⟩ := pop_nonempty b out hwf hpos
    rw [hc]
    exact ⟨b1, hp, hwf1, hcap1, hc1⟩

/-- A sequence of calls on a well-formed buffer is seen by the client as the
reference run on its contents is, and leaves the contents the reference run
leaves. -/
theorem run_refines (calls : List (BufferCall T)) (b : CircularBuffer T) (out : T)
    (hwf : b.WF) :
    ∃ b', b.run out calls = some ((fifoRun b.capacity_ b.contents calls).1, b') ∧ b'.WF ∧
      b'.capacity_ = b.capacity_ ∧ b'.contents = (fifoRun b.capacity_ b.contents calls).2 := by
  induction calls generalizing b out with
  | nil => exact ⟨b, rfl, hwf, rfl, rfl⟩
  | cons c rest ih =>
    cases c with
    | push item =>
      obtain ⟨b1, hp, hwf1, hcap1, hc1⟩ := push_refines b item hwf
      obtain ⟨b', hrun, hwf', hcap', hc'⟩ := ih b1 out hwf1
      rw [hcap1, hc1] at hrun hc'
      refine ⟨b', ?_, hwf', by rw [hcap', hcap1], ?_⟩
      · have hsz : b1.size = (fifoPush b.capacity_ b.contents item).length := by
          rw [← hc1, length_contents]
          rfl
        simp only [run, hp, hrun, fifoRun, Option.bind_eq_bind, Option.some_bind, Option.pure_def,
          hsz]
      · simp only [fifoRun]
        exact hc'
    | pop =>
      obtain ⟨b1, hp, hwf1, hcap1, hc1⟩ := pop_refines b out hwf
      obtain ⟨b', hrun, hwf', hcap', hc'⟩ := ih b1 ((fifoPop b.contents).1.getD out) hwf1
      rw [hcap1, hc1] at hrun hc'
      refine ⟨b', ?_, hwf', by rw [hcap', hcap1], ?_⟩
      · have hsz : b1.size = (fifoPop b.contents).2.length := by
          rw [← hc1, length_contents]
          rfl
        have hitem : (if (fifoPop b.contents).1.isSome = true
              then some ((fifoPop b.contents).1.getD out) else none) = (fifoPop b.contents).1 := by
          cases (fifoPop b.contents).1 <;> rfl
        simp only [run, hp, hrun, fifoRun, Option.bind_eq_bind, Option.some_bind, Option.pure_def,
          hsz, hitem]
      · simp only [fifoRun]
        exact hc'

end CircularBuffer

/-- C31: for every capacity `C ≥ 1` and every sequence of `push` and `pop` calls
made on a buffer in a reachable state, with the abstract content taken as the
`size_` slots from `tail_` on (wrapping), the calls return what the same calls
return on a bounded FIFO list (`push` appends and drops the first element if the
list already had `C` elements, `pop` removes and returns the first element),
`size()` after every call is the length of the list, and the content the calls
leave is the list they leave; the content of a new buffer is the empty list. -/
theorem C31_buffer_refines_bounded_fifo {T : Type} [Inhabited T] (C : Nat)
    (b : CircularBuffer T) (out : T) (calls : List (BufferCall T)) (hC : 1 ≤ C)
    (hsize_t : C < SIZE_MOD) (hr : CircularBuffer.Reachable C b) :
    (CircularBuffer.new C : CircularBuffer T).contents = [] ∧
    b.size = b.contents.length ∧
    ∃ b', b.run out calls = some ((fifoRun C b.contents calls).1, b') ∧
      b'.contents = (fifoRun C b.contents calls).2 ∧
      b'.size = (fifoRun C b.contents calls).2.length := by
  obtain ⟨hwf, hcap⟩ := CircularBuffer.WF_of_reachable C hC hsize_t hr
  obtain ⟨b', hrun, -, -, hc'⟩ := CircularBuffer.run_refines calls b out hwf
  rw [hcap] at hrun hc'
  refine ⟨CircularBuffer.contents_new C, (CircularBuffer.length_contents b).symm, b', hrun, hc',
    ?_⟩
  rw [← hc', CircularBuffer.length_contents]
  rfl

/-- Witness of C31: four pushes and three pops on a new buffer of capacity two. -/
theorem C31_buffer_refines_bounded_fifo_witness :
    (1 ≤ 2 ∧ 2 < SIZE_MOD ∧
      CircularBuffer.Reachable 2 (CircularBuffer.new 2 : CircularBuffer Nat)) ∧
    ∃ b', (CircularBuffer.new 2 : CircularBuffer Nat).run 0
        [BufferCall.push 1, BufferCall.push 2, BufferCall.push 3, BufferCall.pop,
         BufferCall.push 4, BufferCall.pop, BufferCall.pop, BufferCall.pop]
      = some ((fifoRun 2 (CircularBuffer.new 2 : CircularBuffer Nat).contents
          [BufferCall.push 1, BufferCall.push 2, BufferCall.push 3, BufferCall.pop,
           BufferCall.push 4, BufferCall.pop, BufferCall.pop, BufferCall.pop]).1, b') ∧
      b'.contents = (fifoRun 2 (CircularBuffer.new 2 : CircularBuffer Nat).contents
          [BufferCall.push 1, BufferCall.push 2, BufferCall.push 3, BufferCall.pop,
           BufferCall.push 4, BufferCall.pop, BufferCall.pop, BufferCall.pop]).2 ∧
      b'.size = (fifoRun 2 (CircularBuffer.new 2 : CircularBuffer Nat).contents
          [BufferCall.push 1, BufferCall.push 2, BufferCall.push 3, BufferCall.pop,
           BufferCall.push 4, BufferCall.pop, BufferCall.pop, BufferCall.pop]).2.length :=
  ⟨⟨by decide, by decide, CircularBuffer.Reachable.created⟩,
    (C31_buffer_refines_bounded_fifo 2 (CircularBuffer.new 2) 0
      [BufferCall.push 1, BufferCall.push 2, BufferCall.push 3, BufferCall.pop,
       BufferCall.push 4, BufferCall.pop, BufferCall.pop, BufferCall.pop]
      (by decide) (by decide) CircularBuffer.Reachable.created).2.2⟩

/-! ## Detection engine: the values of the scan score -/

namespace DetectionEngine

/-- The scan score is the name term plus the location term; the hook check and
the network check add nothing. -/
theorem suspicionScore_eq (info : ProcessInfo) (processId : Nat) :
    suspicionScore info processId
      = (if isProcessNameSuspicious info.name then 0.3 else 0)
        + (if isLocationSuspicious info.path then 0.2 else 0) := by
  unfold suspicionScore hasKeyboardHooks hasSuspiciousNetworkActivity
  cases isProcessNameSuspicious info.name <;> cases isLocationSuspicious info.path <;> norm_num

theorem suspicionScore_values (info : ProcessInfo) (processId : Nat) :
    suspicionScore info processId = 0 ∨ suspicionScore info processId = 0.2 ∨
    suspicionScore info processId = 0.3 ∨ suspicionScore info processId = 0.5 := by
  rw [suspicionScore_eq]
  cases isProcessNameSuspicious info.name <;> cases isLocationSuspicious info.path <;> norm_num

theorem suspicionScore_le_half (info : ProcessInfo) (processId : Nat) :
    suspicionScore info processId ≤ 0.5 := by
  rcases suspicionScore_values info processId with h | h | h | h <;> rw [h] <;> norm_num

/-- With a threshold above one half a scan reports no threat and leaves the
registry and the threat counter as they were. -/
theorem scanProcess_of_high_threshold (e : DetectionEngine) (env : ScanEnv) (processId : Nat)
    (hthr : 0.5 < e.config_.threat_threshold) :
    (scanProcess e env processId).1.isThreat = false ∧
    (scanProcess e env processId).2.detected_threats_ = e.detected_threats_ ∧
    (scanProcess e env processId).2.statistics_.threats_detected
      = e.statistics_.threats_detected := by
  cases hres : getProcessInfo env processId with
  | error what =>
    rw [scanProcess_of_error e env processId what hres]
    exact ⟨rfl, rfl, rfl⟩
  | ok info =>
    have hno : ¬ suspicionScore info processId ≥ e.config_.threat_threshold := by
      have := suspicionScore_le_half info processId
      intro hge
      linarith
    obtain ⟨-, h2, -, -, h5⟩ := scanProcess_of_clean e env processId info hres hno
    refine ⟨h2, h5, ?_⟩
    rw [scanProcess_statistics_of_clean e env processId info hres hno]

/-- What `start()` leaves as it was. -/
theorem start_frame (e e' : DetectionEngine) (r : Bool) (h : e.start = some (r, e')) :
    e'.config_ = e.config_ ∧ e'.detected_threats_ = e.detected_threats_ ∧
    e'.statistics_ = e.statistics_ := by
  unfold start startWith at h
  by_cases hrun : e.state_ = State.RUNNING
  · simp only [hrun, if_true, Option.some.injEq, Prod.mk.injEq] at h
    rw [← h.2]
    exact ⟨rfl, rfl, rfl⟩
  · cases ht : e.monitoring_thread_ with
    | true => simp [hrun, ht, initializeComponents] at h
    | false =>
      simp only [hrun, ht, initializeComponents, if_false, Bool.not_true, Bool.false_eq_true,
        Option.some.injEq, Prod.mk.injEq] at h
      rw [← h.2]
      exact ⟨rfl, rfl, rfl⟩

/-- What `stop()` leaves as it was. -/
theorem stop_frame (e : DetectionEngine) :
    e.stop.2.config_ = e.config_ ∧ e.stop.2.detected_threats_ = e.detected_threats_ ∧
    e.stop.2.statistics_ = e.statistics_ := by
  by_cases hst : e.state_ = State.STOPPED
  · rw [stop_of_stopped e hst]
    exact ⟨rfl, rfl, rfl⟩
  · rw [stop_of_not_stopped e hst]
    exact ⟨rfl, rfl, rfl⟩

/-- An engine whose threshold is above one half never registers a threat. -/
theorem no_threat_of_reachable {e : DetectionEngine} (hr : e.Reachable) :
    0.5 < e.config_.threat_threshold →
    e.detected_threats_ = [] ∧ e.statistics_.threats_detected = 0 := by
  induction hr with
  | created config now => exact fun _ => ⟨rfl, rfl⟩
  | started e e' r _ hs ih =>
    obtain ⟨f1, f2, f3⟩ := start_frame e e' r hs
    rw [f1, f2, f3]
    exact ih
  | stopped e _ ih =>
    obtain ⟨f1, f2, f3⟩ := stop_frame e
    rw [f1, f2, f3]
    exact ih
  | scanned e env processId _ ih =>
    intro hthr
    rw [(scanProcess_frame e env processId).2.2.2.2] at hthr
    obtain ⟨-, h2, h3⟩ := scanProcess_of_high_threshold e env processId hthr
    rw [h2, h3]
    exact ih hthr

theorem mem_registerThreat (e : DetectionEngine) (threat t : ThreatInfo)
    (h : t ∈ (registerThreat e threat).detected_threats_) :
    t ∈ e.detected_threats_ ∨ t = threat := by
  unfold registerThreat at h
  dsimp only at h
  have hmem : t ∈ e.detected_threats_ ++ [threat] := by
    by_cases hlen : (e.detected_threats_ ++ [threat]).length > 1000
    · rw [if_pos hlen] at h
      exact List.mem_of_mem_tail h
    · rw [if_neg hlen] at h
      exact h
  rcases List.mem_append.mp hmem with h1 | h1
  · exact Or.inl h1
  · exact Or.inr (List.mem_singleton.mp h1)

/-- The records a scan leaves in the registry: the ones it found and, if it
registered one, a record of level HIGH. -/
theorem mem_scanProcess (e : DetectionEngine) (env : ScanEnv) (processId : Nat) (t : ThreatInfo)
    (h : t ∈ (scanProcess e env processId).2.detected_threats_) :
    t ∈ e.detected_threats_ ∨ t.level = ThreatLevel.HIGH := by
  cases hres : getProcessInfo env processId with
  | error what =>
    rw [scanProcess_of_error e env processId what hres] at h
    exact Or.inl h
  | ok info =>
    by_cases hthr : suspicionScore info processId ≥ e.config_.threat_threshold
    · obtain ⟨-, -, -, -, h5⟩ := scanProcess_of_threat e env processId info hres hthr
      unfold getDetectedThreats at h5
      rw [h5] at h
      rcases mem_registerThreat e _ t h with h1 | h1
      · exact Or.inl h1
      · right
        rw [h1]
        have hle := suspicionScore_le_half info processId
        have hno : ¬ suspicionScore info processId > 0.9 := by
          intro hgt
          norm_num at hgt hle
          linarith
        simp only [hno, if_false]
    · obtain ⟨-, -, -, -, h5⟩ := scanProcess_of_clean e env processId info hres hthr
      unfold getDetectedThreats at h5
      rw [h5] at h
      exact Or.inl h

/-- Every record in the registry of a reachable engine has level HIGH. -/
theorem levels_of_reachable {e : DetectionEngine} (hr : e.Reachable) :
    ∀ t ∈ e.detected_threats_, t.level = ThreatLevel.HIGH := by
  induction hr with
  | created config now =>
    intro t ht
    exact absurd ht (List.not_mem_nil t)
  | started e e' r _ hs ih =>
    rw [(start_frame e e' r hs).2.1]
    exact ih
  | stopped e _ ih =>
    rw [(stop_frame e).2.1]
    exact ih
  | scanned e env processId _ ih =>
    intro t ht
    rcases mem_scanProcess e env processId t ht with h | h
    · exact ih t h
    · exact h

theorem isProcessNameSuspicious_iff (name : String) :
    isProcessNameSuspicious name = true
      ↔ ∃ fragment ∈ suspicious_names, fragment.toList <:+: toLower name := by
  simp only [isProcessNameSuspicious, contains, List.any_eq_true, decide_eq_true_eq]

theorem isLocationSuspicious_iff (path : String) :
    isLocationSuspicious path = true
      ↔ ∃ fragment ∈ suspicious_paths, fragment.toList <:+: toLower path := by
  simp only [isLocationSuspicious, contains, List.any_eq_true, decide_eq_true_eq]

end DetectionEngine


/-- C32: on every reachable engine whose `threat_threshold` exceeds 0.5, as the
default 0.8 does, no scan reports a threat, whatever name and path the process
table gives: `isThreat` is false, and the threat registry is empty and
`threats_detected` is 0 both before and after the scan. -/
theorem C32_no_threat_above_half_threshold (e : DetectionEngine) (env : ScanEnv)
    (processId : Nat) (hr : e.Reachable) (hthr : 0.5 < e.config_.threat_threshold) :
    Config.default.threat_threshold = 0.8 ∧
    (DetectionEngine.scanProcess e env processId).1.isThreat = false ∧
    DetectionEngine.getDetectedThreats e = [] ∧
    (DetectionEngine.getStatistics e).threats_detected = 0 ∧
    DetectionEngine.getDetectedThreats (DetectionEngine.scanProcess e env processId).2 = [] ∧
    (DetectionEngine.getStatistics
      (DetectionEngine.scanProcess e env processId).2).threats_detected = 0 := by
  obtain ⟨h1, h2, h3⟩ := DetectionEngine.scanProcess_of_high_threshold e env processId hthr
  obtain ⟨h4, h5⟩ := DetectionEngine.no_threat_of_reachable hr hthr
  refine ⟨rfl, h1, h4, h5, ?_, ?_⟩
  · unfold DetectionEngine.getDetectedThreats
    rw [h2, h4]
  · unfold DetectionEngine.getStatistics
    rw [h3, h5]

/-- Witness of C32: the key logger run from a temp folder, scanned by a new
engine with the default configuration. -/
theorem C32_no_threat_above_half_threshold_witness :
    ((DetectionEngine.new Config.default 0).Reachable ∧
      0.5 < (DetectionEngine.new Config.default 0).config_.threat_threshold) ∧
    (DetectionEngine.scanProcess (DetectionEngine.new Config.default 0)
      DetectionEngine.exampleEnv 7).1.isThreat = false ∧
    DetectionEngine.getDetectedThreats
      (DetectionEngine.scanProcess (DetectionEngine.new Config.default 0)
        DetectionEngine.exampleEnv 7).2 = [] :=
  ⟨⟨DetectionEngine.Reachable.created _ _,
      by norm_num [DetectionEngine.new, Config.default]⟩,
    (C32_no_threat_above_half_threshold (DetectionEngine.new Config.default 0)
      DetectionEngine.exampleEnv 7 (DetectionEngine.Reachable.created _ _)
      (by norm_num [DetectionEngine.new, Config.default])).2.1,
    (C32_no_threat_above_half_threshold (DetectionEngine.new Config.default 0)
      DetectionEngine.exampleEnv 7 (DetectionEngine.Reachable.created _ _)
      (by norm_num [DetectionEngine.new, Config.default])).2.2.2.2.1⟩

/-- C33: the name test holds exactly when the lower-cased name contains one of the
twelve name fragments, the location test exactly when the lower-cased path
contains one of the six location fragments, and the hook and network checks are
always false; for every scan whose lookup raises nothing the confidence is 0.3
if the name test holds plus 0.2 if the location test holds; the confidence of
every scan is 0, 0.2, 0.3 or 0.5; and every record in the registry that a scan
leaves on a reachable engine has level HIGH. -/
theorem C33_scan_confidence_values (e : DetectionEngine) (env : ScanEnv) (processId : Nat)
    (hr : e.Reachable) :
    (∀ name, DetectionEngine.isProcessNameSuspicious name = true
      ↔ ∃ fragment ∈ DetectionEngine.suspicious_names,
          fragment.toList <:+: DetectionEngine.toLower name) ∧
    DetectionEngine.suspicious_names.length = 12 ∧
    (∀ path, DetectionEngine.isLocationSuspicious path = true
      ↔ ∃ fragment ∈ DetectionEngine.suspicious_paths,
          fragment.toList <:+: DetectionEngine.toLower path) ∧
    DetectionEngine.suspicious_paths.length = 6 ∧
    DetectionEngine.hasKeyboardHooks processId = false ∧
    DetectionEngine.hasSuspiciousNetworkActivity processId = false ∧
    (∀ info, DetectionEngine.getProcessInfo env processId = Except.ok info →
      (DetectionEngine.scanProcess e env processId).1.confidence
        = (if DetectionEngine.isProcessNameSuspicious info.name then 0.3 else 0)
          + (if DetectionEngine.isLocationSuspicious info.path then 0.2 else 0)) ∧
    ((DetectionEngine.scanProcess e env processId).1.confidence = 0 ∨
      (DetectionEngine.scanProcess e env processId).1.confidence = 0.2 ∨
      (DetectionEngine.scanProcess e env processId).1.confidence = 0.3 ∨
      (DetectionEngine.scanProcess e env processId).1.confidence = 0.5) ∧
    (∀ threat ∈ DetectionEngine.getDetectedThreats
        (DetectionEngine.scanProcess e env processId).2,
      threat.level = ThreatLevel.HIGH) := by
  have hconf : ∀ info, DetectionEngine.getProcessInfo env processId = Except.ok info →
      (DetectionEngine.scanProcess e env processId).1.confidence
        = DetectionEngine.suspicionScore info processId := by
    intro info hok
    by_cases hthr : DetectionEngine.suspicionScore info processId ≥ e.config_.threat_threshold
    · exact (DetectionEngine.scanProcess_of_threat e env processId info hok hthr).2.2.1
    · exact (DetectionEngine.scanProcess_of_clean e env processId info hok hthr).2.2.1
  refine ⟨DetectionEngine.isProcessNameSuspicious_iff, rfl,
    DetectionEngine.isLocationSuspicious_iff, rfl, rfl, rfl, ?_, ?_, ?_⟩
  · intro info hok
    rw [hconf info hok, DetectionEngine.suspicionScore_eq]
  · cases hres : DetectionEngine.getProcessInfo env processId with
    | error what =>
      rw [DetectionEngine.scanProcess_of_error e env processId what hres]
      exact Or.inl rfl
    | ok info =>
      rw [hconf info hres]
      exact DetectionEngine.suspicionScore_values info processId
  · exact DetectionEngine.levels_of_reachable
      (DetectionEngine.Reachable.scanned e env processId hr)

/-- Witness of C33: the key logger run from a temp folder, scanned by a new
engine with threshold 0.5, which registers it. -/
theorem C33_scan_confidence_values_witness :
    DetectionEngine.exampleEngine.Reachable ∧
    ((DetectionEngine.scanProcess DetectionEngine.exampleEngine DetectionEngine.exampleEnv
        7).1.confidence = 0 ∨
      (DetectionEngine.scanProcess DetectionEngine.exampleEngine DetectionEngine.exampleEnv
        7).1.confidence = 0.2 ∨
      (DetectionEngine.scanProcess DetectionEngine.exampleEngine DetectionEngine.exampleEnv
        7).1.confidence = 0.3 ∨
      (DetectionEngine.scanProcess DetectionEngine.exampleEngine DetectionEngine.exampleEnv
        7).1.confidence = 0.5) ∧
    (∀ threat ∈ DetectionEngine.getDetectedThreats
        (DetectionEngine.scanProcess DetectionEngine.exampleEngine DetectionEngine.exampleEnv
          7).2,
      threat.level = ThreatLevel.HIGH) :=
  ⟨DetectionEngine.Reachable.created _ _,
    (C33_scan_confidence_values DetectionEngine.exampleEngine DetectionEngine.exampleEnv 7
      (DetectionEngine.Reachable.created _ _)).2.2.2.2.2.2.2⟩

/-! ## Scorer: lower bound of the confidence, extracted vectors, monotonicity -/

/-- A threshold test with a non-negative weight is monotone in the tested value. -/
theorem step_mono {a b c w : FloatVal} (hab : a ≤ b) (hw : 0 ≤ w) :
    (if a > c then w else 0) ≤ (if b > c then w else 0) := by
  by_cases ha : a > c
  · have hb : b > c := lt_of_lt_of_le ha hab
    rw [if_pos ha, if_pos hb]
  · rw [if_neg ha]
    split_ifs
    · exact hw
    · exact le_refl _

/-- A test of two thresholds with a non-negative weight is monotone in both
tested values. -/
theorem step_or_mono {a1 b1 a2 b2 c1 c2 w : FloatVal} (h1 : a1 ≤ b1) (h2 : a2 ≤ b2)
    (hw : 0 ≤ w) :
    (if a1 > c1 ∨ a2 > c2 then w else 0) ≤ (if b1 > c1 ∨ b2 > c2 then w else 0) := by
  by_cases ha : a1 > c1 ∨ a2 > c2
  · have hb : b1 > c1 ∨ b2 > c2 := by
      rcases ha with h | h
      · exact Or.inl (lt_of_lt_of_le h h1)
      · exact Or.inr (lt_of_lt_of_le h h2)
    rw [if_pos ha, if_pos hb]
  · rw [if_neg ha]
    split_ifs
    · exact hw
    · exact le_refl _

/-- The total of ten entries is monotone in each of them. -/
theorem total_mono_ten (a0 a1 a2 a3 a4 a5 a6 a7 a8 a9 b0 b1 b2 b3 b4 b5 b6 b7 b8 b9 : FloatVal)
    (h0 : a0 ≤ b0) (h1 : a1 ≤ b1) (h2 : a2 ≤ b2) (h3 : a3 ≤ b3) (h4 : a4 ≤ b4) (h5 : a5 ≤ b5)
    (h6 : a6 ≤ b6) (h7 : a7 ≤ b7) (h8 : a8 ≤ b8) (h9 : a9 ≤ b9) :
    (min 1 ((if a1 > 10 ∨ a2 > 50 then 0.3 else 0) + a0 * 0.7)) * 0.4
      + (min 1 ((if a4 > 0 then 0.8 else 0) + (if a3 > 3 then 0.4 else 0)
                + (if a5 > 0 then 0.6 else 0))) * 0.5
      + (min 1 ((if a6 > 100 then 0.2 else 0) + (if a7 > 10 then 0.3 else 0)
                + (if a8 > 50 then 0.2 else 0) + (if a9 > 0 then 0.5 else 0))) * 0.1
    ≤ (min 1 ((if b1 > 10 ∨ b2 > 50 then 0.3 else 0) + b0 * 0.7)) * 0.4
      + (min 1 ((if b4 > 0 then 0.8 else 0) + (if b3 > 3 then 0.4 else 0)
                + (if b5 > 0 then 0.6 else 0))) * 0.5
      + (min 1 ((if b6 > 100 then 0.2 else 0) + (if b7 > 10 then 0.3 else 0)
                + (if b8 > 50 then 0.2 else 0) + (if b9 > 0 then 0.5 else 0))) * 0.1 := by
  have w3 : (0 : FloatVal) ≤ 0.3 := by norm_num
  have w8 : (0 : FloatVal) ≤ 0.8 := by norm_num
  have w4 : (0 : FloatVal) ≤ 0.4 := by norm_num
  have w6 : (0 : FloatVal) ≤ 0.6 := by norm_num
  have w2 : (0 : FloatVal) ≤ 0.2 := by norm_num
  have w5 : (0 : FloatVal) ≤ 0.5 := by norm_num
  have w7 : (0 : FloatVal) ≤ 0.7 := by norm_num
  have w1 : (0 : FloatVal) ≤ 0.1 := by norm_num
  have hp := min_le_min (le_refl (1 : FloatVal))
    (add_le_add (@step_or_mono a1 b1 a2 b2 10 50 0.3 h1 h2 w3)
      (mul_le_mul_of_nonneg_right h0 w7))
  have hh := min_le_min (le_refl (1 : FloatVal))
    (add_le_add (add_le_add (step_mono (c := 0) h4 w8) (step_mono (c := 3) h3 w4))
      (step_mono (c := 0) h5 w6))
  have ha := min_le_min (le_refl (1 : FloatVal))
    (add_le_add (add_le_add (add_le_add (step_mono (c := 100) h6 w2) (step_mono (c := 10) h7 w3))
      (step_mono (c := 50) h8 w2)) (step_mono (c := 0) h9 w5))
  exact add_le_add (add_le_add (mul_le_mul_of_nonneg_right hp w4)
    (mul_le_mul_of_nonneg_right hh w5)) (mul_le_mul_of_nonneg_right ha w1)

/-- The class selected from a total is monotone in the total. -/
theorem class_mono {s t : FloatVal} (h : s ≤ t) :
    ∃ i j,
      classSeverity
        (if s ≥ 0.9 then ThreatType.KEYLOGGER else if s ≥ 0.7 then ThreatType.SPYWARE
         else if s ≥ 0.5 then ThreatType.SUSPICIOUS_BEHAVIOR else ThreatType.UNKNOWN) = some i ∧
      classSeverity
        (if t ≥ 0.9 then ThreatType.KEYLOGGER else if t ≥ 0.7 then ThreatType.SPYWARE
         else if t ≥ 0.5 then ThreatType.SUSPICIOUS_BEHAVIOR else ThreatType.UNKNOWN) = some j ∧
      i ≤ j := by
  split_ifs <;>
    first
    | exact ⟨_, _, rfl, rfl, by decide⟩
    | (exfalso; norm_num at *; linarith)


/-- C36: for every two feature vectors `f` and `g` with at least 10 entries such
that `f[i] ≤ g[i]` for each of the ten scored indices, the total of `f` is at
most the total of `g`, and on a loaded engine the class predicted for `g` is at
least as severe as the class predicted for `f` in the order
benign < SUSPICIOUS_BEHAVIOR < SPYWARE < KEYLOGGER. -/
theorem C36_total_is_monotone (m : MLEngine) (f g : FeatureVector)
    (elapsed_f elapsed_g : FloatVal) (hm : m.model_loaded_ = true) (hf : 10 ≤ f.length)
    (hg : 10 ≤ g.length) (hle : ∀ i, i < 10 → f.getD i 0 ≤ g.getD i 0) :
    ∃ total_f total_g result_f result_g m_f m_g severity_f severity_g,
      totalScore f = some total_f ∧ totalScore g = some total_g ∧ total_f ≤ total_g ∧
      m.predict f elapsed_f = some (result_f, m_f) ∧
      m.predict g elapsed_g = some (result_g, m_g) ∧
      classSeverity result_f.predicted_class = some severity_f ∧
      classSeverity result_g.predicted_class = some severity_g ∧
      severity_f ≤ severity_g := by
  obtain ⟨a0, a1, a2, a3, a4, a5, a6, a7, a8, a9, resta, rfl⟩ := exists_ten_of_length f hf
  obtain ⟨b0, b1, b2, b3, b4, b5, b6, b7, b8, b9, restb, rfl⟩ := exists_ten_of_length g hg
  have h0 : a0 ≤ b0 := hle 0 (by decide)
  have h1 : a1 ≤ b1 := hle 1 (by decide)
  have h2 : a2 ≤ b2 := hle 2 (by decide)
  have h3 : a3 ≤ b3 := hle 3 (by decide)
  have h4 : a4 ≤ b4 := hle 4 (by decide)
  have h5 : a5 ≤ b5 := hle 5 (by decide)
  have h6 : a6 ≤ b6 := hle 6 (by decide)
  have h7 : a7 ≤ b7 := hle 7 (by decide)
  have h8 : a8 ≤ b8 := hle 8 (by decide)
  have h9 : a9 ≤ b9 := hle 9 (by decide)
  have hmono := total_mono_ten a0 a1 a2 a3 a4 a5 a6 a7 a8 a9 b0 b1 b2 b3 b4 b5 b6 b7 b8 b9
    h0 h1 h2 h3 h4 h5 h6 h7 h8 h9
  have hta := totalScore_ten a0 a1 a2 a3 a4 a5 a6 a7 a8 a9 resta
  have htb := totalScore_ten b0 b1 b2 b3 b4 b5 b6 b7 b8 b9 restb
  obtain ⟨ra, hpa, hca, -⟩ := predict_of_total (m := m) elapsed_f hm hta
  obtain ⟨rb, hpb, hcb, -⟩ := predict_of_total (m := m) elapsed_g hm htb
  obtain ⟨i, j, hi, hj, hij⟩ := class_mono hmono
  rw [← hca] at hi
  rw [← hcb] at hj
  exact ⟨_, _, ra, rb, _, _, i, j, hta, htb, hmono, hpa, hpb, hi, hj, hij⟩

/-- Witness of C36: the zero vector and the vector with five hooks, a keyboard
hook and a hidden window. -/
theorem C36_total_is_monotone_witness :
    (( MLEngine.initialize MLEngine.new 0).2.model_loaded_ = true ∧
      10 ≤ ([0, 0, 0, 0, 0, 0, 0, 0, 0, 0] : FeatureVector).length ∧
      10 ≤ ([0, 0, 0, 5, 1, 1, 0, 0, 0, 0] : FeatureVector).length ∧
      ∀ i, i < 10 → ([0, 0, 0, 0, 0, 0, 0, 0, 0, 0] : FeatureVector).getD i 0
        ≤ ([0, 0, 0, 5, 1, 1, 0, 0, 0, 0] : FeatureVector).getD i 0) ∧
    ∃ total_f total_g result_f result_g m_f m_g severity_f severity_g,
      totalScore [0, 0, 0, 0, 0, 0, 0, 0, 0, 0] = some total_f ∧
      totalScore [0, 0, 0, 5, 1, 1, 0, 0, 0, 0] = some total_g ∧ total_f ≤ total_g ∧
      ( MLEngine.initialize MLEngine.new 0).2.predict [0, 0, 0, 0, 0, 0, 0, 0, 0, 0] 1
        = some (result_f, m_f) ∧
      ( MLEngine.initialize MLEngine.new 0).2.predict [0, 0, 0, 5, 1, 1, 0, 0, 0, 0] 2
        = some (result_g, m_g) ∧
      classSeverity result_f.predicted_class = some severity_f ∧
      classSeverity result_g.predicted_class = some severity_g ∧
      severity_f ≤ severity_g :=
  ⟨⟨rfl, by decide, by decide, by decide⟩,
    C36_total_is_monotone _ [0, 0, 0, 0, 0, 0, 0, 0, 0, 0] [0, 0, 0, 5, 1, 1, 0, 0, 0, 0] 1 2
      rfl (by decide) (by decide) (by decide)⟩

/-! ## Detection engine: counters and registry along a run of scans -/

namespace DetectionEngine

/-- A registration on a registry that holds `min n 1000` records leaves
`min (n + 1) 1000` records. -/
theorem registerThreat_length (e : DetectionEngine) (threat : ThreatInfo) (n : Nat)
    (h : e.detected_threats_.length = min n 1000) :
    (registerThreat e threat).detected_threats_.length = min (n + 1) 1000 := by
  have hle : e.detected_threats_.length ≤ 1000 := by
    rw [h]
    exact min_le_right _ _
  rw [registerThreat_threats e threat hle, List.length_drop]
  simp only [List.length_append, List.length_singleton]
  omega

/-- One scan below the wrap keeps `threats_detected ≤ events_processed` and the
registry size `min threats_detected 1000`. -/
theorem scanProcess_invariant (e : DetectionEngine) (env : ScanEnv) (processId : Nat)
    (hev : e.statistics_.events_processed + 1 < SIZE_MOD)
    (hle : e.statistics_.threats_detected ≤ e.statistics_.events_processed)
    (hreg : e.detected_threats_.length = min e.statistics_.threats_detected 1000) :
    (scanProcess e env processId).2.statistics_.threats_detected
      ≤ (scanProcess e env processId).2.statistics_.events_processed ∧
    (scanProcess e env processId).2.detected_threats_.length
      = min (scanProcess e env processId).2.statistics_.threats_detected 1000 ∧
    (scanProcess e env processId).2.statistics_.events_processed
      ≤ e.statistics_.events_processed + 1 := by
  have m1 : (e.statistics_.events_processed + 1) % SIZE_MOD
      = e.statistics_.events_processed + 1 := Nat.mod_eq_of_lt hev
  have m2 : (e.statistics_.threats_detected + 1) % SIZE_MOD
      = e.statistics_.threats_detected + 1 := Nat.mod_eq_of_lt (by omega)
  cases hres : getProcessInfo env processId with
  | error what =>
    rw [scanProcess_of_error e env processId what hres]
    exact ⟨hle, hreg, Nat.le_succ _⟩
  | ok info =>
    by_cases hthr : suspicionScore info processId ≥ e.config_.threat_threshold
    · obtain ⟨-, -, -, -, h5⟩ := scanProcess_of_threat e env processId info hres hthr
      unfold getDetectedThreats at h5
      have hs := scanProcess_statistics_of_threat e env processId info hres hthr
      have hst : (scanProcess e env processId).2.statistics_.threats_detected
          = e.statistics_.threats_detected + 1 := by
        rw [hs]
        exact m2
      have hse : (scanProcess e env processId).2.statistics_.events_processed
          = e.statistics_.events_processed + 1 := by
        rw [hs]
        exact m1
      rw [hst, hse, h5, registerThreat_length e _ _ hreg]
      exact ⟨by omega, rfl, le_refl _⟩
    · obtain ⟨-, -, -, -, h5⟩ := scanProcess_of_clean e env processId info hres hthr
      unfold getDetectedThreats at h5
      have hs := scanProcess_statistics_of_clean e env processId info hres hthr
      have hst : (scanProcess e env processId).2.statistics_.threats_detected
          = e.statistics_.threats_detected := by rw [hs]
      have hse : (scanProcess e env processId).2.statistics_.events_processed
          = e.statistics_.events_processed + 1 := by
        rw [hs]
        exact m1
      rw [hst, hse, h5]
      exact ⟨by omega, hreg, le_refl _⟩

/-- A run of scans too short to make `events_processed` wrap keeps
`threats_detected ≤ events_processed` and the registry size
`min threats_detected 1000`. -/
theorem foldl_scanProcess_invariant (scans : List (ScanEnv × Nat)) (e : DetectionEngine)
    (hev : e.statistics_.events_processed + scans.length < SIZE_MOD)
    (hle : e.statistics_.threats_detected ≤ e.statistics_.events_processed)
    (hreg : e.detected_threats_.length = min e.statistics_.threats_detected 1000) :
    (scans.foldl (fun acc s => (scanProcess acc s.1 s.2).2) e).statistics_.threats_detected
      ≤ (scans.foldl (fun acc s => (scanProcess acc s.1 s.2).2) e).statistics_.events_processed ∧
    (scans.foldl (fun acc s => (scanProcess acc s.1 s.2).2) e).detected_threats_.length
      = min (scans.foldl (fun acc s => (scanProcess acc s.1 s.2).2)
          e).statistics_.threats_detected 1000 := by
  induction scans generalizing e with
  | nil => exact ⟨hle, hreg⟩
  | cons s rest ih =>
    rw [List.length_cons] at hev
    obtain ⟨h1, h2, h3⟩ := scanProcess_invariant e s.1 s.2 (by omega) hle hreg
    rw [List.foldl_cons]
    exact ih (scanProcess e s.1 s.2).2 (by omega) h1 h2

/-- A run of scans leaves an engine that is reachable. -/
theorem foldl_scanProcess_reachable (scans : List (ScanEnv × Nat)) (e : DetectionEngine)
    (hr : e.Reachable) :
    (scans.foldl (fun acc s => (scanProcess acc s.1 s.2).2) e).Reachable := by
  induction scans generalizing e with
  | nil => exact hr
  | cons s rest ih =>
    rw [List.foldl_cons]
    exact ih _ (Reachable.scanned e s.1 s.2 hr)

/-- The counters and the registry size after `n` scans of a process that reaches
the threshold. -/
theorem foldl_replicate_threat (n : Nat) (e : DetectionEngine) (env : ScanEnv) (processId : Nat)
    (info : ProcessInfo) (hok : getProcessInfo env processId = Except.ok info)
    (hthr : suspicionScore info processId ≥ e.config_.threat_threshold)
    (hev : e.statistics_.events_processed < SIZE_MOD)
    (hth : e.statistics_.threats_detected < SIZE_MOD)
    (hlen : e.detected_threats_.length ≤ 1000) :
    ((List.replicate n (env, processId)).foldl (fun acc s => (scanProcess acc s.1 s.2).2)
        e).statistics_.events_processed = (e.statistics_.events_processed + n) % SIZE_MOD ∧
    ((List.replicate n (env, processId)).foldl (fun acc s => (scanProcess acc s.1 s.2).2)
        e).statistics_.threats_detected = (e.statistics_.threats_detected + n) % SIZE_MOD ∧
    ((List.replicate n (env, processId)).foldl (fun acc s => (scanProcess acc s.1 s.2).2)
        e).detected_threats_.length = min (e.detected_threats_.length + n) 1000 := by
  induction n generalizing e with
  | zero =>
    exact ⟨(Nat.mod_eq_of_lt hev).symm, (Nat.mod_eq_of_lt hth).symm,
      (Nat.min_eq_left hlen).symm⟩
  | succ n ih =>
    have hpos : 0 < SIZE_MOD := by decide
    obtain ⟨-, -, -, -, h5⟩ := scanProcess_of_threat e env processId info hok hthr
    unfold getDetectedThreats at h5
    have hs := scanProcess_statistics_of_threat e env processId info hok hthr
    have hst : (scanProcess e env processId).2.statistics_.threats_detected
        = (e.statistics_.threats_detected + 1) % SIZE_MOD := by rw [hs]
    have hse : (scanProcess e env processId).2.statistics_.events_processed
        = (e.statistics_.events_processed + 1) % SIZE_MOD := by rw [hs]
    have hcfg := (scanProcess_frame e env processId).2.2.2.2
    have hl : (scanProcess e env processId).2.detected_threats_.length
        = min (e.detected_threats_.length + 1) 1000 := by
      rw [h5, registerThreat_threats e _ hlen, List.length_drop]
      simp only [List.length_append, List.length_singleton]
      omega
    obtain ⟨i1, i2, i3⟩ := ih (scanProcess e env processId).2 (by rw [hcfg]; exact hthr)
      (by rw [hse]; exact Nat.mod_lt _ hpos) (by rw [hst]; exact Nat.mod_lt _ hpos)
      (by rw [hl]; exact min_le_right _ _)
    rw [List.replicate_succ, List.foldl_cons]
    refine ⟨?_, ?_, ?_⟩
    · rw [i1, hse, Nat.mod_add_mod]
      congr 1
      omega
    · rw [i2, hst, Nat.mod_add_mod]
      congr 1
      omega
    · rw [i3, hl]
      omega

/-- The key logger run from a temp folder scores one half. -/
theorem exampleEnv_score :
    suspicionScore
      { processId := 7, name := "KeyLogger.exe", path := "C:\\Temp\\kl.exe", parentId := 0 } 7
      = 0.5 := by
  have h1 : isProcessNameSuspicious "KeyLogger.exe" = true := by decide
  have h2 : isLocationSuspicious "C:\\Temp\\kl.exe" = true := by decide
  rw [suspicionScore_eq]
  simp only [h1, h2, if_true]
  norm_num

/-- The ordinary process scores zero. -/
theorem benignEnv_score :
    suspicionScore
      { processId := 4, name := "notepad.exe", path := "C:\\Windows\\notepad.exe",
        parentId := 0 } 4
      = 0 := by
  have h1 : isProcessNameSuspicious "notepad.exe" = false := by decide
  have h2 : isLocationSuspicious "C:\\Windows\\notepad.exe" = false := by decide
  rw [suspicionScore_eq]
  simp only [h1, h2, Bool.false_eq_true, if_false]
  norm_num

end DetectionEngine


/-- C37 fails as stated: on a newly constructed engine with threshold 0.5, one
scan of an ordinary process followed by `2^64 - 1` scans of a key logger leaves
`events_processed` at 0 and `threats_detected` at `2^64 - 1`; and `2^64` scans of
the key logger leave `threats_detected` at 0 with 1000 records in the registry. -/
theorem C37_counters_wrap_counterexample :
    DetectionEngine.exampleEngine
      = DetectionEngine.new { Config.default with threat_threshold := 0.5 } 0 ∧
    (List.foldl (fun acc s => (DetectionEngine.scanProcess acc s.1 s.2).2)
      DetectionEngine.exampleEngine
      ((DetectionEngine.benignEnv, 4)
        :: List.replicate 18446744073709551615 (DetectionEngine.exampleEnv, 7))
      ).statistics_.events_processed = 0 ∧
    (List.foldl (fun acc s => (DetectionEngine.scanProcess acc s.1 s.2).2)
      DetectionEngine.exampleEngine
      ((DetectionEngine.benignEnv, 4)
        :: List.replicate 18446744073709551615 (DetectionEngine.exampleEnv, 7))
      ).statistics_.threats_detected = 18446744073709551615 ∧
    (List.foldl (fun acc s => (DetectionEngine.scanProcess acc s.1 s.2).2)
      DetectionEngine.exampleEngine
      (List.replicate 18446744073709551616 (DetectionEngine.exampleEnv, 7))
      ).statistics_.threats_detected = 0 ∧
    (List.foldl (fun acc s => (DetectionEngine.scanProcess acc s.1 s.2).2)
      DetectionEngine.exampleEngine
      (List.replicate 18446744073709551616 (DetectionEngine.exampleEnv, 7))
      ).detected_threats_.length = 1000 := by
  have hthr : DetectionEngine.suspicionScore
      { processId := 7, name := "KeyLogger.exe", path := "C:\\Temp\\kl.exe", parentId := 0 } 7
      ≥ DetectionEngine.exampleEngine.config_.threat_threshold := by
    rw [DetectionEngine.exampleEnv_score]
    exact le_refl _
  have hclean : ¬ DetectionEngine.suspicionScore
      { processId := 4, name := "notepad.exe", path := "C:\\Windows\\notepad.exe",
        parentId := 0 } 4
      ≥ DetectionEngine.exampleEngine.config_.threat_threshold := by
    rw [DetectionEngine.benignEnv_score]
    show ¬ (0 : FloatVal) ≥ 0.5
    norm_num
  have hs := DetectionEngine.scanProcess_statistics_of_clean DetectionEngine.exampleEngine
    DetectionEngine.benignEnv 4
    { processId := 4, name := "notepad.exe", path := "C:\\Windows\\notepad.exe", parentId := 0 }
    rfl hclean
  have hse : (DetectionEngine.scanProcess DetectionEngine.exampleEngine
      DetectionEngine.benignEnv 4).2.statistics_.events_processed = 1 := by
    rw [hs]
    decide
  have hst : (DetectionEngine.scanProcess DetectionEngine.exampleEngine
      DetectionEngine.benignEnv 4).2.statistics_.threats_detected = 0 := by
    rw [hs]
    rfl
  have hd : (DetectionEngine.scanProcess DetectionEngine.exampleEngine
      DetectionEngine.benignEnv 4).2.detected_threats_ = [] :=
    (DetectionEngine.scanProcess_of_clean DetectionEngine.exampleEngine
      DetectionEngine.benignEnv 4
      { processId := 4, name := "notepad.exe", path := "C:\\Windows\\notepad.exe",
        parentId := 0 } rfl hclean).2.2.2.2
  have hcfg := (DetectionEngine.scanProcess_frame DetectionEngine.exampleEngine
    DetectionEngine.benignEnv 4).2.2.2.2
  obtain ⟨a1, a2, -⟩ := DetectionEngine.foldl_replicate_threat 18446744073709551615
    (DetectionEngine.scanProcess DetectionEngine.exampleEngine DetectionEngine.benignEnv 4).2
    DetectionEngine.exampleEnv 7
    { processId := 7, name := "KeyLogger.exe", path := "C:\\Temp\\kl.exe", parentId := 0 }
    rfl (by rw [hcfg]; exact hthr) (by rw [hse]; decide) (by rw [hst]; decide)
    (by rw [hd]; decide)
  obtain ⟨-, b2, b3⟩ := DetectionEngine.foldl_replicate_threat 18446744073709551616
    DetectionEngine.exampleEngine DetectionEngine.exampleEnv 7
    { processId := 7, name := "KeyLogger.exe", path := "C:\\Temp\\kl.exe", parentId := 0 }
    rfl hthr (by decide) (by decide) (by decide)
  rw [hse] at a1
  rw [hst] at a2
  refine ⟨rfl, ?_, ?_, ?_, ?_⟩
  · rw [List.foldl_cons, a1]
    decide
  · rw [List.foldl_cons, a2]
    decide
  · rw [b2]
    decide
  · rw [b3]
    decide

/-- C37, amended: in every state that a sequence of fewer than `2^64` scans,
successful or failing, produces from a newly constructed engine,
`threats_detected ≤ events_processed` and the number of records in the threat
registry is `min threats_detected 1000`. -/
theorem C37_counters_and_registry_agree (config : Config) (now : Nat)
    (scans : List (ScanEnv × Nat)) (hlen : scans.length < SIZE_MOD) :
    (DetectionEngine.getStatistics
      (scans.foldl (fun acc s => (DetectionEngine.scanProcess acc s.1 s.2).2)
        (DetectionEngine.new config now))).threats_detected
      ≤ (DetectionEngine.getStatistics
          (scans.foldl (fun acc s => (DetectionEngine.scanProcess acc s.1 s.2).2)
            (DetectionEngine.new config now))).events_processed ∧
    (DetectionEngine.getDetectedThreats
      (scans.foldl (fun acc s => (DetectionEngine.scanProcess acc s.1 s.2).2)
        (DetectionEngine.new config now))).length
      = min (DetectionEngine.getStatistics
          (scans.foldl (fun acc s => (DetectionEngine.scanProcess acc s.1 s.2).2)
            (DetectionEngine.new config now))).threats_detected 1000 ∧
    (scans.foldl (fun acc s => (DetectionEngine.scanProcess acc s.1 s.2).2)
      (DetectionEngine.new config now)).Reachable := by
  obtain ⟨h1, h2⟩ := DetectionEngine.foldl_scanProcess_invariant scans
    (DetectionEngine.new config now)
    (by
      show 0 + scans.length < SIZE_MOD
      omega)
    (le_refl _) rfl
  exact ⟨h1, h2, DetectionEngine.foldl_scanProcess_reachable scans _
    (DetectionEngine.Reachable.created config now)⟩

/-- Witness of the amended C37: a key logger scan, a failing scan and an ordinary
scan on a new engine with threshold 0.5. -/
theorem C37_counters_and_registry_agree_witness :
    [(DetectionEngine.exampleEnv, 7), (DetectionEngine.failingEnv, 9),
      (DetectionEngine.benignEnv, 4)].length < SIZE_MOD ∧
    (DetectionEngine.getStatistics
      ([(DetectionEngine.exampleEnv, 7), (DetectionEngine.failingEnv, 9),
        (DetectionEngine.benignEnv, 4)].foldl
        (fun acc s => (DetectionEngine.scanProcess acc s.1 s.2).2)
        (DetectionEngine.new { Config.default with threat_threshold := 0.5 } 0))
      ).threats_detected
      ≤ (DetectionEngine.getStatistics
          ([(DetectionEngine.exampleEnv, 7), (DetectionEngine.failingEnv, 9),
            (DetectionEngine.benignEnv, 4)].foldl
            (fun acc s => (DetectionEngine.scanProcess acc s.1 s.2).2)
            (DetectionEngine.new { Config.default with threat_threshold := 0.5 } 0))
          ).events_processed :=
  ⟨by decide,
    (C37_counters_and_registry_agree { Config.default with threat_threshold := 0.5 } 0
      [(DetectionEngine.exampleEnv, 7), (DetectionEngine.failingEnv, 9),
        (DetectionEngine.benignEnv, 4)] (by decide)).1⟩

/-! ## Scorer: element reads -/

/-- A read inside a vector gives an element. -/
theorem vecRead_some {α : Type} (v : List α) (i : Nat) (h : i < v.length) :
    ∃ x, vecRead v i = some x :=
  ⟨v[i], List.getElem?_eq_getElem h⟩

/-- C39: for every feature vector with at least 10 entries, none of the three
length guards of the group helpers (called with offsets 0, 3 and 6) is taken, the
helpers read the entries 0 to 2, 3 to 5 and 6 to 9, every one of these reads is
inside the vector, and the three scores and the total are computed; for every
vector with fewer than 10 entries no helper is called, no entry is read and the
total is 0. -/
theorem C39_scoring_reads_in_bounds (features : FeatureVector) :
    (10 ≤ features.length →
      ¬ (sizeAdd 0 2 ≥ features.length) ∧ ¬ (sizeAdd 3 2 ≥ features.length) ∧
      ¬ (sizeAdd 6 3 ≥ features.length) ∧
      analyzeWithHeuristicsReads features.length
        = [some [0, 1, 2], some [3, 4, 5], some [6, 7, 8, 9]] ∧
      (∀ reads ∈ analyzeWithHeuristicsReads features.length,
        ∃ indices, reads = some indices ∧
          ∀ i ∈ indices, i < features.length ∧ ∃ x, vecRead features i = some x) ∧
      ∃ processScore hookScore activityScore,
        analyzeProcessFeatures features 0 = some processScore ∧
        analyzeHookFeatures features 3 = some hookScore ∧
        analyzeActivityFeatures features 6 = some activityScore ∧
        totalScore features
          = some (processScore * 0.4 + hookScore * 0.5 + activityScore * 0.1)) ∧
    (features.length < 10 →
      analyzeWithHeuristicsReads features.length = [] ∧ totalScore features = some 0) := by
  have s02 : sizeAdd 0 2 = 2 := by decide
  have s32 : sizeAdd 3 2 = 5 := by decide
  have s63 : sizeAdd 6 3 = 9 := by decide
  constructor
  · intro hlen
    have hreads : analyzeWithHeuristicsReads features.length
        = [some [0, 1, 2], some [3, 4, 5], some [6, 7, 8, 9]] := by
      have g1 : ¬ (sizeAdd 0 2 ≥ features.length) := by rw [s02]; omega
      have g2 : ¬ (sizeAdd 3 2 ≥ features.length) := by rw [s32]; omega
      have g3 : ¬ (sizeAdd 6 3 ≥ features.length) := by rw [s63]; omega
      unfold analyzeWithHeuristicsReads analyzeProcessFeaturesReads analyzeHookFeaturesReads
        analyzeActivityFeaturesReads
      rw [if_pos hlen, if_neg g1, if_neg g2, if_neg g3]
      rfl
    refine ⟨by rw [s02]; omega, by rw [s32]; omega, by rw [s63]; omega, hreads, ?_, ?_⟩
    · intro reads hmem
      rw [hreads] at hmem
      simp only [List.mem_cons, List.mem_singleton, List.not_mem_nil, or_false] at hmem
      rcases hmem with rfl | rfl | rfl
      · refine ⟨_, rfl, fun i hi => ?_⟩
        have hi' : i < features.length := by
          simp only [List.mem_cons, List.mem_singleton, List.not_mem_nil, or_false] at hi
          omega
        exact ⟨hi', vecRead_some features i hi'⟩
      · refine ⟨_, rfl, fun i hi => ?_⟩
        have hi' : i < features.length := by
          simp only [List.mem_cons, List.mem_singleton, List.not_mem_nil, or_false] at hi
          omega
        exact ⟨hi', vecRead_some features i hi'⟩
      · refine ⟨_, rfl, fun i hi => ?_⟩
        have hi' : i < features.length := by
          simp only [List.mem_cons, List.mem_singleton, List.not_mem_nil, or_false] at hi
          omega
        exact ⟨hi', vecRead_some features i hi'⟩
    · obtain ⟨a0, a1, a2, a3, a4, a5, a6, a7, a8, a9, rest, rfl⟩ :=
        exists_ten_of_length features hlen
      exact ⟨_, _, _, analyzeProcessFeatures_ten .., analyzeHookFeatures_ten ..,
        analyzeActivityFeatures_ten .., totalScore_ten ..⟩
  · intro hlen
    refine ⟨?_, totalScore_short features hlen⟩
    unfold analyzeWithHeuristicsReads
    rw [if_neg (by omega)]


/-! ## Status and control API: configuration updates -/

namespace APIServer

/-- The config closure on POST or PUT runs `handleUpdateConfig`. -/
theorem runHandler_config_update (s : APIServer) (env : ApiEnv) (req : HTTPRequest)
    (hm : req.method = "POST" ∨ req.method = "PUT") :
    runHandler RouteHandler.config s env req = Except.ok (handleUpdateConfig s) := by
  have e1 : ("POST" == "GET") = false := by decide
  have e2 : ("PUT" == "GET") = false := by decide
  have e3 : ("POST" == "POST") = true := by decide
  have e4 : ("PUT" == "POST") = false := by decide
  have e5 : ("PUT" == "PUT") = true := by decide
  rcases hm with h | h
  · simp only [runHandler, h, e1, e3, Bool.true_or, if_true, if_false, Bool.false_eq_true]
    rfl
  · simp only [runHandler, h, e2, e4, e5, Bool.false_or, if_true, if_false, Bool.false_eq_true]
    rfl

/-- The config closure on GET runs `handleGetConfig`. -/
theorem runHandler_config_get (s : APIServer) (env : ApiEnv) (req : HTTPRequest)
    (hm : req.method = "GET") :
    runHandler RouteHandler.config s env req = Except.ok (handleGetConfig s env, s) := by
  have e1 : ("GET" == "GET") = true := by decide
  simp only [runHandler, hm, e1, if_true]
  rfl

end APIServer

/-- C40: on a server whose route table holds the config closure, every POST or
PUT on `/api/config` is answered 200 and sets `real_time_protection` to true and
`scan_interval_seconds` to 30, leaving the four other configuration fields and
the rest of the server as they were; the response and the server it leaves are
the same for any two such requests, whatever their bodies; a second update
changes nothing; and a GET on `/api/config` after the update returns the JSON
text of that configuration. -/
theorem C40_update_config_ignores_body (s : APIServer) (env : ApiEnv)
    (request other get : HTTPRequest)
    (hroute : mapFind s.route_handlers_ "/api/config" = some RouteHandler.config)
    (hpath : request.path = "/api/config")
    (hmethod : request.method = "POST" ∨ request.method = "PUT")
    (hpath_other : other.path = "/api/config")
    (hmethod_other : other.method = "POST" ∨ other.method = "PUT")
    (hpath_get : get.path = "/api/config") (hmethod_get : get.method = "GET") :
    (APIServer.handleRequest s env request).1.status_code = 200 ∧
    (APIServer.handleRequest s env request).2
      = { s with system_config_ :=
            { s.system_config_ with real_time_protection := true, scan_interval_seconds := 30 } } ∧
    (APIServer.handleRequest s env request).2.system_config_.real_time_protection = true ∧
    (APIServer.handleRequest s env request).2.system_config_.scan_interval_seconds = 30 ∧
    (APIServer.handleRequest s env request).2.system_config_.detection_threshold
      = s.system_config_.detection_threshold ∧
    (APIServer.handleRequest s env request).2.system_config_.auto_quarantine
      = s.system_config_.auto_quarantine ∧
    (APIServer.handleRequest s env request).2.system_config_.log_level
      = s.system_config_.log_level ∧
    (APIServer.handleRequest s env request).2.system_config_.notifications_enabled
      = s.system_config_.notifications_enabled ∧
    APIServer.handleRequest s env other = APIServer.handleRequest s env request ∧
    APIServer.handleRequest (APIServer.handleRequest s env request).2 env other
      = APIServer.handleRequest s env request ∧
    (APIServer.handleRequest (APIServer.handleRequest s env request).2 env get).1.body
      = APIServer.systemConfigToJSON
          { s with system_config_ :=
              { s.system_config_ with
                  real_time_protection := true, scan_interval_seconds := 30 } } env ∧
    (APIServer.handleRequest (APIServer.handleRequest s env other).2 env get).1
      = (APIServer.handleRequest (APIServer.handleRequest s env request).2 env get).1 := by
  have h1 : APIServer.handleRequest s env request = APIServer.handleUpdateConfig s :=
    APIServer.handleRequest_ok s env request RouteHandler.config _
      (by rw [hpath]; exact hroute) (APIServer.runHandler_config_update s env request hmethod)
  have h2 : APIServer.handleRequest s env other = APIServer.handleUpdateConfig s :=
    APIServer.handleRequest_ok s env other RouteHandler.config _
      (by rw [hpath_other]; exact hroute)
      (APIServer.runHandler_config_update s env other hmethod_other)
  have hroute1 : mapFind (APIServer.handleUpdateConfig s).2.route_handlers_ "/api/config"
      = some RouteHandler.config := hroute
  have h3 : APIServer.handleRequest (APIServer.handleUpdateConfig s).2 env other
      = APIServer.handleUpdateConfig (APIServer.handleUpdateConfig s).2 :=
    APIServer.handleRequest_ok _ env other RouteHandler.config _
      (by rw [hpath_other]; exact hroute1)
      (APIServer.runHandler_config_update _ env other hmethod_other)
  have h4 : APIServer.handleRequest (APIServer.handleUpdateConfig s).2 env get
      = (APIServer.handleGetConfig (APIServer.handleUpdateConfig s).2 env,
         (APIServer.handleUpdateConfig s).2) :=
    APIServer.handleRequest_ok _ env get RouteHandler.config _
      (by rw [hpath_get]; exact hroute1)
      (APIServer.runHandler_config_get _ env get hmethod_get)
  rw [h2, h1, h3, h4]
  exact ⟨rfl, rfl, rfl, rfl, rfl, rfl, rfl, rfl, rfl, rfl, rfl, rfl⟩

/-- Witness of C40: two updates with different bodies on the example server. -/
theorem C40_update_config_ignores_body_witness :
    (mapFind APIServer.exampleServer.route_handlers_ "/api/config" = some RouteHandler.config ∧
      ({ method := "POST", path := "/api/config", query_string := "", headers := [],
         body := "\x7b\"scan_interval_seconds\": 5\x7d" } : HTTPRequest).path = "/api/config" ∧
      ({ method := "PUT", path := "/api/config", query_string := "", headers := [],
         body := "" } : HTTPRequest).path = "/api/config") ∧
    APIServer.handleRequest APIServer.exampleServer APIServer.exampleEnv
        { method := "PUT", path := "/api/config", query_string := "", headers := [], body := "" }
      = APIServer.handleRequest APIServer.exampleServer APIServer.exampleEnv
          { method := "POST", path := "/api/config", query_string := "", headers := [],
            body := "\x7b\"scan_interval_seconds\": 5\x7d" } :=
  ⟨⟨by decide, rfl, rfl⟩,
    (C40_update_config_ignores_body APIServer.exampleServer APIServer.exampleEnv
      { method := "POST", path := "/api/config", query_string := "", headers := [],
        body := "\x7b\"scan_interval_seconds\": 5\x7d" }
      { method := "PUT", path := "/api/config", query_string := "", headers := [], body := "" }
      { method := "GET", path := "/api/config", query_string := "", headers := [], body := "" }
      (by decide) rfl (Or.inl rfl) rfl (Or.inr rfl) rfl rfl).2.2.2.2.2.2.2.2.1⟩

/-! ## Detection engine: start when the thread cannot be created -/

namespace DetectionEngine

theorem startWith_of_running (e : DetectionEngine) (thread : Except String Unit)
    (h : e.state_ = State.RUNNING) : e.startWith thread = some (true, e) := by
  simp [startWith, h]

/-- When the construction of the thread throws, `start()` on an engine that is
not running returns false and leaves the state ERROR. -/
theorem startWith_of_error (e : DetectionEngine) (what : String)
    (h : e.state_ ≠ State.RUNNING) :
    e.startWith (Except.error what) = some (false, { e with state_ := State.ERROR }) := by
  simp [startWith, h, initializeComponents]

/-- With every outcome of the thread construction allowed, a reachable engine is
RUNNING with its monitoring thread, or STOPPED or in ERROR with none. -/
theorem state_of_reachableWith {e : DetectionEngine} (hr : e.ReachableWith) :
    (e.state_ = State.RUNNING ∧ e.monitoring_thread_ = true) ∨
    ((e.state_ = State.STOPPED ∨ e.state_ = State.ERROR) ∧ e.monitoring_thread_ = false) := by
  induction hr with
  | created config now => exact Or.inr ⟨Or.inl rfl, rfl⟩
  | started e e' thread r _ hs ih =>
    rcases ih with ⟨h1, h2⟩ | ⟨h1, h2⟩
    · rw [startWith_of_running e thread h1] at hs
      simp only [Option.some.injEq, Prod.mk.injEq] at hs
      rw [← hs.2]
      exact Or.inl ⟨h1, h2⟩
    · have hne : e.state_ ≠ State.RUNNING := by
        rcases h1 with h | h <;> rw [h] <;> decide
      cases thread with
      | error what =>
        rw [startWith_of_error e what hne] at hs
        simp only [Option.some.injEq, Prod.mk.injEq] at hs
        rw [← hs.2]
        exact Or.inr ⟨Or.inr rfl, h2⟩
      | ok u =>
        have hs' : e.start = some (r, e') := hs
        rw [start_of_not_running e hne h2] at hs'
        simp only [Option.some.injEq, Prod.mk.injEq] at hs'
        rw [← hs'.2]
        exact Or.inl ⟨rfl, rfl⟩
  | stopped e _ ih =>
    by_cases hst : e.state_ = State.STOPPED
    · rw [stop_of_stopped e hst]
      rcases ih with ⟨h1, -⟩ | ⟨-, h2⟩
      · rw [hst] at h1
        exact absurd h1 (by decide)
      · exact Or.inr ⟨Or.inl hst, h2⟩
    · rw [stop_of_not_stopped e hst]
      exact Or.inr ⟨Or.inl rfl, rfl⟩
  | scanned e env processId _ ih =>
    obtain ⟨f1, -, f3, -, -⟩ := scanProcess_frame e env processId
    rw [f1, f3]
    exact ih

/-- The states reached when every thread construction succeeds are among the
states reached with any outcome. -/
theorem reachableWith_of_reachable {e : DetectionEngine} (hr : e.Reachable) :
    e.ReachableWith := by
  induction hr with
  | created config now => exact ReachableWith.created config now
  | started e e' r _ hs ih => exact ReachableWith.started e e' (Except.ok ()) r ih hs
  | stopped e _ ih => exact ReachableWith.stopped e ih
  | scanned e env processId _ ih => exact ReachableWith.scanned e env processId ih

end DetectionEngine

/-- C38 fails as stated: when the constructor of the monitoring thread throws,
`start()` on a newly constructed engine returns false and leaves the state
ERROR. -/
theorem C38_thread_failure_counterexample :
    DetectionEngine.getState (DetectionEngine.new Config.default 0) = State.STOPPED ∧
    (DetectionEngine.new Config.default 0).startWith
        (Except.error "Resource temporarily unavailable")
      = some (false, { DetectionEngine.new Config.default 0 with state_ := State.ERROR }) ∧
    DetectionEngine.getState
      ({ DetectionEngine.new Config.default 0 with state_ := State.ERROR } : DetectionEngine)
      = State.ERROR :=
  ⟨rfl, rfl, rfl⟩

/-- C38, amended: component initialisation succeeds, and in every state reachable
by `start()`, `stop()` and scans, whatever the outcome of constructing the
monitoring thread, the observable state is STOPPED, RUNNING or ERROR (never
STARTING, SCANNING or UPDATING); `start()` returns true and leaves RUNNING when
the engine is running or the thread is created, and returns false and leaves
ERROR when the engine is not running and the construction throws; `stop()`
returns true and leaves STOPPED; and when every thread construction succeeded the
state is STOPPED or RUNNING. -/
theorem C38_engine_states_with_thread_failure (e : DetectionEngine)
    (thread : Except String Unit) (hr : e.ReachableWith) :
    DetectionEngine.initializeComponents = true ∧
    (DetectionEngine.getState e = State.STOPPED ∨ DetectionEngine.getState e = State.RUNNING ∨
      DetectionEngine.getState e = State.ERROR) ∧
    (∃ r e', e.startWith thread = some (r, e') ∧ e'.ReachableWith ∧
      (r = true ↔ (DetectionEngine.getState e = State.RUNNING ∨ thread = Except.ok ())) ∧
      (r = true → DetectionEngine.getState e' = State.RUNNING) ∧
      (r = false → DetectionEngine.getState e' = State.ERROR)) ∧
    e.stop.1 = true ∧ DetectionEngine.getState e.stop.2 = State.STOPPED ∧
    (e.Reachable →
      (DetectionEngine.getState e = State.STOPPED ∨ DetectionEngine.getState e = State.RUNNING) ∧
      ∃ e', e.start = some (true, e') ∧ DetectionEngine.getState e' = State.RUNNING) := by
  have hinv := DetectionEngine.state_of_reachableWith hr
  refine ⟨rfl, ?_, ?_, ?_, ?_, ?_⟩
  · rcases hinv with ⟨h, -⟩ | ⟨h | h, -⟩
    · exact Or.inr (Or.inl h)
    · exact Or.inl h
    · exact Or.inr (Or.inr h)
  · rcases hinv with ⟨h, -⟩ | ⟨h, ht⟩
    · have hs := DetectionEngine.startWith_of_running e thread h
      exact ⟨true, e, hs, hr, ⟨fun _ => Or.inl h, fun _ => rfl⟩, fun _ => h,
        fun hf => absurd hf (by decide)⟩
    · have hne : e.state_ ≠ State.RUNNING := by
        rcases h with h | h <;> rw [h] <;> decide
      cases thread with
      | error what =>
        have hs := DetectionEngine.startWith_of_error e what hne
        refine ⟨false, _, hs, DetectionEngine.ReachableWith.started e _ _ false hr hs,
          ⟨fun hf => absurd hf (by decide), fun hor => ?_⟩, fun hf => absurd hf (by decide),
          fun _ => rfl⟩
        rcases hor with h1 | h1
        · exact absurd h1 hne
        · exact absurd h1 (by simp)
      | ok u =>
        have hs : e.startWith (Except.ok u) = some (true, _) :=
          DetectionEngine.start_of_not_running e hne ht
        exact ⟨true, _, hs, DetectionEngine.ReachableWith.started e _ _ true hr hs,
          ⟨fun _ => Or.inr rfl, fun _ => rfl⟩, fun _ => rfl, fun hf => absurd hf (by decide)⟩
  · by_cases h : e.state_ = State.STOPPED
    · rw [DetectionEngine.stop_of_stopped e h]
    · rw [DetectionEngine.stop_of_not_stopped e h]
  · by_cases h : e.state_ = State.STOPPED
    · rw [DetectionEngine.stop_of_stopped e h]
      exact h
    · rw [DetectionEngine.stop_of_not_stopped e h]
      rfl
  · intro hreach
    rcases DetectionEngine.state_of_reachable hreach with ⟨h, -, -⟩ | ⟨h, ht, -⟩
    · exact ⟨Or.inr h, e, DetectionEngine.start_of_running e h, h⟩
    · exact ⟨Or.inl h, _,
        DetectionEngine.start_of_not_running e (by rw [h]; decide) ht, rfl⟩

/-- Witness of the amended C38: the engine left by a `start()` whose thread
construction threw, started again with a thread that is created. -/
theorem C38_engine_states_with_thread_failure_witness :
    ({ DetectionEngine.new Config.default 0 with state_ := State.ERROR }
      : DetectionEngine).ReachableWith ∧
    ∃ r e', ({ DetectionEngine.new Config.default 0 with state_ := State.ERROR }
        : DetectionEngine).startWith (Except.ok ()) = some (r, e') ∧ e'.ReachableWith ∧
      (r = true ↔
        (DetectionEngine.getState
            ({ DetectionEngine.new Config.default 0 with state_ := State.ERROR }
              : DetectionEngine) = State.RUNNING ∨
          (Except.ok () : Except String Unit) = Except.ok ())) ∧
      (r = true → DetectionEngine.getState e' = State.RUNNING) ∧
      (r = false → DetectionEngine.getState e' = State.ERROR) :=
  ⟨DetectionEngine.ReachableWith.started (DetectionEngine.new Config.default 0) _
      (Except.error "Resource temporarily unavailable") false
      (DetectionEngine.ReachableWith.created _ _) rfl,
    (C38_engine_states_with_thread_failure _ (Except.ok ())
      (DetectionEngine.ReachableWith.started (DetectionEngine.new Config.default 0) _
        (Except.error "Resource temporarily unavailable") false
        (DetectionEngine.ReachableWith.created _ _) rfl)).2.2.1⟩


/-! ## Detection engine: scans that fail -/

namespace DetectionEngine

/-- A scan whose lookup raises returns the error message and leaves the engine as
it was, whatever happens to the later allocations. -/
theorem scanProcessWith_of_lookup_error (e : DetectionEngine) (env : ScanEnv) (processId : Nat)
    (fault : Option (ScanStage × String)) (what : String)
    (herr : getProcessInfo env processId = Except.error what) :
    scanProcessWith e env processId fault
      = ({ ThreatScanResult.new with
            processId := processId
            errorMessage := "Error scanning process: " ++ what }, e) := by
  unfold scanProcessWith
  rw [herr]

/-- A scan in which an allocation of the scoring steps throws returns the error
message and leaves the engine as it was. -/
theorem scanProcessWith_of_scoring_fault (e : DetectionEngine) (env : ScanEnv) (processId : Nat)
    (info : ProcessInfo) (what : String)
    (hok : getProcessInfo env processId = Except.ok info) :
    scanProcessWith e env processId (some (ScanStage.scoring, what))
      = ({ ThreatScanResult.new with
            processId := processId
            errorMessage := "Error scanning process: " ++ what }, e) := by
  unfold scanProcessWith
  rw [hok]

/-- A lookup that gets the NULL handle raises nothing and gives the empty
record. -/
theorem getProcessInfo_of_null (env : ScanEnv) (processId : Nat)
    (h : env.OpenProcess processId = none) :
    getProcessInfo env processId
      = Except.ok { processId := processId, name := "", path := "", parentId := 0 } := by
  unfold getProcessInfo
  rw [h]
  rfl

theorem error_text_ne_empty (what : String) : "Error scanning process: " ++ what ≠ "" := by
  intro h
  have hlen := congrArg String.length h
  simp only [String.length_append] at hlen
  have h24 : ("Error scanning process: " : String).length = 24 := by decide
  rw [h24] at hlen
  have h0 : ("" : String).length = 0 := rfl
  omega

end DetectionEngine

/-- C12 fails as stated: a scan whose lookup opens the process and then fails to
allocate the copy of its name (`std::bad_alloc`) reports the error but is not
counted, `events_processed` stays 0; and so does a scan in which the allocation
of a scoring step throws. -/
theorem C12_failed_scan_not_counted_counterexample :
    (DetectionEngine.failingEnv.OpenProcess 9).isSome = true ∧
    DetectionEngine.failingEnv.lookup_alloc = some "bad allocation" ∧
    DetectionEngine.getProcessInfo DetectionEngine.failingEnv 9
      = Except.error "bad allocation" ∧
    (DetectionEngine.scanProcess (DetectionEngine.new Config.default 0)
      DetectionEngine.failingEnv 9).1.errorMessage = "Error scanning process: bad allocation" ∧
    (DetectionEngine.new Config.default 0).statistics_.events_processed = 0 ∧
    (DetectionEngine.scanProcess (DetectionEngine.new Config.default 0)
      DetectionEngine.failingEnv 9).2.statistics_.events_processed = 0 ∧
    (DetectionEngine.scanProcessWith (DetectionEngine.new Config.default 0)
      DetectionEngine.exampleEnv 7 (some (ScanStage.scoring, "bad allocation"))).1.errorMessage
      = "Error scanning process: bad allocation" ∧
    (DetectionEngine.scanProcessWith (DetectionEngine.new Config.default 0)
      DetectionEngine.exampleEnv 7
      (some (ScanStage.scoring, "bad allocation"))).2.statistics_.events_processed = 0 := by
  have h1 := DetectionEngine.scanProcessWith_of_lookup_error (DetectionEngine.new Config.default 0)
    DetectionEngine.failingEnv 9 none "bad allocation" rfl
  have h2 := DetectionEngine.scanProcessWith_of_scoring_fault
    (DetectionEngine.new Config.default 0) DetectionEngine.exampleEnv 7
    { processId := 7, name := "KeyLogger.exe", path := "C:\\Temp\\kl.exe", parentId := 0 }
    "bad allocation" rfl
  unfold DetectionEngine.scanProcess
  rw [h1, h2]
  exact ⟨rfl, rfl, rfl, rfl, rfl, rfl, rfl, rfl⟩

/-- C12, amended: when a scan fails because the lookup raises or because an
allocation of the scoring steps throws, `scanProcess` does not propagate the
error: it returns a result whose `errorMessage` is the non-empty text
`Error scanning process: ` followed by the cause and whose `isThreat` is false,
and it leaves the engine unchanged: no threat is registered and neither
`threats_detected` nor `events_processed` is incremented. A lookup that gets the
NULL handle is not a failure: it raises nothing. -/
theorem C12_failed_scan_reports_error_only (e : DetectionEngine) (env : ScanEnv)
    (processId : Nat) (fault : Option (ScanStage × String)) (what : String)
    (hfail : DetectionEngine.getProcessInfo env processId = Except.error what ∨
      ((∃ info, DetectionEngine.getProcessInfo env processId = Except.ok info) ∧
        fault = some (ScanStage.scoring, what))) :
    (DetectionEngine.scanProcessWith e env processId fault).1.errorMessage
      = "Error scanning process: " ++ what ∧
    (DetectionEngine.scanProcessWith e env processId fault).1.errorMessage ≠ "" ∧
    (DetectionEngine.scanProcessWith e env processId fault).1.isThreat = false ∧
    (DetectionEngine.scanProcessWith e env processId fault).2 = e ∧
    DetectionEngine.getDetectedThreats (DetectionEngine.scanProcessWith e env processId fault).2
      = DetectionEngine.getDetectedThreats e ∧
    (DetectionEngine.scanProcessWith e env processId fault).2.statistics_.threats_detected
      = e.statistics_.threats_detected ∧
    (DetectionEngine.scanProcessWith e env processId fault).2.statistics_.events_processed
      = e.statistics_.events_processed ∧
    DetectionEngine.scanProcessWith e env processId none
      = DetectionEngine.scanProcess e env processId ∧
    (env.OpenProcess processId = none →
      DetectionEngine.getProcessInfo env processId
        = Except.ok { processId := processId, name := "", path := "", parentId := 0 }) := by
  have hres : DetectionEngine.scanProcessWith e env processId fault
      = ({ ThreatScanResult.new with
            processId := processId
            errorMessage := "Error scanning process: " ++ what }, e) := by
    rcases hfail with herr | ⟨⟨info, hok⟩, hf⟩
    · exact DetectionEngine.scanProcessWith_of_lookup_error e env processId fault what herr
    · rw [hf]
      exact DetectionEngine.scanProcessWith_of_scoring_fault e env processId info what hok
  rw [hres]
  exact ⟨rfl, DetectionEngine.error_text_ne_empty what, rfl, rfl, rfl, rfl, rfl, rfl,
    DetectionEngine.getProcessInfo_of_null env processId⟩

/-- Witness of the amended C12: a lookup whose allocation throws, and a scan of
the key logger in which the allocation of a scoring step throws. -/
theorem C12_failed_scan_reports_error_only_witness :
    (DetectionEngine.getProcessInfo DetectionEngine.failingEnv 9
        = Except.error "bad allocation" ∧
      ∃ info, DetectionEngine.getProcessInfo DetectionEngine.exampleEnv 7 = Except.ok info) ∧
    (DetectionEngine.scanProcessWith DetectionEngine.exampleEngine DetectionEngine.failingEnv
        9 none).1.errorMessage = "Error scanning process: " ++ "bad allocation" ∧
    (DetectionEngine.scanProcessWith DetectionEngine.exampleEngine DetectionEngine.exampleEnv
        7 (some (ScanStage.scoring, "bad allocation"))).2 = DetectionEngine.exampleEngine :=
  ⟨⟨rfl, _, rfl⟩,
    (C12_failed_scan_reports_error_only DetectionEngine.exampleEngine
      DetectionEngine.failingEnv 9 none "bad allocation" (Or.inl rfl)).1,
    (C12_failed_scan_reports_error_only DetectionEngine.exampleEngine
      DetectionEngine.exampleEnv 7 (some (ScanStage.scoring, "bad allocation"))
      "bad allocation" (Or.inr ⟨⟨_, rfl⟩, rfl⟩)).2.2.2.1⟩


/-! ## Binary32 rounding: auxiliary facts -/

theorem floor_le_roundEven (y : ℚ) : ⌊y⌋ ≤ roundEven y := by
  unfold roundEven
  split_ifs <;> omega

theorem le_roundEven (y : ℚ) (n : ℤ) (h : (n : ℚ) ≤ y) : n ≤ roundEven y :=
  le_trans (Int.le_floor.mpr h) (floor_le_roundEven y)

theorem log_eq_of_bounds (x : ℚ) (e : ℤ) (hlo : (2 : ℚ) ^ e ≤ x) (hhi : x < (2 : ℚ) ^ (e + 1)) :
    Int.log 2 x = e := by
  have hpos : 0 < x := lt_of_lt_of_le (by positivity) hlo
  have h1 : e ≤ Int.log 2 x :=
    (Int.zpow_le_iff_le_log (by norm_num) hpos).mp (by exact_mod_cast hlo)
  have h2 : Int.log 2 x < e + 1 :=
    (Int.lt_zpow_iff_log_lt (by norm_num) hpos).mp (by exact_mod_cast hhi)
  omega

/-- The rounding of a value whose binary exponent is known. -/
theorem round32_of_exponent (x : ℚ) (e : ℤ) (he : -126 ≤ e) (hlo : (2 : ℚ) ^ e ≤ x)
    (hhi : x < (2 : ℚ) ^ (e + 1)) :
    round32 x = (roundEven (x / 2 ^ (e - 23)) : ℚ) * 2 ^ (e - 23) := by
  have hpos : 0 < x := lt_of_lt_of_le (by positivity) hlo
  unfold round32
  rw [abs_of_pos hpos, log_eq_of_bounds x e hlo hhi, max_eq_left he]

theorem round32_zero : round32 0 = 0 := by
  norm_num [round32, roundEven]

/-- Rounding never takes a value that is at least one half below one half. -/
theorem half_le_round32 (x : ℚ) (h : 1 / 2 ≤ x) : 1 / 2 ≤ round32 x := by
  have hpos : 0 < x := lt_of_lt_of_le (by norm_num) h
  have hL : (-1 : ℤ) ≤ Int.log 2 x :=
    (Int.zpow_le_iff_le_log (by norm_num) hpos).mp (by norm_num; linarith)
  have hlo : (2 : ℚ) ^ (Int.log 2 x) ≤ x := by
    exact_mod_cast Int.zpow_log_le_self (b := 2) (by norm_num) hpos
  unfold round32
  rw [abs_of_pos hpos, max_eq_left (by omega)]
  generalize Int.log 2 x = L at hL hlo
  have hq : (0 : ℚ) < 2 ^ (L - 23) := by positivity
  rcases le_or_lt L 22 with hle | hgt
  · obtain ⟨k, hk⟩ : ∃ k : ℕ, (k : ℤ) = 22 - L := ⟨(22 - L).toNat, by omega⟩
    have hN : ((2 ^ k : ℤ) : ℚ) * 2 ^ (L - 23) = 1 / 2 := by
      push_cast
      rw [← zpow_natCast, ← zpow_add₀ (by norm_num : (2 : ℚ) ≠ 0), hk]
      have e1 : 22 - L + (L - 23) = -1 := by ring
      rw [e1]
      norm_num
    have hy : ((2 ^ k : ℤ) : ℚ) ≤ x / 2 ^ (L - 23) := by
      rw [le_div_iff₀ hq, hN]
      exact h
    have hr := le_roundEven _ _ hy
    calc (1 : ℚ) / 2 = ((2 ^ k : ℤ) : ℚ) * 2 ^ (L - 23) := hN.symm
      _ ≤ (roundEven (x / 2 ^ (L - 23)) : ℚ) * 2 ^ (L - 23) := by
          apply mul_le_mul_of_nonneg_right _ hq.le
          exact_mod_cast hr
  · have hq1 : (1 : ℚ) ≤ 2 ^ (L - 23) := by
      apply one_le_zpow₀ (by norm_num)
      omega
    have hy : ((1 : ℤ) : ℚ) ≤ x / 2 ^ (L - 23) := by
      rw [le_div_iff₀ hq]
      push_cast
      rw [one_mul]
      calc (2 : ℚ) ^ (L - 23) ≤ 2 ^ L := by
            apply zpow_le_zpow_right₀ (by norm_num)
            omega
        _ ≤ x := hlo
    have hr := le_roundEven _ _ hy
    calc (1 : ℚ) / 2 ≤ 1 * 1 := by norm_num
      _ ≤ (roundEven (x / 2 ^ (L - 23)) : ℚ) * 2 ^ (L - 23) := by
          apply mul_le_mul _ hq1 (by norm_num) _
          · exact_mod_cast hr
          · have h0 : (0 : ℤ) ≤ roundEven (x / 2 ^ (L - 23)) := le_trans (by norm_num) hr
            exact_mod_cast h0

/-! ## Binary32 rounding: the literals of the scorer and the roundings of three runs -/

theorem round32_value_1 : round32 (3 / 10) = 5033165 / 16777216 := by
  rw [round32_of_exponent _ (-2) (by norm_num) (by norm_num) (by norm_num)]
  norm_num [roundEven]

theorem round32_literal_0_3 : round32 0.3 = 5033165 / 16777216 := by
  have e : (0.3 : ℚ) = 3 / 10 := by norm_num
  rw [e]
  exact round32_value_1

theorem round32_value_2 : round32 (7 / 10) = 11744051 / 16777216 := by
  rw [round32_of_exponent _ (-1) (by norm_num) (by norm_num) (by norm_num)]
  norm_num [roundEven]

theorem round32_literal_0_7 : round32 0.7 = 11744051 / 16777216 := by
  have e : (0.7 : ℚ) = 7 / 10 := by norm_num
  rw [e]
  exact round32_value_2

theorem round32_value_3 : round32 (4 / 5) = 13421773 / 16777216 := by
  rw [round32_of_exponent _ (-1) (by norm_num) (by norm_num) (by norm_num)]
  norm_num [roundEven]

theorem round32_literal_0_8 : round32 0.8 = 13421773 / 16777216 := by
  have e : (0.8 : ℚ) = 4 / 5 := by norm_num
  rw [e]
  exact round32_value_3

theorem round32_value_4 : round32 (2 / 5) = 13421773 / 33554432 := by
  rw [round32_of_exponent _ (-2) (by norm_num) (by norm_num) (by norm_num)]
  norm_num [roundEven]

theorem round32_literal_0_4 : round32 0.4 = 13421773 / 33554432 := by
  have e : (0.4 : ℚ) = 2 / 5 := by norm_num
  rw [e]
  exact round32_value_4

theorem round32_value_5 : round32 (3 / 5) = 5033165 / 8388608 := by
  rw [round32_of_exponent _ (-1) (by norm_num) (by norm_num) (by norm_num)]
  norm_num [roundEven]

theorem round32_literal_0_6 : round32 0.6 = 5033165 / 8388608 := by
  have e : (0.6 : ℚ) = 3 / 5 := by norm_num
  rw [e]
  exact round32_value_5

theorem round32_value_6 : round32 (1 / 5) = 13421773 / 67108864 := by
  rw [round32_of_exponent _ (-3) (by norm_num) (by norm_num) (by norm_num)]
  norm_num [roundEven]

theorem round32_literal_0_2 : round32 0.2 = 13421773 / 67108864 := by
  have e : (0.2 : ℚ) = 1 / 5 := by norm_num
  rw [e]
  exact round32_value_6

theorem round32_value_7 : round32 (1 / 2) = 1 / 2 := by
  rw [round32_of_exponent _ (-1) (by norm_num) (by norm_num) (by norm_num)]
  norm_num [roundEven]

theorem round32_literal_0_5 : round32 0.5 = 1 / 2 := by
  have e : (0.5 : ℚ) = 1 / 2 := by norm_num
  rw [e]
  exact round32_value_7

theorem round32_value_8 : round32 (1 / 10) = 13421773 / 134217728 := by
  rw [round32_of_exponent _ (-4) (by norm_num) (by norm_num) (by norm_num)]
  norm_num [roundEven]

theorem round32_literal_0_1 : round32 0.1 = 13421773 / 134217728 := by
  have e : (0.1 : ℚ) = 1 / 10 := by norm_num
  rw [e]
  exact round32_value_8

theorem round32_value_9 : round32 (9 / 10) = 7549747 / 8388608 := by
  rw [round32_of_exponent _ (-1) (by norm_num) (by norm_num) (by norm_num)]
  norm_num [roundEven]

theorem round32_literal_0_9 : round32 0.9 = 7549747 / 8388608 := by
  have e : (0.9 : ℚ) = 9 / 10 := by norm_num
  rw [e]
  exact round32_value_9

theorem round32_value_10 : round32 (5033165 / 16777216) = 5033165 / 16777216 := by
  rw [round32_of_exponent _ (-2) (by norm_num) (by norm_num) (by norm_num)]
  norm_num [roundEven]

theorem round32_value_11 : round32 (11744051 / 33554432) = 11744051 / 33554432 := by
  rw [round32_of_exponent _ (-2) (by norm_num) (by norm_num) (by norm_num)]
  norm_num [roundEven]

theorem round32_value_12 : round32 (21810381 / 33554432) = 5452595 / 8388608 := by
  rw [round32_of_exponent _ (-1) (by norm_num) (by norm_num) (by norm_num)]
  norm_num [roundEven]

theorem round32_value_13 : round32 (13421773 / 33554432) = 13421773 / 33554432 := by
  rw [round32_of_exponent _ (-2) (by norm_num) (by norm_num) (by norm_num)]
  norm_num [roundEven]

theorem round32_value_14 : round32 (13421773 / 67108864) = 13421773 / 67108864 := by
  rw [round32_of_exponent _ (-3) (by norm_num) (by norm_num) (by norm_num)]
  norm_num [roundEven]

theorem round32_value_15 : round32 (73183492350935 / 281474976710656) = 1090519 / 4194304 := by
  rw [round32_of_exponent _ (-2) (by norm_num) (by norm_num) (by norm_num)]
  norm_num [roundEven]

theorem round32_value_16 : round32 (30870077 / 67108864) = 7717519 / 16777216 := by
  rw [round32_of_exponent _ (-2) (by norm_num) (by norm_num) (by norm_num)]
  norm_num [roundEven]

theorem round32_value_17 : round32 (180143990463529 / 4503599627370496) = 10737419 / 268435456 := by
  rw [round32_of_exponent _ (-5) (by norm_num) (by norm_num) (by norm_num)]
  norm_num [roundEven]

theorem round32_value_18 : round32 (134217723 / 268435456) = 16777215 / 33554432 := by
  rw [round32_of_exponent _ (-2) (by norm_num) (by norm_num) (by norm_num)]
  norm_num [roundEven]

theorem round32_value_19 : round32 (16777217 / 33554432) = 1 / 2 := by
  rw [round32_of_exponent _ (-1) (by norm_num) (by norm_num) (by norm_num)]
  norm_num [roundEven]

theorem round32_value_20 : round32 (11744051 / 16777216) = 11744051 / 16777216 := by
  rw [round32_of_exponent _ (-1) (by norm_num) (by norm_num) (by norm_num)]
  norm_num [roundEven]

theorem round32_value_21 : round32 (157625986622423 / 562949953421312) = 9395241 / 33554432 := by
  rw [round32_of_exponent _ (-2) (by norm_num) (by norm_num) (by norm_num)]
  norm_num [roundEven]

theorem round32_value_22 : round32 (32212255 / 67108864) = 1006633 / 2097152 := by
  rw [round32_of_exponent _ (-2) (by norm_num) (by norm_num) (by norm_num)]
  norm_num [roundEven]

theorem round32_value_23 : round32 (180143990463529 / 9007199254740992) = 10737419 / 536870912 := by
  rw [round32_of_exponent _ (-6) (by norm_num) (by norm_num) (by norm_num)]
  norm_num [roundEven]

theorem round32_value_24 : round32 (268435467 / 536870912) = 1 / 2 := by
  rw [round32_of_exponent _ (-1) (by norm_num) (by norm_num) (by norm_num)]
  norm_num [roundEven]

theorem round32_value_25 : round32 (13421773 / 16777216) = 13421773 / 16777216 := by
  rw [round32_of_exponent _ (-1) (by norm_num) (by norm_num) (by norm_num)]
  norm_num [roundEven]

theorem round32_value_26 : round32 (40265319 / 33554432) = 5033165 / 4194304 := by
  rw [round32_of_exponent _ (0) (by norm_num) (by norm_num) (by norm_num)]
  norm_num [roundEven]

theorem round32_value_27 : round32 (15099495 / 8388608) = 15099495 / 8388608 := by
  rw [round32_of_exponent _ (0) (by norm_num) (by norm_num) (by norm_num)]
  norm_num [roundEven]

/-! ## Scorer in binary32 arithmetic -/

theorem analyzeProcessFeaturesWith_some (fl : FloatVal → FloatVal)
    (a0 a1 a2 a3 a4 a5 a6 a7 a8 a9 : FloatVal) (rest : List FloatVal) :
    ∃ p, analyzeProcessFeaturesWith fl
      (a0 :: a1 :: a2 :: a3 :: a4 :: a5 :: a6 :: a7 :: a8 :: a9 :: rest) 0 = some p := by
  have hlt : ¬ (List.length rest + 10 ≤ 2) := by omega
  simp [analyzeProcessFeaturesWith, sizeAdd, SIZE_MOD, vecRead, hlt]

theorem analyzeHookFeaturesWith_some (fl : FloatVal → FloatVal)
    (a0 a1 a2 a3 a4 a5 a6 a7 a8 a9 : FloatVal) (rest : List FloatVal) :
    ∃ h, analyzeHookFeaturesWith fl
      (a0 :: a1 :: a2 :: a3 :: a4 :: a5 :: a6 :: a7 :: a8 :: a9 :: rest) 3 = some h := by
  have hlt : ¬ (List.length rest + 10 ≤ 5) := by omega
  simp [analyzeHookFeaturesWith, sizeAdd, SIZE_MOD, vecRead, hlt]

theorem analyzeActivityFeaturesWith_some (fl : FloatVal → FloatVal)
    (a0 a1 a2 a3 a4 a5 a6 a7 a8 a9 : FloatVal) (rest : List FloatVal) :
    ∃ a, analyzeActivityFeaturesWith fl
      (a0 :: a1 :: a2 :: a3 :: a4 :: a5 :: a6 :: a7 :: a8 :: a9 :: rest) 6 = some a := by
  have hlt : ¬ (List.length rest + 10 ≤ 9) := by omega
  simp [analyzeActivityFeaturesWith, sizeAdd, SIZE_MOD, vecRead, hlt]

/-- On a vector of at least ten entries the three scores are computed and the
total is their weighted sum, each product and each sum rounded. -/
theorem scoresWith_some (fl : FloatVal → FloatVal) (f : FeatureVector) (hlen : 10 ≤ f.length) :
    ∃ p h a, analyzeProcessFeaturesWith fl f 0 = some p ∧
      analyzeHookFeaturesWith fl f 3 = some h ∧ analyzeActivityFeaturesWith fl f 6 = some a ∧
      totalScoreWith fl f
        = some (fl (fl (fl (p * fl 0.4) + fl (h * fl 0.5)) + fl (a * fl 0.1))) := by
  obtain ⟨a0, a1, a2, a3, a4, a5, a6, a7, a8, a9, rest, rfl⟩ := exists_ten_of_length f hlen
  obtain ⟨p, hp⟩ := analyzeProcessFeaturesWith_some fl a0 a1 a2 a3 a4 a5 a6 a7 a8 a9 rest
  obtain ⟨h, hh⟩ := analyzeHookFeaturesWith_some fl a0 a1 a2 a3 a4 a5 a6 a7 a8 a9 rest
  obtain ⟨a, ha⟩ := analyzeActivityFeaturesWith_some fl a0 a1 a2 a3 a4 a5 a6 a7 a8 a9 rest
  refine ⟨p, h, a, hp, hh, ha, ?_⟩
  unfold totalScoreWith
  rw [if_pos hlen, hp, hh, ha]
  rfl

/-- Every feature vector has a total score, whatever the rounding. -/
theorem totalScoreWith_some (fl : FloatVal → FloatVal) (f : FeatureVector) :
    ∃ t, totalScoreWith fl f = some t := by
  rcases Nat.lt_or_ge f.length 10 with hlt | hge
  · refine ⟨0, ?_⟩
    unfold totalScoreWith
    rw [if_neg (by omega)]
  · obtain ⟨p, h, a, -, -, -, ht⟩ := scoresWith_some fl f hge
    exact ⟨_, ht⟩

theorem analyzeWithHeuristicsWith_of_total (fl : FloatVal → FloatVal) {f : FeatureVector}
    {t : FloatVal} (h : totalScoreWith fl f = some t) :
    ∃ r, analyzeWithHeuristicsWith fl f = some r ∧
      r.predicted_class =
        (if t ≥ fl 0.9 then ThreatType.KEYLOGGER else if t ≥ fl 0.7 then ThreatType.SPYWARE
         else if t ≥ fl 0.5 then ThreatType.SUSPICIOUS_BEHAVIOR else ThreatType.UNKNOWN) ∧
      r.confidence =
        (if t ≥ fl 0.9 then t else if t ≥ fl 0.7 then t else if t ≥ fl 0.5 then t
         else fl (1 - t)) := by
  unfold analyzeWithHeuristicsWith
  rw [h]
  by_cases h9 : t ≥ fl 0.9
  · simp [vecWrite, h9]
  · by_cases h7 : t ≥ fl 0.7
    · simp [vecWrite, h9, h7]
    · by_cases h5 : t ≥ fl 0.5
      · simp [vecWrite, h9, h7, h5]
      · simp [vecWrite, h9, h7, h5]

theorem predictWith_of_total (fl : FloatVal → FloatVal) {m : MLEngine} {f : FeatureVector}
    {t : FloatVal} (elapsed_ms : FloatVal) (hm : m.model_loaded_ = true)
    (h : totalScoreWith fl f = some t) :
    ∃ r, m.predictWith fl f elapsed_ms
        = some (r, { m with inference_count_ := (m.inference_count_ + 1) % SIZE_MOD }) ∧
      r.predicted_class =
        (if t ≥ fl 0.9 then ThreatType.KEYLOGGER else if t ≥ fl 0.7 then ThreatType.SPYWARE
         else if t ≥ fl 0.5 then ThreatType.SUSPICIOUS_BEHAVIOR else ThreatType.UNKNOWN) ∧
      r.confidence =
        (if t ≥ fl 0.9 then t else if t ≥ fl 0.7 then t else if t ≥ fl 0.5 then t
         else fl (1 - t)) ∧
      r.features_used = f ∧ r.inference_time_ms = some elapsed_ms ∧ r.is_valid = true := by
  obtain ⟨r, hr, hc, hconf⟩ := analyzeWithHeuristicsWith_of_total fl h
  refine ⟨{ r with inference_time_ms := some elapsed_ms, features_used := f, is_valid := true },
    ?_, hc, hconf, rfl, rfl, rfl⟩
  simp [MLEngine.predictWith, hm, hr]

/-- The scores and the total that binary32 arithmetic gives for the vector whose
exact total is one half. -/
theorem scores_round32_first_sample :
    analyzeProcessFeaturesWith round32 [0.5, 20, 0, 5, 0, 0, 200, 0, 60, 0] 0 = some (5452595 / 8388608) ∧
    analyzeHookFeaturesWith round32 [0.5, 20, 0, 5, 0, 0, 200, 0, 60, 0] 3 = some (13421773 / 33554432) ∧
    analyzeActivityFeaturesWith round32 [0.5, 20, 0, 5, 0, 0, 200, 0, 60, 0] 6 = some (13421773 / 33554432) ∧
    totalScoreWith round32 [0.5, 20, 0, 5, 0, 0, 200, 0, 60, 0] = some (16777215 / 33554432) := by
  refine ⟨?_, ?_, ?_, ?_⟩ <;>
  norm_num [totalScoreWith, analyzeProcessFeaturesWith, analyzeHookFeaturesWith,
    analyzeActivityFeaturesWith, sizeAdd, SIZE_MOD, vecRead, min_def, round32_zero,
    round32_value_1, round32_literal_0_3, round32_value_2, round32_literal_0_7, round32_value_3,
    round32_literal_0_8, round32_value_4, round32_literal_0_4, round32_value_5,
    round32_literal_0_6, round32_value_6, round32_literal_0_2, round32_value_7,
    round32_literal_0_5, round32_value_8, round32_literal_0_1, round32_value_9,
    round32_literal_0_9, round32_value_10, round32_value_11, round32_value_12, round32_value_13,
    round32_value_14, round32_value_15, round32_value_16, round32_value_17, round32_value_18,
    round32_value_19, round32_value_20, round32_value_21, round32_value_22, round32_value_23,
    round32_value_24, round32_value_25, round32_value_26, round32_value_27]

/-- The scores and the total that binary32 arithmetic gives for a vector whose
rounded total is exactly one half. -/
theorem scores_round32_second_sample :
    analyzeProcessFeaturesWith round32 [1, 0, 0, 5, 0, 0, 0, 0, 60, 0] 0 = some (11744051 / 16777216) ∧
    analyzeHookFeaturesWith round32 [1, 0, 0, 5, 0, 0, 0, 0, 60, 0] 3 = some (13421773 / 33554432) ∧
    analyzeActivityFeaturesWith round32 [1, 0, 0, 5, 0, 0, 0, 0, 60, 0] 6 = some (13421773 / 67108864) ∧
    totalScoreWith round32 [1, 0, 0, 5, 0, 0, 0, 0, 60, 0] = some (1 / 2) := by
  refine ⟨?_, ?_, ?_, ?_⟩ <;>
  norm_num [totalScoreWith, analyzeProcessFeaturesWith, analyzeHookFeaturesWith,
    analyzeActivityFeaturesWith, sizeAdd, SIZE_MOD, vecRead, min_def, round32_zero,
    round32_value_1, round32_literal_0_3, round32_value_2, round32_literal_0_7, round32_value_3,
    round32_literal_0_8, round32_value_4, round32_literal_0_4, round32_value_5,
    round32_literal_0_6, round32_value_6, round32_literal_0_2, round32_value_7,
    round32_literal_0_5, round32_value_8, round32_literal_0_1, round32_value_9,
    round32_literal_0_9, round32_value_10, round32_value_11, round32_value_12, round32_value_13,
    round32_value_14, round32_value_15, round32_value_16, round32_value_17, round32_value_18,
    round32_value_19, round32_value_20, round32_value_21, round32_value_22, round32_value_23,
    round32_value_24, round32_value_25, round32_value_26, round32_value_27]

/-- What `predict` returns in binary32 arithmetic on the first sample: the benign
class with confidence exactly one half. -/
theorem predict_round32_first_sample (m : MLEngine) (elapsed_ms : FloatVal)
    (hm : m.model_loaded_ = true) :
    ∃ result m', m.predictWith round32 [0.5, 20, 0, 5, 0, 0, 200, 0, 60, 0] elapsed_ms = some (result, m') ∧
      result.predicted_class = ThreatType.UNKNOWN ∧ result.confidence = 1 / 2 ∧
      result.is_valid = true := by
  obtain ⟨r, hp, hc, hconf, -, -, hv⟩ :=
    predictWith_of_total round32 elapsed_ms hm scores_round32_first_sample.2.2.2
  refine ⟨r, _, hp, ?_, ?_, hv⟩
  · rw [hc, round32_literal_0_9, round32_literal_0_7, round32_literal_0_5]
    norm_num
  · rw [hconf, round32_literal_0_9, round32_literal_0_7, round32_literal_0_5]
    norm_num [
    round32_value_1, round32_literal_0_3, round32_value_2, round32_literal_0_7, round32_value_3,
    round32_literal_0_8, round32_value_4, round32_literal_0_4, round32_value_5,
    round32_literal_0_6, round32_value_6, round32_literal_0_2, round32_value_7,
    round32_literal_0_5, round32_value_8, round32_literal_0_1, round32_value_9,
    round32_literal_0_9, round32_value_10, round32_value_11, round32_value_12, round32_value_13,
    round32_value_14, round32_value_15, round32_value_16, round32_value_17, round32_value_18,
    round32_value_19, round32_value_20, round32_value_21, round32_value_22, round32_value_23,
    round32_value_24, round32_value_25, round32_value_26, round32_value_27]


/-- What `predict` returns in binary32 arithmetic on the second sample: the
suspicious class with confidence exactly one half. -/
theorem predict_round32_second_sample (m : MLEngine) (elapsed_ms : FloatVal)
    (hm : m.model_loaded_ = true) :
    ∃ result m', m.predictWith round32 [1, 0, 0, 5, 0, 0, 0, 0, 60, 0] elapsed_ms = some (result, m') ∧
      result.predicted_class = ThreatType.SUSPICIOUS_BEHAVIOR ∧ result.confidence = 1 / 2 ∧
      result.is_valid = true := by
  obtain ⟨r, hp, hc, hconf, -, -, hv⟩ :=
    predictWith_of_total round32 elapsed_ms hm scores_round32_second_sample.2.2.2
  refine ⟨r, _, hp, ?_, ?_, hv⟩
  · rw [hc, round32_literal_0_9, round32_literal_0_7, round32_literal_0_5]
    norm_num
  · rw [hconf, round32_literal_0_9, round32_literal_0_7, round32_literal_0_5]
    norm_num

/-- The exact total of the first sample is one half, so in exact arithmetic
`predict` selects SUSPICIOUS_BEHAVIOR there. -/
theorem predict_exact_first_sample (m : MLEngine) (elapsed_ms : FloatVal)
    (hm : m.model_loaded_ = true) :
    totalScore [0.5, 20, 0, 5, 0, 0, 200, 0, 60, 0] = some (1 / 2) ∧
    ∃ result m', m.predict [0.5, 20, 0, 5, 0, 0, 200, 0, 60, 0] elapsed_ms = some (result, m') ∧
      result.predicted_class = ThreatType.SUSPICIOUS_BEHAVIOR ∧ result.confidence = 1 / 2 := by
  have ht : totalScore [0.5, 20, 0, 5, 0, 0, 200, 0, 60, 0] = some (1 / 2) := by
    rw [totalScore_ten]
    norm_num
  obtain ⟨r, hp, hc, hconf, -⟩ := predict_of_total elapsed_ms hm ht
  refine ⟨ht, r, _, hp, ?_, ?_⟩
  · rw [hc]
    norm_num
  · rw [hconf]
    norm_num

/-! ## Scorer: class selection -/

/-- C1 fails as stated, because the code computes in binary32 and the claim in
real numbers. On the vector `[0.5, 20, 0, 5, 0, 0, 200, 0, 60, 0]` the inputs
give `processScore = 0.65`, `hookScore = 0.4`, `activityScore = 0.4` and
`0.4 * 0.65 + 0.5 * 0.4 + 0.1 * 0.4 = 0.5`, so the claim selects
SUSPICIOUS_BEHAVIOR with confidence 0.5; the code computes the total
`16777215 / 33554432`, one unit in the last place below one half, and returns the
benign class UNKNOWN with confidence exactly `0.5`. Reading the three scores as the
values the code holds does not save the claim: on `[1, 0, 0, 5, 0, 0, 0, 0, 60, 0]`
the code holds `0.7f`, `0.4f` and `0.2f`, whose exact weighted sum with the weights
0.4, 0.5 and 0.1 is below one half, and the code returns SUSPICIOUS_BEHAVIOR,
because its rounded total is exactly one half. -/
theorem C1_rounded_total_counterexample :
    processScoreRef [0.5, 20, 0, 5, 0, 0, 200, 0, 60, 0] = 13 / 20 ∧
    hookScoreRef [0.5, 20, 0, 5, 0, 0, 200, 0, 60, 0] = 2 / 5 ∧
    activityScoreRef [0.5, 20, 0, 5, 0, 0, 200, 0, 60, 0] = 2 / 5 ∧
    (0.4 * (13 / 20) + 0.5 * (2 / 5) + 0.1 * (2 / 5) : FloatVal) ≥ 0.5 ∧
    (∃ result m', ( MLEngine.initialize MLEngine.new 0).2.predict [0.5, 20, 0, 5, 0, 0, 200, 0, 60, 0] 1 = some (result, m') ∧
      result.predicted_class = ThreatType.SUSPICIOUS_BEHAVIOR) ∧
    totalScoreWith round32 [0.5, 20, 0, 5, 0, 0, 200, 0, 60, 0] = some (16777215 / 33554432) ∧
    (∃ result m', ( MLEngine.initialize MLEngine.new 0).2.predictWith round32 [0.5, 20, 0, 5, 0, 0, 200, 0, 60, 0] 1 = some (result, m') ∧
      result.predicted_class = ThreatType.UNKNOWN ∧ result.confidence = 1 / 2) ∧
    analyzeProcessFeaturesWith round32 [1, 0, 0, 5, 0, 0, 0, 0, 60, 0] 0 = some (11744051 / 16777216) ∧
    analyzeHookFeaturesWith round32 [1, 0, 0, 5, 0, 0, 0, 0, 60, 0] 3 = some (13421773 / 33554432) ∧
    analyzeActivityFeaturesWith round32 [1, 0, 0, 5, 0, 0, 0, 0, 60, 0] 6 = some (13421773 / 67108864) ∧
    (0.4 * (11744051 / 16777216) + 0.5 * (13421773 / 33554432)
      + 0.1 * (13421773 / 67108864) : FloatVal) < 0.5 ∧
    (∃ result m', ( MLEngine.initialize MLEngine.new 0).2.predictWith round32 [1, 0, 0, 5, 0, 0, 0, 0, 60, 0] 1 = some (result, m') ∧
      result.predicted_class = ThreatType.SUSPICIOUS_BEHAVIOR ∧ result.confidence = 1 / 2) := by
  obtain ⟨-, r1, m1, hp1, hc1, -⟩ := predict_exact_first_sample ( MLEngine.initialize MLEngine.new 0).2 1 rfl
  obtain ⟨r2, m2, hp2, hc2, hconf2, -⟩ := predict_round32_first_sample ( MLEngine.initialize MLEngine.new 0).2 1 rfl
  obtain ⟨r3, m3, hp3, hc3, hconf3, -⟩ := predict_round32_second_sample ( MLEngine.initialize MLEngine.new 0).2 1 rfl
  refine ⟨?_, ?_, ?_, ?_, ⟨r1, m1, hp1, hc1⟩, scores_round32_first_sample.2.2.2,
    ⟨r2, m2, hp2, hc2, hconf2⟩, scores_round32_second_sample.1,
    scores_round32_second_sample.2.1, scores_round32_second_sample.2.2.1, ?_,
    ⟨r3, m3, hp3, hc3, hconf3⟩⟩
  · norm_num [processScoreRef]
  · norm_num [hookScoreRef]
  · norm_num [activityScoreRef]
  · norm_num
  · norm_num

/-- C1, amended: on an engine whose model is loaded, for every feature vector of
length at least 10 the three group scores are computed, and with `total` the
weighted sum in binary32 arithmetic, that is
`fl (fl (fl (processScore * 0.4f) + fl (hookScore * 0.5f)) + fl (activityScore * 0.1f))`
where `fl` rounds to the nearest binary32 value, `predict` returns KEYLOGGER if
`total ≥ 0.9f`, otherwise SPYWARE if `total ≥ 0.7f`, otherwise SUSPICIOUS_BEHAVIOR
if `total ≥ 0.5f`, otherwise UNKNOWN (benign); the confidence is `fl (1 - total)`
in the benign case and `total` in the other three. The weights and the thresholds
are the binary32 values nearest to the decimal literals. -/
theorem C1_predict_selects_class_by_rounded_thresholds (m : MLEngine)
    (features : FeatureVector) (elapsed_ms : FloatVal) (hm : m.model_loaded_ = true)
    (hlen : 10 ≤ features.length) :
    ∃ processScore hookScore activityScore total result m',
      analyzeProcessFeaturesWith round32 features 0 = some processScore ∧
      analyzeHookFeaturesWith round32 features 3 = some hookScore ∧
      analyzeActivityFeaturesWith round32 features 6 = some activityScore ∧
      total = round32 (round32 (round32 (processScore * round32 0.4)
        + round32 (hookScore * round32 0.5)) + round32 (activityScore * round32 0.1)) ∧
      m.predictWith round32 features elapsed_ms = some (result, m') ∧
      result.predicted_class =
        (if total ≥ round32 0.9 then ThreatType.KEYLOGGER
         else if total ≥ round32 0.7 then ThreatType.SPYWARE
         else if total ≥ round32 0.5 then ThreatType.SUSPICIOUS_BEHAVIOR
         else ThreatType.UNKNOWN) ∧
      result.confidence =
        (if result.predicted_class = ThreatType.UNKNOWN then round32 (1 - total) else total) ∧
      round32 0.4 = 13421773 / 33554432 ∧ round32 0.5 = 1 / 2 ∧
      round32 0.1 = 13421773 / 134217728 ∧ round32 0.9 = 7549747 / 8388608 ∧
      round32 0.7 = 11744051 / 16777216 := by
  obtain ⟨p, h, a, hp, hh, ha, ht⟩ := scoresWith_some round32 features hlen
  obtain ⟨r, hr, hclass, hconf, -⟩ := predictWith_of_total round32 elapsed_ms hm ht
  refine ⟨p, h, a, _, r, _, hp, hh, ha, rfl, hr, hclass, ?_, round32_literal_0_4,
    round32_literal_0_5, round32_literal_0_1, round32_literal_0_9, round32_literal_0_7⟩
  rw [hconf, hclass]
  generalize round32 (round32 (round32 (p * round32 0.4) + round32 (h * round32 0.5))
    + round32 (a * round32 0.1)) = t
  split_ifs <;> first | rfl | (exfalso; simp_all)

/-- Witness of C1: the vector with five hooks, a keyboard hook and a hidden
window, scored by a freshly initialised engine. -/
theorem C1_predict_selects_class_by_rounded_thresholds_witness :
    (( MLEngine.initialize MLEngine.new 0).2.model_loaded_ = true ∧
      10 ≤ ([0, 0, 0, 5, 1, 1, 0, 0, 0, 0] : FeatureVector).length) ∧
    ∃ processScore hookScore activityScore total result m',
      analyzeProcessFeaturesWith round32 [0, 0, 0, 5, 1, 1, 0, 0, 0, 0] 0 = some processScore ∧
      analyzeHookFeaturesWith round32 [0, 0, 0, 5, 1, 1, 0, 0, 0, 0] 3 = some hookScore ∧
      analyzeActivityFeaturesWith round32 [0, 0, 0, 5, 1, 1, 0, 0, 0, 0] 6 = some activityScore ∧
      total = round32 (round32 (round32 (processScore * round32 0.4)
        + round32 (hookScore * round32 0.5)) + round32 (activityScore * round32 0.1)) ∧
      ( MLEngine.initialize MLEngine.new 0).2.predictWith round32 [0, 0, 0, 5, 1, 1, 0, 0, 0, 0] 1 = some (result, m') ∧
      result.predicted_class =
        (if total ≥ round32 0.9 then ThreatType.KEYLOGGER
         else if total ≥ round32 0.7 then ThreatType.SPYWARE
         else if total ≥ round32 0.5 then ThreatType.SUSPICIOUS_BEHAVIOR
         else ThreatType.UNKNOWN) ∧
      result.confidence =
        (if result.predicted_class = ThreatType.UNKNOWN then round32 (1 - total) else total) ∧
      round32 0.4 = 13421773 / 33554432 ∧ round32 0.5 = 1 / 2 ∧
      round32 0.1 = 13421773 / 134217728 ∧ round32 0.9 = 7549747 / 8388608 ∧
      round32 0.7 = 11744051 / 16777216 :=
  ⟨⟨rfl, by decide⟩,
    C1_predict_selects_class_by_rounded_thresholds _ [0, 0, 0, 5, 1, 1, 0, 0, 0, 0] 1 rfl (by decide)⟩

/-! ## Scorer: the confidence of a prediction -/

/-- C34 fails as stated: on the vector `[0.5, 20, 0, 5, 0, 0, 200, 0, 60, 0]` a
freshly initialised engine computes a total below 0.5 and returns a valid result
whose confidence is exactly 0.5, because `1 - total` rounds to one half; so the
confidence of a benign result neither exceeds 0.5 nor equals `1 - total`. -/
theorem C34_confidence_exactly_half_counterexample :
    ( MLEngine.initialize MLEngine.new 0).2.Reachable ∧
    ( MLEngine.initialize MLEngine.new 0).2.initialized_ = true ∧
    totalScoreWith round32 [0.5, 20, 0, 5, 0, 0, 200, 0, 60, 0] = some (16777215 / 33554432) ∧
    (16777215 / 33554432 : FloatVal) < 0.5 ∧
    ∃ result m', ( MLEngine.initialize MLEngine.new 0).2.predictWith round32 [0.5, 20, 0, 5, 0, 0, 200, 0, 60, 0] 1 = some (result, m') ∧
      result.is_valid = true ∧ result.confidence = 1 / 2 ∧ ¬ (0.5 < result.confidence) ∧
      result.confidence ≠ 1 - 16777215 / 33554432 := by
  obtain ⟨r, m', hp, -, hconf, hv⟩ := predict_round32_first_sample ( MLEngine.initialize MLEngine.new 0).2 1 rfl
  refine ⟨MLEngine.Reachable.initialized _ 0 MLEngine.Reachable.created, rfl,
    scores_round32_first_sample.2.2.2, by norm_num, r, m', hp, hv, hconf, ?_, ?_⟩
  · rw [hconf]
    norm_num
  · rw [hconf]
    norm_num

/-- C34, amended: on a reachable, initialised engine every feature vector is
scored: with `total` the weighted sum in binary32 arithmetic, `predict` returns a
valid result whose confidence is `total` when `total ≥ 0.5` and `1 - total`
rounded to binary32 when `total < 0.5`; the confidence of a valid prediction is
never below 0.5, and it can equal 0.5 in either case. -/
theorem C34_confidence_at_least_half_rounded (m : MLEngine) (features : FeatureVector)
    (elapsed_ms : FloatVal) (hr : m.Reachable) (hinit : m.initialized_ = true) :
    ∃ total result m',
      totalScoreWith round32 features = some total ∧
      m.predictWith round32 features elapsed_ms = some (result, m') ∧ result.is_valid = true ∧
      (total ≥ 0.5 → result.confidence = total) ∧
      (total < 0.5 → result.confidence = round32 (1 - total)) ∧
      0.5 ≤ result.confidence := by
  have hm := MLEngine.loaded_of_initialized hr hinit
  obtain ⟨t, ht⟩ := totalScoreWith_some round32 features
  obtain ⟨r, hp, -, hconf, -, -, hvalid⟩ := predictWith_of_total round32 elapsed_ms hm ht
  rw [round32_literal_0_9, round32_literal_0_7, round32_literal_0_5] at hconf
  have hge : t ≥ 0.5 → r.confidence = t := by
    intro h
    have h5 : t ≥ 1 / 2 := by norm_num at h ⊢; exact h
    rw [hconf]
    split_ifs <;> rfl
  have hlt : t < 0.5 → r.confidence = round32 (1 - t) := by
    intro h
    have h5 : ¬ t ≥ 1 / 2 := by norm_num at h ⊢; exact h
    have h7 : ¬ t ≥ 11744051 / 16777216 := by norm_num at h ⊢; linarith
    have h9 : ¬ t ≥ 7549747 / 8388608 := by norm_num at h ⊢; linarith
    rw [hconf, if_neg h9, if_neg h7, if_neg h5]
  refine ⟨t, r, _, ht, hp, hvalid, hge, hlt, ?_⟩
  rcases le_or_lt (0.5 : FloatVal) t with h | h
  · rw [hge h]
    exact h
  · rw [hlt h]
    have hx : (1 : ℚ) / 2 ≤ 1 - t := by norm_num at h ⊢; linarith
    have := half_le_round32 (1 - t) hx
    norm_num at this ⊢
    exact this

/-- Witness of C34: the vector with a negative name-suspicion entry, scored by a
freshly initialised engine. -/
theorem C34_confidence_at_least_half_rounded_witness :
    (( MLEngine.initialize MLEngine.new 0).2.Reachable ∧
      ( MLEngine.initialize MLEngine.new 0).2.initialized_ = true) ∧
    ∃ total result m',
      totalScoreWith round32 [-10, 0, 0, 0, 0, 0, 0, 0, 0, 0] = some total ∧
      ( MLEngine.initialize MLEngine.new 0).2.predictWith round32 [-10, 0, 0, 0, 0, 0, 0, 0, 0, 0] 1 = some (result, m') ∧ result.is_valid = true ∧
      (total ≥ 0.5 → result.confidence = total) ∧
      (total < 0.5 → result.confidence = round32 (1 - total)) ∧
      0.5 ≤ result.confidence :=
  ⟨⟨MLEngine.Reachable.initialized _ 0 MLEngine.Reachable.created, rfl⟩,
    C34_confidence_at_least_half_rounded _ [-10, 0, 0, 0, 0, 0, 0, 0, 0, 0] 1
      (MLEngine.Reachable.initialized _ 0 MLEngine.Reachable.created) rfl⟩


end AntivirusCore
